import Mathlib

/-!
# systemd-netlogd: message formatter and send path

A shallow embedding of `src/netlog/netlog-network.c` (formatters, send path, socket set-up and
teardown) and of `src/netlog/netlog-dtls.c` (write, connect, disconnect).  C strings are `String`s, a NULL pointer is `none`, a gather list
(`struct iovec[]` filled by `IOVEC_SET_STRING`) is the `List String` of its segments, and C `int`s
are `Int`s.  A function returns `none` when the C code does not return normally: a failed
`assert` aborts the process, and the scripted system-call outcomes may run out before the send
loop ends.  Buffer sizes are compared with `String.length`: the strings the code measures (the
priority header and the timestamp) consist of ASCII characters, one byte each.
-/

namespace Netlogd

/-! ## Constants of the system headers (Linux values) -/

def EINTR : Int := 4
def EAGAIN : Int := 11
def EPIPE : Int := 32
def EAFNOSUPPORT : Int := 97
def ETIMEDOUT : Int := 110
def AF_INET : Int := 2
def AF_INET6 : Int := 10
def EPOLLIN : Int := 1
def EPOLLOUT : Int := 4
def ENOMEM : Int := 12
def EMFILE : Int := 24
def EPROTONOSUPPORT : Int := 93
def ECONNREFUSED : Int := 111
def EINPROGRESS : Int := 115
def POLLOUT : Int := 4
def SHUT_RDWR : Int := 2

/-- The value `USEC_PER_MSEC`. -/
def USEC_PER_MSEC : Nat := 1000

/-- The `SEND_TIMEOUT_USEC` of netlog-network.c: 200 ms in microseconds. -/
def SEND_TIMEOUT_USEC : Nat := 200 * USEC_PER_MSEC

/-- The `RFC_5424_NILVALUE` token of netlog-network.c. -/
def RFC_5424_NILVALUE : String := "-"

/-- The `RFC_5424_PROTOCOL` version number of netlog-network.c. -/
def RFC_5424_PROTOCOL : Nat := 1

/-! ## Data model (netlog-manager.h) -/

/-- The enum `SysLogTransmissionProtocol`; `INVALID` stands for every value that is none of
the four protocols. -/
inductive SysLogTransmissionProtocol
  | SYSLOG_TRANSMISSION_PROTOCOL_UDP
  | SYSLOG_TRANSMISSION_PROTOCOL_TCP
  | SYSLOG_TRANSMISSION_PROTOCOL_DTLS
  | SYSLOG_TRANSMISSION_PROTOCOL_TLS
  | SYSLOG_TRANSMISSION_PROTOCOL_INVALID
  deriving DecidableEq, Repr

/-- The enum `SysLogTransmissionLogFormat`; `INVALID` stands for every other value. -/
inductive SysLogTransmissionLogFormat
  | SYSLOG_TRANSMISSION_LOG_FORMAT_RFC_5424
  | SYSLOG_TRANSMISSION_LOG_FORMAT_RFC_3339
  | SYSLOG_TRANSMISSION_LOG_FORMAT_INVALID
  deriving DecidableEq, Repr

open SysLogTransmissionProtocol SysLogTransmissionLogFormat

/-- The fields of `DTLSManager` the code below reads or writes: `ssl`, `bio` and `ctx` tell
whether the pointer is non-NULL. -/
structure DTLSManager where
  ssl : Bool
  fd : Int
  events : Int
  connected : Bool
  bio : Bool := false
  ctx : Bool := false
  deriving DecidableEq, Repr

/-- The field of `TLSManager` that netlog-network.c reads. -/
structure TLSManager where
  connected : Bool
  deriving DecidableEq, Repr

/-- The fields of `struct Manager` used by netlog-network.c; `sa_family` is
`address.sockaddr.sa.sa_family`. -/
structure Manager where
  socket : Int
  sa_family : Int
  structured_data : Option String
  protocol : SysLogTransmissionProtocol
  log_format : SysLogTransmissionLogFormat
  dtls : DTLSManager
  tls : TLSManager
  keep_alive : Bool
  no_delay : Bool
  connected : Bool
  keep_alive_cnt : Nat
  send_buffer : Nat
  keep_alive_time : Nat
  keep_alive_interval : Nat
  deriving DecidableEq, Repr

/-- The C `struct timeval`. -/
structure timeval where
  tv_sec : Int
  tv_usec : Int
  deriving DecidableEq, Repr

/-- The fields of the C `struct tm` that `strftime` reads for `%Y-%m-%dT%T`; `localtime_r`
normalises all but the year to small non-negative numbers. -/
structure tm where
  tm_sec : Nat
  tm_min : Nat
  tm_hour : Nat
  tm_mday : Nat
  tm_mon : Nat
  tm_year : Int
  deriving DecidableEq, Repr

/-- Outcome of one `sendmsg(2)`: the byte count, or `-1` with `errno` set. -/
inductive SendmsgResult
  | sent (n : Nat)
  | error (errno : Int)
  deriving DecidableEq, Repr

/-- An external call made by the send path, with the gather list handed over. -/
inductive Call
  | manager_connect
  | dtls_datagram_writev (iov : List String)
  | tls_stream_writev (iov : List String)
  | sendmsg (iov : List String)
  | fd_wait_for_event (event : Int) (timeout_usec : Nat)
  deriving DecidableEq, Repr

/-- Everything netlog-network.c takes from outside the file: the C library, the clock, the
missing header constant `FORMAT_TIMESTAMP_MAX`, `manager_connect` (netlog-manager.c), the secure
writers `dtls_datagram_writev` and `tls_stream_writev`, and the outcomes of the successive
`sendmsg` and `fd_wait_for_event` calls of one send. -/
structure Env where
  FORMAT_TIMESTAMP_MAX : Nat
  now : Int
  localtime_r : Int → tm
  strftime_z : tm → String
  manager_connect : Manager → Int × Manager
  dtls_datagram_writev : DTLSManager → List String → Int × DTLSManager
  tls_stream_writev : TLSManager → List String → Int × TLSManager
  sendmsg : List SendmsgResult
  fd_wait_for_event : List Int

/-- The manager together with the log of external calls made so far, oldest first. -/
structure World where
  m : Manager
  calls : List Call
  deriving DecidableEq, Repr

/-! ## C library formatting -/

/-- Zero padding on the left up to `width` characters, as printf does for `%0<width>`. -/
def zero_pad (width : Nat) (digits : List Char) : List Char :=
  List.replicate (width - digits.length) '0' ++ digits

/-- The printf conversion `%i` of an unsigned 8-bit value promoted to `int`. -/
def printf_i (n : Nat) : String := Nat.repr n

/-- The printf conversion `%06ld`: minimum width six, zero padded, the sign first. -/
def printf_06ld (v : Int) : String :=
  if 0 ≤ v then String.mk (zero_pad 6 (Nat.toDigits 10 v.toNat))
  else String.mk ('-' :: zero_pad 5 (Nat.toDigits 10 (-v).toNat))

/-- The strftime conversion of a two-digit field (`%m`, `%d`, `%H`, `%M`, `%S`). -/
def strftime_02 (n : Nat) : String := String.mk (zero_pad 2 (Nat.toDigits 10 n))

/-- The strftime conversion `%Y`: the year as a decimal number. -/
def strftime_Y (y : Int) : String :=
  if 0 ≤ y then Nat.repr y.toNat else "-" ++ Nat.repr (-y).toNat

/-- The expansion of the strftime format `%Y-%m-%dT%T` used by `format_rfc3339_timestamp`. -/
def strftime_YmdT (t : tm) : String :=
  strftime_Y (t.tm_year + 1900) ++ "-" ++ strftime_02 (t.tm_mon + 1) ++ "-" ++
    strftime_02 t.tm_mday ++ "T" ++ strftime_02 t.tm_hour ++ ":" ++ strftime_02 t.tm_min ++
    ":" ++ strftime_02 t.tm_sec

/-- The printf conversion `%.<p>s`: at most `p` characters of the string. -/
def printf_prec_s (p : Nat) (s : String) : String := String.mk (s.data.take p)

/-- Pointer arithmetic `s + k` on a C string at least `k` characters long. -/
def str_offset (s : String) (k : Nat) : String := String.mk (s.data.drop k)

/-- The value `USEC_PER_SEC`. -/
def USEC_PER_SEC : Int := 1000000

/-! ## netlog-network.c -/

/-- The timestamp writer `format_rfc3339_timestamp(tv, header_time, header_size)`: the result is
the content of `header_time`, and `none` is a failed assertion (also the one inside
`xstrftime`, whose buffer `gm_buf` has `sizeof("+0530") + 1 = 7` bytes). -/
def format_rfc3339_timestamp (env : Env) (tv : Option timeval) (header_size : Nat) :
    Option String :=
  let t : Int := match tv with
    | some v => v.tv_sec
    | none => env.now / USEC_PER_SEC
  let lt := env.localtime_r t
  let date := strftime_YmdT lt
  -- strftime returns 0 when the text and its NUL do not fit
  let written := if date.length < header_size then date.length else 0
  if written = 0 then none else
  let header_size1 := header_size - written
  -- add fractional part
  let frac : Option String := match tv with
    | some v =>
        let s := "." ++ printf_06ld v.tv_usec
        if 0 < s.length ∧ s.length < header_size1 then some s else none
    | none => some ""
  match frac with
  | none => none
  | some frac =>
    let header_size2 := header_size1 - frac.length
    -- format the timezone according to RFC
    let gm_buf := env.strftime_z lt
    if ¬ (0 < gm_buf.length ∧ gm_buf.length < 7) then none else
    let zone := printf_prec_s 3 gm_buf ++ ":" ++ printf_prec_s 2 (str_offset gm_buf 3) ++ " "
    if 0 < zone.length ∧ zone.length < header_size2 then some (date ++ frac ++ zone) else none

/-- The conversion `makepri = (facility << 3) + severity` into a `uint8_t`. -/
def makepri (severity facility : Int) : Nat := ((facility * 8 + severity) % 256).toNat

/-- The send loop `sendmsg_loop(m, mh)`, over the outcomes of the successive `sendmsg` calls and
of the successive waits: the result and the calls made, or `none` when `m->socket < 0` fails
the assertion or the outcomes run out before the loop ends. -/
def sendmsg_loop_from (mh : List String) : List SendmsgResult → List Int → Option (Int × List Call)
  | [], _ => none
  | SendmsgResult.sent _ :: _, _ => some (0, [Call.sendmsg mh])
  | SendmsgResult.error errno :: rest, waits =>
    if errno = EINTR then
      (sendmsg_loop_from mh rest waits).map fun p => (p.1, Call.sendmsg mh :: p.2)
    else if errno ≠ EAGAIN then some (-errno, [Call.sendmsg mh])
    else match waits with
      | [] => none
      | r :: waits1 =>
        if r < 0 then
          some (r, [Call.sendmsg mh, Call.fd_wait_for_event POLLOUT SEND_TIMEOUT_USEC])
        else if r = 0 then
          some (-ETIMEDOUT, [Call.sendmsg mh, Call.fd_wait_for_event POLLOUT SEND_TIMEOUT_USEC])
        else (sendmsg_loop_from mh rest waits1).map fun p =>
          (p.1, Call.sendmsg mh :: Call.fd_wait_for_event POLLOUT SEND_TIMEOUT_USEC :: p.2)

/-- The function `sendmsg_loop(m, mh)` with its entry assertion `m->socket >= 0`. -/
def sendmsg_loop (env : Env) (m : Manager) (mh : List String) : Option (Int × List Call) :=
  if m.socket < 0 then none else sendmsg_loop_from mh env.sendmsg env.fd_wait_for_event

/-- The function `network_send(m, iovec, n_iovec)`; `n_iovec > 0` is asserted. -/
def network_send (env : Env) (m : Manager) (iovec : List String) : Option (Int × List Call) :=
  if iovec.length = 0 then none
  else if m.sa_family = AF_INET then sendmsg_loop env m iovec
  else if m.sa_family = AF_INET6 then sendmsg_loop env m iovec
  else some (-EAFNOSUPPORT, [])

/-- The call `manager_connect(m)` of a function defined outside this file, logged. -/
def call_manager_connect (env : Env) (w : World) : Int × World :=
  let p := env.manager_connect w.m
  (p.1, { m := p.2, calls := w.calls ++ [Call.manager_connect] })

/-- The function `protocol_send(m, iovec, n_iovec)`: the value returned and the world after. -/
def protocol_send (env : Env) (w : World) (iovec : List String) : Option (Int × World) :=
  match w.m.protocol with
  | SYSLOG_TRANSMISSION_PROTOCOL_DTLS =>
    let p := env.dtls_datagram_writev w.m.dtls iovec
    let r := p.1
    let w1 : World :=
      { m := { w.m with dtls := p.2 }, calls := w.calls ++ [Call.dtls_datagram_writev iovec] }
    if r < 0 ∧ r ≠ -EAGAIN then some (r, (call_manager_connect env w1).2)
    else some (0, w1)
  | SYSLOG_TRANSMISSION_PROTOCOL_TLS =>
    let p := env.tls_stream_writev w.m.tls iovec
    let r := p.1
    let w1 : World :=
      { m := { w.m with tls := p.2 }, calls := w.calls ++ [Call.tls_stream_writev iovec] }
    if r < 0 ∧ r ≠ -EAGAIN then some (r, (call_manager_connect env w1).2)
    else some (0, w1)
  | _ =>
    match network_send env w.m iovec with
    | none => none
    | some (r, cs) =>
      let w1 : World := { m := w.m, calls := w.calls ++ cs }
      if r < 0 ∧ r ≠ -EAGAIN then some (r, (call_manager_connect env w1).2)
      else some (0, w1)

/-- The gather list `iov[0..n)` that `format_rfc5424` builds before it calls `protocol_send`;
`none` is a failed assertion (`message`, the size of the priority header, the timestamp). -/
def format_rfc5424_iov (env : Env) (m : Manager) (severity facility : Int)
    (identifier message hostname pid : Option String) (tv : Option timeval)
    (syslog_structured_data syslog_msgid : Option String) : Option (List String) :=
  match message with
  | none => none
  | some message =>
    -- First: priority field Second: Version
    let header_priority :=
      "<" ++ printf_i (makepri severity facility) ++ ">" ++ printf_i RFC_5424_PROTOCOL ++ " "
    if ¬ (0 < header_priority.length ∧ header_priority.length < 8) then none else
    -- Third: timestamp
    match format_rfc3339_timestamp env tv env.FORMAT_TIMESTAMP_MAX with
    | none => none
    | some header_time =>
      let iov := [header_priority, header_time]
      -- Fourth: hostname
      let iov := iov ++ [(match hostname with | some s => s | none => RFC_5424_NILVALUE), " "]
      -- Fifth: identifier
      let iov := iov ++ [(match identifier with | some s => s | none => RFC_5424_NILVALUE), " "]
      -- Sixth: procid
      let iov := iov ++ [(match pid with | some s => s | none => RFC_5424_NILVALUE), " "]
      -- Seventh: msgid
      let iov := iov ++ [(match syslog_msgid with | some s => s | none => RFC_5424_NILVALUE), " "]
      -- Eighth: [structured-data]
      let sd := match m.structured_data with
        | some s => s
        | none =>
          match syslog_structured_data with
          | some s => s
          | none => RFC_5424_NILVALUE
      let iov := iov ++ [sd, " "]
      -- Ninth: message
      let iov := iov ++ [message]
      -- Last: optional newline message separator
      let iov := if m.protocol = SYSLOG_TRANSMISSION_PROTOCOL_TCP then iov ++ ["\n"] else iov
      some iov

/-- The function `format_rfc5424`: build the gather list, then `protocol_send(m, iov, n)`. -/
def format_rfc5424 (env : Env) (w : World) (severity facility : Int)
    (identifier message hostname pid : Option String) (tv : Option timeval)
    (syslog_structured_data syslog_msgid : Option String) : Option (Int × World) :=
  match format_rfc5424_iov env w.m severity facility identifier message hostname pid tv
      syslog_structured_data syslog_msgid with
  | none => none
  | some iov => protocol_send env w iov

/-- The gather list `iov[0..n)` that `format_rfc3339` builds before it calls `protocol_send`;
`none` is a failed assertion. -/
def format_rfc3339_iov (env : Env) (m : Manager) (severity facility : Int)
    (identifier message hostname pid : Option String) (tv : Option timeval) :
    Option (List String) :=
  match message with
  | none => none
  | some message =>
    -- First: priority field
    let header_priority := "<" ++ printf_i (makepri severity facility) ++ ">"
    if ¬ (0 < header_priority.length ∧ header_priority.length < 8) then none else
    -- Third: timestamp
    match format_rfc3339_timestamp env tv env.FORMAT_TIMESTAMP_MAX with
    | none => none
    | some header_time =>
      let iov := [header_priority, header_time]
      -- Fourth: hostname
      let iov := iov ++ [(match hostname with | some s => s | none => RFC_5424_NILVALUE), " "]
      -- Fifth: identifier
      let iov := iov ++ [(match identifier with | some s => s | none => RFC_5424_NILVALUE), "["]
      -- Sixth: procid
      let iov := iov ++ [(match pid with | some s => s | none => RFC_5424_NILVALUE), "]: "]
      -- Ninth: message
      let iov := iov ++ [message]
      -- Last: optional newline message separator
      let iov := if m.protocol = SYSLOG_TRANSMISSION_PROTOCOL_TCP then iov ++ ["\n"] else iov
      some iov

/-- The function `format_rfc3339`: build the gather list, then `protocol_send(m, iov, n)`. -/
def format_rfc3339 (env : Env) (w : World) (severity facility : Int)
    (identifier message hostname pid : Option String) (tv : Option timeval) :
    Option (Int × World) :=
  match format_rfc3339_iov env w.m severity facility identifier message hostname pid tv with
  | none => none
  | some iov => protocol_send env w iov

/-- The `switch` that opens `manager_push_to_network`: `manager_connect(m)` is called when the
transport of the protocol is not connected; the value is `r` (0 when no call is made, where the
C code does not read `r`) and the world after. -/
def connect_if_needed (env : Env) (w : World) : Int × World :=
  match w.m.protocol with
  | SYSLOG_TRANSMISSION_PROTOCOL_DTLS =>
    if ¬ w.m.dtls.connected then call_manager_connect env w else (0, w)
  | SYSLOG_TRANSMISSION_PROTOCOL_TLS =>
    if ¬ w.m.tls.connected then call_manager_connect env w else (0, w)
  | _ =>
    if ¬ w.m.connected then call_manager_connect env w else (0, w)

/-- The function `manager_push_to_network`. -/
def manager_push_to_network (env : Env) (w : World) (severity facility : Int)
    (identifier message hostname pid : Option String) (tv : Option timeval)
    (syslog_structured_data syslog_msgid : Option String) : Option (Int × World) :=
  let c := connect_if_needed env w
  if c.1 < 0 then some c else
  let w1 := c.2
  let res :=
    if w1.m.log_format = SYSLOG_TRANSMISSION_LOG_FORMAT_RFC_5424 then
      format_rfc5424 env w1 severity facility identifier message hostname pid tv
        syslog_structured_data syslog_msgid
    else
      format_rfc3339 env w1 severity facility identifier message hostname pid tv
  match res with
  | none => none
  | some (r, w2) => if r < 0 then some (r, w2) else some (0, w2)

/-! ## netlog-dtls.c -/

/-- The OpenSSL error classes that `dtls_write` distinguishes. -/
inductive SSLError
  | SSL_ERROR_WANT_READ
  | SSL_ERROR_WANT_WRITE
  | SSL_ERROR_ZERO_RETURN
  | SSL_ERROR_OTHER
  deriving DecidableEq, Repr

/-- The function `dtls_write(m, buf, count)`, given the value `r` that `SSL_write` returned and
the class `error` that `SSL_get_error` reports for it: the result and the manager after. -/
def dtls_write (m : DTLSManager) (r : Int) (error : SSLError) : Int × DTLSManager :=
  if r ≤ 0 then
    match error with
    | SSLError.SSL_ERROR_WANT_READ => (-EAGAIN, { m with events := EPOLLIN })
    | SSLError.SSL_ERROR_WANT_WRITE => (-EAGAIN, { m with events := EPOLLOUT })
    | SSLError.SSL_ERROR_ZERO_RETURN => (0, { m with events := 0 })
    | SSLError.SSL_ERROR_OTHER => (-EPIPE, { m with events := 0 })
  else (r, { m with events := 0 })

/-! ## The scenario S1 of the specification -/

/-- Days since 1970-01-01 to the civil date (year, month 1..12, day), proleptic Gregorian. -/
def civil_from_days (days : Int) : Int × Nat × Nat :=
  let z := days + 719468
  let era := z / 146097
  let doe := (z % 146097).toNat
  let yoe := (doe - doe / 1460 + doe / 36524 - doe / 146096) / 365
  let doy := doe - (365 * yoe + yoe / 4 - yoe / 100)
  let mp := (5 * doy + 2) / 153
  let d := doy - (153 * mp + 2) / 5 + 1
  let mo := if mp < 10 then mp + 3 else mp - 9
  let y : Int := (yoe : Int) + era * 400 + (if mo ≤ 2 then 1 else 0)
  (y, mo, d)

/-- What `localtime_r` computes when the local zone is UTC. -/
def localtime_r_utc (t : Int) : tm :=
  let days := t / 86400
  let rem := (t % 86400).toNat
  let c := civil_from_days days
  { tm_sec := rem % 60, tm_min := rem / 60 % 60, tm_hour := rem / 3600,
    tm_mday := c.2.2, tm_mon := c.2.1 - 1, tm_year := c.1 - 1900 }

/-- An idle manager for the given protocol and log format, with an open IPv4 socket. -/
def manager_for (protocol : SysLogTransmissionProtocol)
    (log_format : SysLogTransmissionLogFormat) : Manager :=
  { socket := 3, sa_family := AF_INET, structured_data := none, protocol := protocol,
    log_format := log_format,
    dtls := { ssl := true, fd := 4, events := 0, connected := true },
    tls := { connected := true },
    keep_alive := false, no_delay := false, connected := true, keep_alive_cnt := 0,
    send_buffer := 0, keep_alive_time := 0, keep_alive_interval := 0 }

/-- An environment in UTC (`FORMAT_TIMESTAMP_MAX` is 42 in time-util.h) in which both secure
writers return `r`, `manager_connect` succeeds and leaves the manager alone, and the `sendmsg`
and wait outcomes are the given ones. -/
def env_utc (r : Int) (sendmsg : List SendmsgResult) (waits : List Int) : Env :=
  { FORMAT_TIMESTAMP_MAX := 42, now := 0, localtime_r := localtime_r_utc,
    strftime_z := fun _ => "+0000",
    manager_connect := fun m => (0, m),
    dtls_datagram_writev := fun d _ => (r, d),
    tls_stream_writev := fun t _ => (r, t),
    sendmsg := sendmsg,
    fd_wait_for_event := waits }

/-- The environment `env_utc` in which the DTLS writer is `dtls_write` on a session whose
`SSL_write` returns `r` with error class `error`. -/
def env_dtls_write (r : Int) (error : SSLError) : Env :=
  { env_utc 0 [] [] with dtls_datagram_writev := fun d _ => dtls_write d r error }

/-- The time of the record of scenario S1: 1700000000.123456. -/
def tv_S1 : timeval := { tv_sec := 1700000000, tv_usec := 123456 }

/-! ## Helpers of the statements -/

/-- The `k` low decimal digits of `n`, most significant first. -/
def fixed_digits : Nat → Nat → List Char
  | 0, _ => []
  | k + 1, n => fixed_digits k (n / 10) ++ [Nat.digitChar (n % 10)]

/-- The decimal digit of weight `10 ^ k` of `n`, as a character. -/
def dec_digit (n k : Nat) : Char := Nat.digitChar (n / 10 ^ k % 10)

/-- The result of the one transport write that `protocol_send` issues for the protocol of the
manager: the secure writer for DTLS and TLS, `network_send` otherwise. -/
def transport_write (env : Env) (m : Manager) (iovec : List String) : Option Int :=
  match m.protocol with
  | SYSLOG_TRANSMISSION_PROTOCOL_DTLS => some (env.dtls_datagram_writev m.dtls iovec).1
  | SYSLOG_TRANSMISSION_PROTOCOL_TLS => some (env.tls_stream_writev m.tls iovec).1
  | _ => (network_send env m iovec).map Prod.fst

/-- The gather list of the formatter that `manager_push_to_network` selects by `log_format`. -/
def formatted_iov (env : Env) (m : Manager) (severity facility : Int)
    (identifier message hostname pid : Option String) (tv : Option timeval)
    (syslog_structured_data syslog_msgid : Option String) : Option (List String) :=
  if m.log_format = SYSLOG_TRANSMISSION_LOG_FORMAT_RFC_5424 then
    format_rfc5424_iov env m severity facility identifier message hostname pid tv
      syslog_structured_data syslog_msgid
  else
    format_rfc3339_iov env m severity facility identifier message hostname pid tv

/-- The second at which a timestamp is taken: `tv->tv_sec`, or the clock when `tv` is NULL. -/
def timestamp_sec (env : Env) (tv : Option timeval) : Int :=
  match tv with
  | some v => v.tv_sec
  | none => env.now / USEC_PER_SEC

/-! ## Secure write, teardown and socket set-up (netlog-dtls.c, netlog-network.c) -/

/-- A call on a session or a descriptor made by a teardown. -/
inductive SysCall
  | ERR_clear_error
  | SSL_shutdown
  | SSL_free
  | shutdown (fd how : Int)
  | close (fd : Int)
  deriving DecidableEq, Repr

/-- Modelled from the spec: `safe_close` of fd-util.h is not under src/. Closing the handle
closes the fd exactly once: a valid descriptor is closed, and the value to store back is -1. -/
def safe_close (fd : Int) : Int × List SysCall :=
  if 0 ≤ fd then (-1, [SysCall.close fd]) else (-1, [])

/-- Modelled from the spec: the macro `log_error_errno` of log.h is not under src/. The failure
is logged and the value is the negated errno, the error that the caller returns. -/
def log_error_errno (error : Int) : Int := -(error.natAbs : Int)

/-- Modelled from the spec: `iovec_total_size` of iovec-util.h is not under src/. The gather
list is one logical buffer, whose size is the sum of the segment lengths. -/
def iovec_total_size (iov : List String) : Nat := (iov.map String.length).sum

/-- The C `memcpy(buf + pos, src, n)` with `n` the length of `src`. -/
def memcpy_at (buf : List Char) (pos : Nat) (src : List Char) : List Char :=
  buf.take pos ++ src ++ buf.drop (pos + src.length)

/-- The copy loop of `dtls_stream_writev`, from segment `i` on, with `pos` the write offset. -/
def dtls_stream_writev_loop : List String → Nat → List Char → List Char
  | [], _, buf => buf
  | seg :: rest, pos, buf =>
    dtls_stream_writev_loop rest (pos + seg.length) (memcpy_at buf pos seg.data)

/-- The function `dtls_write(m, buf, count)` with its one `SSL_write(m->ssl, buf, count)`; the
outcome of the write, its value and error class, is `SSL_write buf count`. The result carries
the log of the writes submitted, each with its buffer and length. -/
def dtls_write_call (SSL_write : List Char → Nat → Int × SSLError) (m : DTLSManager)
    (buf : List Char) (count : Nat) : (Int × DTLSManager) × List (List Char × Nat) :=
  let o := SSL_write buf count
  (dtls_write m o.1 o.2, [(buf, count)])

/-- The function `dtls_stream_writev(m, iov, iovcnt)`; `fresh` is the content of the memory
that `new(char, count)` returns, and `none` is a failed assertion (`m->ssl`, a total size
above 0). -/
def dtls_stream_writev (SSL_write : List Char → Nat → Int × SSLError) (fresh : Nat → Char)
    (m : DTLSManager) (iov : List String) :
    Option ((Int × DTLSManager) × List (List Char × Nat)) :=
  if ¬ m.ssl then none
  else if ¬ (0 < iovec_total_size iov) then none
  else
    -- single buffer
    let count := iovec_total_size iov
    let buf := (List.range count).map fresh
    let buf := dtls_stream_writev_loop iov 0 buf
    some (dtls_write_call SSL_write m buf count)

/-- Outcomes of the calls that `dtls_connect` makes: the values of `socket` and `connect` with
the `errno` they leave, whether the three allocations give a non-NULL pointer, and the value
of `SSL_connect`. -/
structure DtlsConnectOutcomes where
  socket : Int
  socket_errno : Int
  connect : Int
  connect_errno : Int
  SSL_CTX_new : Bool
  SSL_new : Bool
  BIO_new_dgram : Bool
  SSL_connect : Int
  deriving DecidableEq, Repr

/-- The function `dtls_connect(m, address)`, with `sa_family` the family of the address and
`open_fds` the descriptors open in the process: the value returned, the manager after, and the
open descriptors after. The BIO is created with `BIO_NOCLOSE`, so that the cleanup of `bio` and
`ssl` on an error return closes no descriptor. -/
def dtls_connect (o : DtlsConnectOutcomes) (m : DTLSManager) (sa_family : Int)
    (open_fds : List Int) : Int × DTLSManager × List Int :=
  if ¬ (sa_family = AF_INET ∨ sa_family = AF_INET6) then (-EAFNOSUPPORT, m, open_fds) else
  let fd := o.socket
  if fd < 0 then (log_error_errno o.socket_errno, m, open_fds) else
  let open_fds := fd :: open_fds
  if o.connect < 0 ∧ o.connect_errno ≠ EINPROGRESS then
    (log_error_errno o.connect_errno, m, open_fds) else
  if ¬ o.SSL_CTX_new then (log_error_errno ENOMEM, m, open_fds) else
  if ¬ o.SSL_new then (log_error_errno ENOMEM, m, open_fds) else
  -- Create BIO from socket array!
  if ¬ o.BIO_new_dgram then (log_error_errno ENOMEM, m, open_fds) else
  if o.SSL_connect ≤ 0 then (log_error_errno ENOMEM, m, open_fds) else
  (0, { m with bio := true, ssl := true, ctx := true, fd := fd, connected := true }, open_fds)

/-- The function `dtls_disconnect(m)`, `none` being the NULL manager: the manager after and
the calls made, in order. -/
def dtls_disconnect (m : Option DTLSManager) : Option DTLSManager × List SysCall :=
  match m with
  | none => (none, [])
  | some m =>
    let calls := [SysCall.ERR_clear_error]
    let p : DTLSManager × List SysCall :=
      if m.ssl then ({ m with ssl := false }, calls ++ [SysCall.SSL_shutdown, SysCall.SSL_free])
      else (m, calls)
    let c := safe_close p.1.fd
    (some { p.1 with fd := c.1, connected := false }, p.2 ++ c.2)

/-- The function `manager_close_network_socket(m)`, given the value `shutdown_r` that
`shutdown(2)` returns if it is called: the manager after, the calls made in order, and the
errors logged. -/
def manager_close_network_socket (shutdown_r : Int) (m : Manager) :
    Manager × List SysCall × List String :=
  let p : List SysCall × List String :=
    if m.protocol = SYSLOG_TRANSMISSION_PROTOCOL_TCP ∧ 0 ≤ m.socket then
      ([SysCall.shutdown m.socket SHUT_RDWR],
        if shutdown_r < 0 then ["Failed to shutdown netlog socket"] else [])
    else ([], [])
  let c := safe_close m.socket
  ({ m with connected := false, socket := c.1 }, p.1 ++ c.2, p.2)

/-- The socket options that `manager_open_network_socket` sets, `O_NONBLOCK` standing for the
call of `fd_nonblock`. -/
inductive SockOpt
  | IP_MULTICAST_LOOP
  | SO_SNDBUF
  | TCP_NODELAY
  | SO_KEEPALIVE
  | TCP_KEEPIDLE
  | TCP_KEEPINTVL
  | TCP_KEEPCNT
  | O_NONBLOCK
  deriving DecidableEq, Repr

/-- Outcomes of the calls of `manager_open_network_socket` other than the option calls: the
values of `socket`, `sockaddr_pretty` and `connect`, with the `errno` left by a failure. -/
structure SocketOutcomes where
  socket : Int
  socket_errno : Int
  sockaddr_pretty : Int
  connect : Int
  connect_errno : Int
  deriving DecidableEq, Repr

/-- Modelled from the spec: the macro `timestamp_is_set` of time-util.h is not under src/. The
keep-alive time is applied per config, that is when it is set: above zero and not the
infinity value of `usec_t`. -/
def timestamp_is_set (t : Nat) : Bool := decide (0 < t ∧ t ≠ 2 ^ 64 - 1)

/-- The debug message logged when the option call `o` fails: its value `opt o` is negative. -/
def option_failure (opt : SockOpt → Int) (o : SockOpt) (message : String) : List String :=
  if opt o < 0 then [message] else []

/-- The function `manager_network_connect_socket(m)`; `none` is the failed assertion
`m->socket >= 0`. -/
def manager_network_connect_socket (o : SocketOutcomes) (m : Manager) : Option Int :=
  if m.socket < 0 then none
  else if ¬ (m.sa_family = AF_INET ∨ m.sa_family = AF_INET6) then some (-EAFNOSUPPORT)
  else if o.sockaddr_pretty < 0 then some o.sockaddr_pretty
  else if o.connect < 0 ∧ o.connect_errno ≠ EINPROGRESS then
    some (log_error_errno o.connect_errno)
  else some 0

/-- The option calls of `manager_open_network_socket(m)`, its second `switch` and the call of
`fd_nonblock`, with `opt` the value that each option call returns: the debug messages logged,
one for each call that fails. No failure makes the function return. -/
def socket_options (opt : SockOpt → Int) (m : Manager) : List String :=
  (match m.protocol with
    | SYSLOG_TRANSMISSION_PROTOCOL_UDP =>
      option_failure opt SockOpt.IP_MULTICAST_LOOP "UDP: Failed to set IP_MULTICAST_LOOP" ++
      (if 0 < m.send_buffer then
        option_failure opt SockOpt.SO_SNDBUF "UDP: SO_SNDBUF/SO_SNDBUFFORCE failed" else [])
    | SYSLOG_TRANSMISSION_PROTOCOL_TCP =>
      (if m.no_delay then
        option_failure opt SockOpt.TCP_NODELAY "Failed to enable TCP_NODELAY mode, ignoring"
        else []) ++
      (if 0 < m.send_buffer then
        option_failure opt SockOpt.SO_SNDBUF "TCP: SO_SNDBUF/SO_SNDBUFFORCE failed" else []) ++
      (if m.keep_alive then
        option_failure opt SockOpt.SO_KEEPALIVE "Failed to enable SO_KEEPALIVE" else []) ++
      (if timestamp_is_set m.keep_alive_time then
        option_failure opt SockOpt.TCP_KEEPIDLE "TCP_KEEPIDLE failed" else []) ++
      (if 0 < m.keep_alive_interval then
        option_failure opt SockOpt.TCP_KEEPINTVL "TCP_KEEPINTVL failed" else []) ++
      (if 0 < m.keep_alive_cnt then
        option_failure opt SockOpt.TCP_KEEPCNT "TCP_KEEPCNT failed" else [])
    | _ => []) ++
  option_failure opt SockOpt.O_NONBLOCK "Failed to set socket nonblock"

/-- The function `manager_open_network_socket(m)`, with `opt` the value that each option call
returns: the value returned, the manager after and the messages logged. -/
def manager_open_network_socket (o : SocketOutcomes) (opt : SockOpt → Int) (m : Manager) :
    Option (Int × Manager × List String) :=
  if ¬ (m.sa_family = AF_INET ∨ m.sa_family = AF_INET6) then some (-EAFNOSUPPORT, m, []) else
  if ¬ (m.protocol = SYSLOG_TRANSMISSION_PROTOCOL_UDP ∨
      m.protocol = SYSLOG_TRANSMISSION_PROTOCOL_TCP) then some (-EPROTONOSUPPORT, m, []) else
  let m1 : Manager := { m with socket := o.socket }
  if m1.socket < 0 then
    some (log_error_errno o.socket_errno, m1, ["Failed to create socket"]) else
  let log := socket_options opt m1
  match manager_network_connect_socket o m1 with
  | none => none
  | some r =>
    if r < 0 then some (r, { m1 with socket := (safe_close m1.socket).1 }, log)
    else some (0, { m1 with connected := true }, log)

/-- The manager that `dtls_manager_init` allocates with `new0`: every field zero. -/
def dtls_manager_init : DTLSManager :=
  { ssl := false, fd := 0, events := 0, connected := false, bio := false, ctx := false }

/-! ## Helpers of the statements, continued -/

/-- The connected flag that `manager_push_to_network` reads for the protocol of the manager. -/
def transport_connected (m : Manager) : Bool :=
  match m.protocol with
  | SYSLOG_TRANSMISSION_PROTOCOL_DTLS => m.dtls.connected
  | SYSLOG_TRANSMISSION_PROTOCOL_TLS => m.tls.connected
  | _ => m.connected

/-- Whether a call hands bytes to a transport write. -/
def is_transport_write : Call → Bool
  | Call.dtls_datagram_writev _ => true
  | Call.tls_stream_writev _ => true
  | Call.sendmsg _ => true
  | _ => false

/-- The predicate of the plain transport: `m->connected` implies `m->socket >= 0`. -/
def connected_has_socket (m : Manager) : Prop := m.connected = true → 0 ≤ m.socket

instance (m : Manager) : Decidable (connected_has_socket m) := by
  unfold connected_has_socket
  infer_instance

/-- An option outcome in which every option call succeeds. -/
def options_ok : SockOpt → Int := fun _ => 0

/-- An option outcome in which every option call fails. -/
def options_fail : SockOpt → Int := fun _ => -1

/-! ## sd-network.c -/

def ENOENT : Int := 2
def IN_MOVED_TO : Nat := 0x80
def IN_CREATE : Nat := 0x100
def IN_DELETE : Nat := 0x200
def IN_ISDIR : Nat := 0x40000000

/-- The function `monitor_add_inotify_watch(fd)`, where `inotify_add_watch path mask` is the
value that the call returns for the path and the `errno` it leaves: the value returned, and the
watches requested, in order. -/
def monitor_add_inotify_watch (inotify_add_watch : String → Nat → Int × Int) :
    Int × List (String × Nat) :=
  let k := inotify_add_watch "/run/systemd/netif/links/" (IN_MOVED_TO ||| IN_DELETE)
  let calls := [("/run/systemd/netif/links/", IN_MOVED_TO ||| IN_DELETE)]
  if 0 ≤ k.1 then (0, calls)
  else if k.2 ≠ ENOENT then (-k.2, calls)
  else
    let k := inotify_add_watch "/run/systemd/netif/" (IN_CREATE ||| IN_ISDIR)
    let calls := calls ++ [("/run/systemd/netif/", IN_CREATE ||| IN_ISDIR)]
    if 0 ≤ k.1 then (0, calls)
    else if k.2 ≠ ENOENT then (-k.2, calls)
    else
      let k := inotify_add_watch "/run/systemd/" (IN_CREATE ||| IN_ISDIR)
      let calls := calls ++ [("/run/systemd/", IN_CREATE ||| IN_ISDIR)]
      if k.1 < 0 then (-k.2, calls)
      else (0, calls)

/-! ## random-util.c -/

def ENOSYS : Int := 38
def ENODATA : Int := 61

/-- The C conversion `(int) n` of a `size_t`: the low 32 bits, read as two's complement. -/
def size_t_to_int (n : Nat) : Int :=
  if n % 2 ^ 32 < 2 ^ 31 then ((n % 2 ^ 32 : Nat) : Int) else ((n % 2 ^ 32 : Nat) : Int) - 2 ^ 32

/-- The C conversion `(size_t) i` of an `int`, on 64 bits. -/
def int_to_size_t (i : Int) : Nat := (i % 2 ^ 64).toNat

/-- A call made by `dev_urandom`. -/
inductive RandomCall
  | getrandom (n : Nat)
  | open_dev_urandom
  | loop_read_exact (fd : Int) (n : Nat)
  deriving DecidableEq, Repr

/-- Outcomes of the calls of `dev_urandom`: the value of `getrandom` as stored in the `int r`,
the value of `open`, each with the `errno` left by a failure, and the value of
`loop_read_exact`. -/
structure UrandomOutcomes where
  getrandom : Int
  getrandom_errno : Int
  open_dev_urandom : Int
  open_errno : Int
  loop_read_exact : Int
  deriving DecidableEq, Repr

/-- The end of `dev_urandom`, the read from `/dev/urandom`, entered with the value that
`have_syscall` has then and the calls made before. -/
def dev_urandom_read (o : UrandomOutcomes) (have_syscall : Int) (n : Nat)
    (calls : List RandomCall) : Int × Int × List RandomCall :=
  let fd := o.open_dev_urandom
  let calls := calls ++ [RandomCall.open_dev_urandom]
  if fd < 0 then
    ((if o.open_errno = ENOENT then -ENOSYS else -o.open_errno), have_syscall, calls)
  else (o.loop_read_exact, have_syscall, calls ++ [RandomCall.loop_read_exact fd n])

/-- The function `dev_urandom(p, n)`, with `have_syscall` the value of its static variable on
entry: the value returned, `have_syscall` after, and the calls made in order. -/
def dev_urandom (o : UrandomOutcomes) (have_syscall : Int) (n : Nat) :
    Int × Int × List RandomCall :=
  if have_syscall ≠ 0 ∨ int_to_size_t (size_t_to_int n) ≠ n then
    let r := o.getrandom
    let calls := [RandomCall.getrandom n]
    if r = size_t_to_int n then (0, 1, calls)
    else if r < 0 then
      if o.getrandom_errno = ENOSYS then
        -- we lack the syscall, continue with reading from /dev/urandom
        dev_urandom_read o 0 n calls
      else if o.getrandom_errno = EAGAIN then
        -- not enough entropy for now
        dev_urandom_read o 1 n calls
      else (-o.getrandom_errno, have_syscall, calls)
    else
      -- too short read?
      (-ENODATA, have_syscall, calls)
  else dev_urandom_read o have_syscall n []

/-! ## in-addr-util.c

A `struct in_addr` is represented by the 32-bit number `be32toh(s_addr)`, whose most
significant octet is the first byte in memory; `be32toh` and `htobe32` are byte swaps, which
commute with the bitwise operations, and are not written in the model. A `struct in6_addr` is
the list of its 16 bytes `s6_addr`. Of a `union in_addr_union` each function reads and writes
the member that its family selects. Unsigned machine integers are `Nat`s, reduced modulo
`2 ^ w` where a value is stored in `w` bits. -/

def EINVAL : Int := 22
def ERANGE : Int := 34

/-- The C `union in_addr_union`, as its members `in` (here `in_`) and `in6`. -/
structure in_addr_union where
  in_ : Nat
  in6 : List Nat
  deriving DecidableEq, Repr

/-- The loop of `in_addr_prefix_intersect` for AF_INET6, over the bytes of `a` and of `b` that
are left, with `m` the prefix bits left: 0 at the first byte that differs under the mask. -/
def in_addr_prefix_intersect_loop : List Nat → List Nat → Nat → Int
  | xa :: a, xb :: b, m =>
    let x := xa ^^^ xb
    let nm := if m < 8 then (0xFF <<< (8 - m)) % 256 else 0xFF
    if x &&& nm ≠ 0 then 0
    else in_addr_prefix_intersect_loop a b (if 8 < m then m - 8 else 0)
  | _, _, _ => 1

/-- The function `in_addr_prefix_intersect`; `none` is the undefined shift by `32 - m` for an
AF_INET prefix length above 32. -/
def in_addr_prefix_intersect (family : Int) (a : in_addr_union) (aprefixlen : Nat)
    (b : in_addr_union) (bprefixlen : Nat) : Option Int :=
  let m := min aprefixlen bprefixlen
  if family = AF_INET then
    if 32 < m then none
    else
      let x := a.in_ ^^^ b.in_
      let nm := if m = 0 then 0 else (0xFFFFFFFF <<< (32 - m)) % 2 ^ 32
      some (if x &&& nm = 0 then 1 else 0)
  else if family = AF_INET6 then
    let m := if 128 < m then 128 else m
    some (in_addr_prefix_intersect_loop a.in6 b.in6 m)
  else some (-EAFNOSUPPORT)

/-- The loop of `in_addr_prefix_next` for AF_INET6, over the bytes from index 15 down to 0 (the
lists are the reversed byte arrays of the address and of `add`): the bytes of `result`, in the
same order, and the final `overflow`. -/
def in_addr_prefix_next_loop : List Nat → List Nat → Nat → List Nat × Nat
  | x :: u, d :: add, overflow =>
    let r := (x + d + overflow) % 256
    let p := in_addr_prefix_next_loop u add (if r < x then 1 else 0)
    (r :: p.1, p.2)
  | _, _, overflow => ([], overflow)

/-- The function `in_addr_prefix_next`: the value returned and the address after. -/
def in_addr_prefix_next (family : Int) (u : in_addr_union) (prefixlen : Nat) :
    Int × in_addr_union :=
  if prefixlen ≤ 0 then (0, u)
  else if family = AF_INET then
    let prefixlen := if 32 < prefixlen then 32 else prefixlen
    let c := u.in_
    let n := (c + (1 <<< (32 - prefixlen))) % 2 ^ 32
    if n < c then (0, u)
    else
      let n := (n &&& (0xFFFFFFFF <<< (32 - prefixlen))) % 2 ^ 32
      (1, { u with in_ := n })
  else if family = AF_INET6 then
    let prefixlen := if 128 < prefixlen then 128 else prefixlen
    -- First calculate what we have to add
    let add := (List.replicate 16 0).set ((prefixlen - 1) / 8) (1 <<< (7 - (prefixlen - 1) % 8))
    let p := in_addr_prefix_next_loop u.in6.reverse add.reverse 0
    if p.2 ≠ 0 then (0, u)
    else (1, { u with in6 := p.1.reverse })
  else (-EAFNOSUPPORT, u)

/-- The number of trailing zero bits of a positive number, looking at no more than `fuel`
bits. -/
def count_trailing_zeros : Nat → Nat → Nat
  | 0, _ => 0
  | fuel + 1, n => if n % 2 = 1 then 0 else 1 + count_trailing_zeros fuel (n / 2)

/-- Modelled from the spec: `u32ctz` of util.h is not under src/. Prefix math on a 32-bit
address: the number of trailing zero bits of the value, 32 for the value 0. -/
def u32ctz (n : Nat) : Nat := if n = 0 then 32 else count_trailing_zeros 32 n

/-- The function `in_addr_netmask_to_prefixlen`, its value an `unsigned char`. -/
def in_addr_netmask_to_prefixlen (addr : Nat) : Nat := (32 - u32ctz addr) % 256

/-- The function `in_addr_prefixlen_to_netmask`: the netmask written; `none` is the failed
assertion `prefixlen <= 32`. -/
def in_addr_prefixlen_to_netmask (prefixlen : Nat) : Option Nat :=
  if 32 < prefixlen then none
  else if prefixlen = 0 then some 0
  else some (((0xffffffff <<< (32 - prefixlen)) % 2 ^ 32) &&& 0xffffffff)

/-- The function `in_addr_default_prefixlen`: the value returned and the prefix length written,
if one is; the first byte of the address in memory is its most significant octet. -/
def in_addr_default_prefixlen (addr : Nat) : Int × Option Nat :=
  let msb_octet := addr / 2 ^ 24 % 256
  if msb_octet < 128 then (0, some 8)
  else if msb_octet < 192 then (0, some 16)
  else if msb_octet < 224 then (0, some 24)
  else (-ERANGE, none)

/-- The loop of `in_addr_mask` for AF_INET6, over the bytes left, with `prefixlen` the prefix
bits left: the bytes after. -/
def in_addr_mask_loop : List Nat → Nat → List Nat
  | [], _ => []
  | x :: rest, prefixlen =>
    if 8 ≤ prefixlen then (x &&& 0xFF) :: in_addr_mask_loop rest (prefixlen - 8)
    else (x &&& ((0xFF <<< (8 - prefixlen)) % 256)) :: in_addr_mask_loop rest 0

/-- The function `in_addr_mask`: the value returned and the address after; `none` is the
assertion of `in_addr_prefixlen_to_netmask` that fails for AF_INET above 32. -/
def in_addr_mask (family : Int) (addr : in_addr_union) (prefixlen : Nat) :
    Option (Int × in_addr_union) :=
  if family = AF_INET then
    match in_addr_prefixlen_to_netmask prefixlen with
    | none => none
    | some mask => some (0, { addr with in_ := addr.in_ &&& mask })
  else if family = AF_INET6 then
    some (0, { addr with in6 := in_addr_mask_loop addr.in6 prefixlen })
  else some (-EAFNOSUPPORT, addr)

/-- The big-endian number that a list of bytes spells. -/
def be_value : List Nat → Nat
  | [] => 0
  | x :: rest => x * 256 ^ rest.length + be_value rest

/-- A well-formed `struct in6_addr`: 16 bytes. -/
def is_in6_addr (bytes : List Nat) : Prop := bytes.length = 16 ∧ ∀ x ∈ bytes, x < 256

instance (bytes : List Nat) : Decidable (is_in6_addr bytes) := by
  unfold is_in6_addr
  infer_instance

/-! ## Sample addresses -/

def AF_UNSPEC : Int := 0

/-- The addresses 192.168.1.5 and 2001:db8::105, as the two members of the union. -/
def sample_a : in_addr_union :=
  ⟨0xC0A80105, [0x20, 0x01, 0x0d, 0xb8, 0, 0, 0, 0, 0, 0, 0, 0, 0, 0, 0x01, 0x05]⟩

/-- The addresses 192.168.7.9 and 2001:db8:7::9, as the two members of the union. -/
def sample_b : in_addr_union :=
  ⟨0xC0A80709, [0x20, 0x01, 0x0d, 0xb8, 0, 0x07, 0, 0, 0, 0, 0, 0, 0, 0, 0, 0x09]⟩

/-! ## Decimal digits -/

theorem toDigitsCore_acc (fuel : Nat) : ∀ (n : Nat) (ds : List Char),
    Nat.toDigitsCore 10 fuel n ds = Nat.toDigitsCore 10 fuel n [] ++ ds := by
  induction fuel with
  | zero => intro n ds; simp [Nat.toDigitsCore]
  | succ f ih =>
    intro n ds
    simp only [Nat.toDigitsCore]
    by_cases h : n / 10 = 0
    · simp [h]
    · simp only [h, if_false]
      rw [ih (n / 10) (Nat.digitChar (n % 10) :: ds), ih (n / 10) [Nat.digitChar (n % 10)]]
      simp

theorem toDigitsCore_fuel (f1 : Nat) : ∀ (f2 n : Nat) (ds : List Char), n < f1 → n < f2 →
    Nat.toDigitsCore 10 f1 n ds = Nat.toDigitsCore 10 f2 n ds := by
  induction f1 with
  | zero => intro f2 n ds h; omega
  | succ f ih =>
    intro f2 n ds h1 h2
    cases f2 with
    | zero => omega
    | succ g =>
      simp only [Nat.toDigitsCore]
      by_cases h : n / 10 = 0
      · simp [h]
      · simp only [h, if_false]
        exact ih g (n / 10) _ (by omega) (by omega)

theorem toDigits_lt_ten (n : Nat) (h : n < 10) : Nat.toDigits 10 n = [Nat.digitChar n] := by
  have h0 : n / 10 = 0 := by omega
  have h1 : n % 10 = n := by omega
  simp [Nat.toDigits, Nat.toDigitsCore, h0, h1]

theorem toDigits_ge_ten (n : Nat) (h : 10 ≤ n) :
    Nat.toDigits 10 n = Nat.toDigits 10 (n / 10) ++ [Nat.digitChar (n % 10)] := by
  have h0 : n / 10 ≠ 0 := by omega
  have hl : Nat.toDigits 10 n =
      Nat.toDigitsCore 10 n (n / 10) [Nat.digitChar (n % 10)] := by
    simp only [Nat.toDigits, Nat.toDigitsCore, h0, if_false]
  have hr : Nat.toDigits 10 (n / 10) = Nat.toDigitsCore 10 (n / 10 + 1) (n / 10) [] := rfl
  rw [hl, hr, toDigitsCore_acc n (n / 10) [Nat.digitChar (n % 10)],
    toDigitsCore_fuel n (n / 10 + 1) (n / 10) [] (by omega) (by omega)]

theorem fixed_digits_zero (k : Nat) : fixed_digits k 0 = List.replicate k '0' := by
  induction k with
  | zero => rfl
  | succ k ih =>
    simp only [fixed_digits, Nat.zero_div, Nat.zero_mod, ih, List.replicate_succ']
    rfl

theorem toDigits_length_pos (n : Nat) : 0 < (Nat.toDigits 10 n).length := by
  by_cases h : n < 10
  · rw [toDigits_lt_ten n h]; simp
  · rw [toDigits_ge_ten n (by omega)]; simp

theorem zero_pad_toDigits (k : Nat) : ∀ n : Nat, n < 10 ^ (k + 1) →
    zero_pad (k + 1) (Nat.toDigits 10 n) = fixed_digits (k + 1) n := by
  induction k with
  | zero =>
    intro n hn
    have h : n < 10 := by simpa using hn
    have h1 : n % 10 = n := by omega
    rw [toDigits_lt_ten n h]
    simp [zero_pad, fixed_digits, h1]
  | succ k ih =>
    intro n hn
    by_cases h : n < 10
    · have h0 : n / 10 = 0 := by omega
      have h1 : n % 10 = n := by omega
      rw [toDigits_lt_ten n h]
      simp only [fixed_digits, h0, h1]
      have hz := fixed_digits_zero (k + 1)
      simp only [fixed_digits, Nat.zero_div, Nat.zero_mod] at hz
      rw [hz]
      simp [zero_pad]
    · have hdiv : n / 10 < 10 ^ (k + 1) := by
        rw [Nat.div_lt_iff_lt_mul (by decide)]
        calc n < 10 ^ (k + 1 + 1) := hn
          _ = 10 ^ (k + 1) * 10 := by rw [pow_succ]
      have hi := ih (n / 10) hdiv
      rw [toDigits_ge_ten n (by omega)]
      have hpos := toDigits_length_pos (n / 10)
      have hstep : fixed_digits (k + 1 + 1) n =
          fixed_digits (k + 1) (n / 10) ++ [Nat.digitChar (n % 10)] := rfl
      rw [hstep, ← hi]
      simp only [zero_pad, List.length_append, List.length_singleton, List.append_assoc]
      congr 2
      omega

theorem strftime_02_eq (n : Nat) (h : n < 100) :
    strftime_02 n = String.mk [dec_digit n 1, dec_digit n 0] := by
  have hp := zero_pad_toDigits 1 n (by simpa using h)
  simp only [strftime_02, hp]
  simp [fixed_digits, dec_digit]

theorem strftime_Y_eq (y : Nat) (h1 : 1000 ≤ y) (h2 : y ≤ 9999) :
    strftime_Y (y : Int) = String.mk [dec_digit y 3, dec_digit y 2, dec_digit y 1, dec_digit y 0] := by
  have hd : Nat.toDigits 10 y = [dec_digit y 3, dec_digit y 2, dec_digit y 1, dec_digit y 0] := by
    rw [toDigits_ge_ten y (by omega), toDigits_ge_ten (y / 10) (by omega),
      toDigits_ge_ten (y / 10 / 10) (by omega), toDigits_lt_ten (y / 10 / 10 / 10) (by omega)]
    have h3 : y / 1000 % 10 = y / 1000 := by omega
    simp [dec_digit, Nat.div_div_eq_div_mul, h3]
  simp [strftime_Y, Nat.repr, hd, List.asString]

theorem printf_06ld_eq (u : Nat) (h : u ≤ 999999) :
    printf_06ld (u : Int) = String.mk [dec_digit u 5, dec_digit u 4, dec_digit u 3,
      dec_digit u 2, dec_digit u 1, dec_digit u 0] := by
  have hp := zero_pad_toDigits 5 u (by omega)
  simp only [printf_06ld, Int.toNat_ofNat, Int.ofNat_nonneg, if_true, hp]
  simp [fixed_digits, dec_digit, Nat.div_div_eq_div_mul]

theorem strftime_YmdT_eq (t : tm) (y : Nat) (hyear : t.tm_year + 1900 = (y : Int))
    (hy1 : 1000 ≤ y) (hy2 : y ≤ 9999) (hmon : t.tm_mon ≤ 11) (hmday : t.tm_mday ≤ 31)
    (hhour : t.tm_hour ≤ 23) (hmin : t.tm_min ≤ 59) (hsec : t.tm_sec ≤ 60) :
    strftime_YmdT t = String.mk [dec_digit y 3, dec_digit y 2, dec_digit y 1, dec_digit y 0, '-',
      dec_digit (t.tm_mon + 1) 1, dec_digit (t.tm_mon + 1) 0, '-',
      dec_digit t.tm_mday 1, dec_digit t.tm_mday 0, 'T',
      dec_digit t.tm_hour 1, dec_digit t.tm_hour 0, ':',
      dec_digit t.tm_min 1, dec_digit t.tm_min 0, ':',
      dec_digit t.tm_sec 1, dec_digit t.tm_sec 0] := by
  simp only [strftime_YmdT, hyear, strftime_Y_eq y hy1 hy2,
    strftime_02_eq (t.tm_mon + 1) (by omega), strftime_02_eq t.tm_mday (by omega),
    strftime_02_eq t.tm_hour (by omega), strftime_02_eq t.tm_min (by omega),
    strftime_02_eq t.tm_sec (by omega)]
  apply String.ext
  simp

/-! ## The timestamp -/

/-- C6: given the broken-down local time `lt` (a four-digit year, the other fields in their
calendar ranges) and the zone string sign-HHMM that strftime produces for it, and a buffer of
at least 34 bytes, `format_rfc3339_timestamp` writes YYYY-MM-DDTHH:MM:SS, then, exactly when a
timeval was supplied, a dot and `tv_usec` (between 0 and 999999) as six zero-padded digits, then
the offset as sign, two hour digits, a colon, two minute digits, then one space. -/
theorem format_rfc3339_timestamp_layout (env : Env) (tv : Option timeval) (header_size : Nat)
    (lt : tm) (y zh zm : Nat) (neg : Bool)
    (hsize : 34 ≤ header_size)
    (hlt : env.localtime_r (timestamp_sec env tv) = lt)
    (hyear : lt.tm_year + 1900 = (y : Int)) (hy1 : 1000 ≤ y) (hy2 : y ≤ 9999)
    (hmon : lt.tm_mon ≤ 11) (hmday : lt.tm_mday ≤ 31) (hhour : lt.tm_hour ≤ 23)
    (hmin : lt.tm_min ≤ 59) (hsec : lt.tm_sec ≤ 60)
    (hz : env.strftime_z lt = String.mk [if neg then '-' else '+',
      dec_digit zh 1, dec_digit zh 0, dec_digit zm 1, dec_digit zm 0])
    (husec : ∀ v, tv = some v → 0 ≤ v.tv_usec ∧ v.tv_usec ≤ 999999) :
    format_rfc3339_timestamp env tv header_size = some (
      String.mk [dec_digit y 3, dec_digit y 2, dec_digit y 1, dec_digit y 0, '-',
        dec_digit (lt.tm_mon + 1) 1, dec_digit (lt.tm_mon + 1) 0, '-',
        dec_digit lt.tm_mday 1, dec_digit lt.tm_mday 0, 'T',
        dec_digit lt.tm_hour 1, dec_digit lt.tm_hour 0, ':',
        dec_digit lt.tm_min 1, dec_digit lt.tm_min 0, ':',
        dec_digit lt.tm_sec 1, dec_digit lt.tm_sec 0] ++
      (match tv with
        | some v => String.mk ['.', dec_digit v.tv_usec.toNat 5, dec_digit v.tv_usec.toNat 4,
            dec_digit v.tv_usec.toNat 3, dec_digit v.tv_usec.toNat 2,
            dec_digit v.tv_usec.toNat 1, dec_digit v.tv_usec.toNat 0]
        | none => "") ++
      String.mk [if neg then '-' else '+', dec_digit zh 1, dec_digit zh 0, ':',
        dec_digit zm 1, dec_digit zm 0, ' ']) := by
  have hdate := strftime_YmdT_eq lt y hyear hy1 hy2 hmon hmday hhour hmin hsec
  have hcolon : (":" : String).length = 1 := rfl
  have hspace : (" " : String).length = 1 := rfl
  have hdot : ("." : String).length = 1 := rfl
  have hempty : ("" : String).length = 0 := rfl
  cases tv with
  | none =>
    simp only [timestamp_sec] at hlt
    simp only [format_rfc3339_timestamp, hlt, hdate, hz]
    have h19 : 19 < header_size := by omega
    have h7 : 7 < header_size - 19 := by omega
    simp [String.length_append, hcolon, hspace, hdot, hempty, printf_prec_s, str_offset, h19, h7]
    apply String.ext
    simp
  | some v =>
    obtain ⟨hu1, hu2⟩ := husec v rfl
    obtain ⟨u, hu⟩ : ∃ u : Nat, v.tv_usec = (u : Int) := ⟨v.tv_usec.toNat, by omega⟩
    have hfrac := printf_06ld_eq u (by omega)
    simp only [timestamp_sec] at hlt
    simp only [format_rfc3339_timestamp, hlt, hdate, hz, hu, hfrac]
    have h19 : 19 < header_size := by omega
    have h7 : 7 < header_size - 19 := by omega
    have h7b : 7 < header_size - 19 - 7 := by omega
    simp [String.length_append, hcolon, hspace, hdot, hempty, printf_prec_s, str_offset, h19, h7, h7b]
    apply String.ext
    simp

/-- C6, at the time of scenario S1 in UTC with a 42-byte buffer. -/
theorem format_rfc3339_timestamp_layout_witness :
    format_rfc3339_timestamp (env_utc 0 [] []) (some tv_S1) 42 =
      some "2023-11-14T22:13:20.123456+00:00 " :=
  (format_rfc3339_timestamp_layout (env_utc 0 [] []) (some tv_S1) 42
    (localtime_r_utc 1700000000) 2023 0 0 false (by decide) (by decide) (by decide) (by decide)
    (by decide) (by decide) (by decide) (by decide) (by decide) (by decide) (by decide)
    (by intro v hv; cases hv; decide)).trans (by decide)

/-! ## The gather lists of the two formatters -/

theorem makepri_lt (severity facility : Int) : makepri severity facility < 256 := by
  unfold makepri
  omega

theorem printf_i_length (n : Nat) (h : n < 256) : (printf_i n).length ≤ 3 :=
  Nat.repr_length n 3 (by decide) (by omega)

theorem format_rfc5424_iov_eq (env : Env) (m : Manager) (severity facility : Int)
    (identifier hostname pid : Option String) (message : String) (tv : Option timeval)
    (sd msgid : Option String) (header_time : String)
    (hts : format_rfc3339_timestamp env tv env.FORMAT_TIMESTAMP_MAX = some header_time) :
    format_rfc5424_iov env m severity facility identifier (some message) hostname pid tv sd msgid =
      some (["<" ++ printf_i (makepri severity facility) ++ ">" ++ "1" ++ " ", header_time,
        hostname.getD "-", " ", identifier.getD "-", " ", pid.getD "-", " ", msgid.getD "-", " ",
        (match m.structured_data with
          | some s => s
          | none => sd.getD "-"), " ", message] ++
        (if m.protocol = SYSLOG_TRANSMISSION_PROTOCOL_TCP then ["\n"] else [])) := by
  have hlen := printf_i_length _ (makepri_lt severity facility)
  have h1 : ("<" : String).length = 1 := rfl
  have h2 : (">" : String).length = 1 := rfl
  have h3 : (" " : String).length = 1 := rfl
  have h4 : printf_i RFC_5424_PROTOCOL = "1" := rfl
  have h5 : ("1" : String).length = 1 := rfl
  have hfit : ("<" ++ printf_i (makepri severity facility) ++ ">" ++ "1" ++ " ").length < 8 := by
    simp only [String.length_append, h1, h2, h3, h5]
    omega
  simp only [format_rfc5424_iov, hts, h4, hfit, RFC_5424_NILVALUE]
  cases hostname <;> cases identifier <;> cases pid <;> cases msgid <;> cases sd <;>
    cases m.structured_data <;> by_cases hp : m.protocol = SYSLOG_TRANSMISSION_PROTOCOL_TCP <;>
    simp [hp, String.length_append, h1]

theorem format_rfc3339_iov_eq (env : Env) (m : Manager) (severity facility : Int)
    (identifier hostname pid : Option String) (message : String) (tv : Option timeval)
    (header_time : String)
    (hts : format_rfc3339_timestamp env tv env.FORMAT_TIMESTAMP_MAX = some header_time) :
    format_rfc3339_iov env m severity facility identifier (some message) hostname pid tv =
      some (["<" ++ printf_i (makepri severity facility) ++ ">", header_time,
        hostname.getD "-", " ", identifier.getD "-", "[", pid.getD "-", "]: ", message] ++
        (if m.protocol = SYSLOG_TRANSMISSION_PROTOCOL_TCP then ["\n"] else [])) := by
  have hlen := printf_i_length _ (makepri_lt severity facility)
  have h1 : ("<" : String).length = 1 := rfl
  have h2 : (">" : String).length = 1 := rfl
  have hfit : ("<" ++ printf_i (makepri severity facility) ++ ">").length < 8 := by
    simp only [String.length_append, h1, h2]
    omega
  simp only [format_rfc3339_iov, hts, hfit, RFC_5424_NILVALUE]
  cases hostname <;> cases identifier <;> cases pid <;>
    by_cases hp : m.protocol = SYSLOG_TRANSMISSION_PROTOCOL_TCP <;>
    simp [hp, String.length_append, h1]

theorem format_rfc3339_timestamp_space (env : Env) (tv : Option timeval) (header_size : Nat)
    (header_time : String)
    (hts : format_rfc3339_timestamp env tv header_size = some header_time) :
    ∃ TIMESTAMP : String, header_time = TIMESTAMP ++ " " := by
  unfold format_rfc3339_timestamp at hts
  simp only at hts
  generalize env.localtime_r _ = lt at hts
  generalize strftime_YmdT lt = date at hts
  generalize env.strftime_z lt = gm_buf at hts
  cases tv with
  | none =>
    simp only at hts
    split_ifs at hts
    all_goals cases hts
    all_goals exact ⟨_, (String.append_assoc _ _ _).symm⟩
  | some v =>
    simp only at hts
    split_ifs at hts
    all_goals simp only at hts
    all_goals split_ifs at hts
    all_goals cases hts
    all_goals exact ⟨_, (String.append_assoc _ _ _).symm⟩

/-- The record of scenario S1 handed to `format_rfc5424_iov` for a manager of the given
protocol, in UTC. -/
theorem format_rfc5424_iov_S1 (protocol : SysLogTransmissionProtocol) :
    format_rfc5424_iov (env_utc 0 [] [])
      (manager_for protocol SYSLOG_TRANSMISSION_LOG_FORMAT_RFC_5424) 6 1 (some "app")
      (some "hello") none (some "42") (some tv_S1) none none =
    some (["<14>1 ", "2023-11-14T22:13:20.123456+00:00 ", "-", " ", "app", " ", "42", " ", "-",
      " ", "-", " ", "hello"] ++
      (if protocol = SYSLOG_TRANSMISSION_PROTOCOL_TCP then ["\n"] else [])) := by
  cases protocol <;> decide

/-- C1: for every manager (whatever its log format) and every record with a non-null message
whose timestamp `header_time` was written, the gather list that `format_rfc5424` hands to
`protocol_send` concatenates to `<PRI>1 TIMESTAMP HOST APP PROCID MSGID SD MSG` with single
spaces, followed only by the optional frame separator; HOST, APP, PROCID and MSGID are the
values of the record, or `-` when absent; PRI is the 8-bit priority in decimal and SD the
structured data of the manager, else of the record, else `-`. -/
theorem format_rfc5424_layout (env : Env) (w : World) (severity facility : Int)
    (identifier hostname pid : Option String) (message : String) (tv : Option timeval)
    (sd msgid : Option String) (header_time : String)
    (hts : format_rfc3339_timestamp env tv env.FORMAT_TIMESTAMP_MAX = some header_time) :
    ∃ (iov : List String) (TIMESTAMP sep : String),
      format_rfc5424_iov env w.m severity facility identifier (some message) hostname pid tv
        sd msgid = some iov ∧
      format_rfc5424 env w severity facility identifier (some message) hostname pid tv
        sd msgid = protocol_send env w iov ∧
      header_time = TIMESTAMP ++ " " ∧
      (sep = "" ∨ sep = "\n") ∧
      String.join iov = "<" ++ toString (makepri severity facility) ++ ">1 " ++ TIMESTAMP ++ " " ++
        hostname.getD "-" ++ " " ++ identifier.getD "-" ++ " " ++ pid.getD "-" ++ " " ++
        msgid.getD "-" ++ " " ++
        (match w.m.structured_data with
          | some s => s
          | none => sd.getD "-") ++ " " ++ message ++ sep := by
  obtain ⟨TIMESTAMP, hT⟩ := format_rfc3339_timestamp_space env tv _ header_time hts
  have hiov := format_rfc5424_iov_eq env w.m severity facility identifier hostname pid message
    tv sd msgid header_time hts
  refine ⟨_, TIMESTAMP, if w.m.protocol = SYSLOG_TRANSMISSION_PROTOCOL_TCP then "\n" else "",
    hiov, ?_, hT, ?_, ?_⟩
  · simp only [format_rfc5424, hiov]
  · by_cases hp : w.m.protocol = SYSLOG_TRANSMISSION_PROTOCOL_TCP <;> simp [hp]
  · subst hT
    have hrepr : toString (makepri severity facility) = Nat.repr (makepri severity facility) :=
      rfl
    apply String.ext
    by_cases hp : w.m.protocol = SYSLOG_TRANSMISSION_PROTOCOL_TCP <;>
      simp [hp, hrepr, String.join, printf_i, String.data_append]

/-- C1, on scenario S1: severity 6, facility 1, identifier app, pid 42, message hello, at
1700000000.123456 in UTC over UDP. -/
theorem format_rfc5424_layout_witness :
    (∃ (iov : List String) (TIMESTAMP sep : String),
      format_rfc5424_iov (env_utc 0 [SendmsgResult.sent 57] [])
        (World.mk (manager_for SYSLOG_TRANSMISSION_PROTOCOL_UDP
          SYSLOG_TRANSMISSION_LOG_FORMAT_RFC_5424) []).m 6 1 (some "app") (some "hello") none
        (some "42") (some tv_S1) none none = some iov ∧
      format_rfc5424 (env_utc 0 [SendmsgResult.sent 57] [])
        (World.mk (manager_for SYSLOG_TRANSMISSION_PROTOCOL_UDP
          SYSLOG_TRANSMISSION_LOG_FORMAT_RFC_5424) []) 6 1 (some "app") (some "hello") none
        (some "42") (some tv_S1) none none =
        protocol_send (env_utc 0 [SendmsgResult.sent 57] [])
          (World.mk (manager_for SYSLOG_TRANSMISSION_PROTOCOL_UDP
            SYSLOG_TRANSMISSION_LOG_FORMAT_RFC_5424) []) iov ∧
      "2023-11-14T22:13:20.123456+00:00 " = TIMESTAMP ++ " " ∧
      (sep = "" ∨ sep = "\n") ∧
      String.join iov = "<" ++ toString (makepri 6 1) ++ ">1 " ++ TIMESTAMP ++ " " ++
        (none : Option String).getD "-" ++ " " ++ (some "app").getD "-" ++ " " ++
        (some "42").getD "-" ++ " " ++ (none : Option String).getD "-" ++ " " ++
        (match (World.mk (manager_for SYSLOG_TRANSMISSION_PROTOCOL_UDP
            SYSLOG_TRANSMISSION_LOG_FORMAT_RFC_5424) []).m.structured_data with
          | some s => s
          | none => (none : Option String).getD "-") ++ " " ++ "hello" ++ sep) ∧
    (format_rfc5424_iov (env_utc 0 [SendmsgResult.sent 57] [])
        (manager_for SYSLOG_TRANSMISSION_PROTOCOL_UDP SYSLOG_TRANSMISSION_LOG_FORMAT_RFC_5424)
        6 1 (some "app") (some "hello") none (some "42") (some tv_S1) none none).map String.join =
      some "<14>1 2023-11-14T22:13:20.123456+00:00 - app 42 - - hello" :=
  ⟨format_rfc5424_layout (env_utc 0 [SendmsgResult.sent 57] [])
      (World.mk (manager_for SYSLOG_TRANSMISSION_PROTOCOL_UDP
        SYSLOG_TRANSMISSION_LOG_FORMAT_RFC_5424) []) 6 1 (some "app") none (some "42") "hello"
      (some tv_S1) none none "2023-11-14T22:13:20.123456+00:00 " (by decide),
    by decide⟩

/-- C2: for every facility in 0..23 and severity in 0..7, the first segment of the gather list
of `format_rfc5424` is `<N>` followed by the version `1` and a space, and the first segment of
the gather list of `format_rfc3339` is `<N>`, where N is the decimal representation of
`facility * 8 + severity`. -/
theorem priority_rendering (env : Env) (m : Manager) (severity facility : Nat)
    (identifier hostname pid : Option String) (message : String) (tv : Option timeval)
    (sd msgid : Option String) (header_time : String)
    (hfac : facility ≤ 23) (hsev : severity ≤ 7)
    (hts : format_rfc3339_timestamp env tv env.FORMAT_TIMESTAMP_MAX = some header_time) :
    (∃ rest : List String,
      format_rfc5424_iov env m (severity : Int) (facility : Int) identifier (some message)
        hostname pid tv sd msgid =
        some (("<" ++ toString (facility * 8 + severity) ++ ">" ++ "1 ") :: rest)) ∧
    (∃ rest : List String,
      format_rfc3339_iov env m (severity : Int) (facility : Int) identifier (some message)
        hostname pid tv =
        some (("<" ++ toString (facility * 8 + severity) ++ ">") :: rest)) := by
  have hpri : makepri (severity : Int) (facility : Int) = facility * 8 + severity := by
    unfold makepri
    omega
  have hrepr : printf_i (facility * 8 + severity) = toString (facility * 8 + severity) := rfl
  have h1 : ("1" : String) ++ " " = "1 " := rfl
  constructor
  · refine ⟨[header_time, hostname.getD "-", " ", identifier.getD "-", " ", pid.getD "-", " ",
      msgid.getD "-", " ",
      (match m.structured_data with
        | some s => s
        | none => sd.getD "-"), " ", message] ++
      (if m.protocol = SYSLOG_TRANSMISSION_PROTOCOL_TCP then ["\n"] else []), ?_⟩
    rw [format_rfc5424_iov_eq env m _ _ identifier hostname pid message tv sd msgid header_time
      hts, hpri, hrepr, String.append_assoc _ "1" " ", h1]
    rfl
  · refine ⟨[header_time, hostname.getD "-", " ", identifier.getD "-", "[", pid.getD "-", "]: ",
      message] ++ (if m.protocol = SYSLOG_TRANSMISSION_PROTOCOL_TCP then ["\n"] else []), ?_⟩
    rw [format_rfc3339_iov_eq env m _ _ identifier hostname pid message tv header_time hts,
      hpri, hrepr]
    rfl

/-- C2, on the record of scenario S1 (facility 1, severity 6, so N is 14). -/
theorem priority_rendering_witness :
    ((∃ rest : List String,
      format_rfc5424_iov (env_utc 0 [] [])
        (manager_for SYSLOG_TRANSMISSION_PROTOCOL_UDP SYSLOG_TRANSMISSION_LOG_FORMAT_RFC_5424)
        ((6 : Nat) : Int) ((1 : Nat) : Int) (some "app") (some "hello") none (some "42")
        (some tv_S1) none none =
        some (("<" ++ toString (1 * 8 + 6) ++ ">" ++ "1 ") :: rest)) ∧
    (∃ rest : List String,
      format_rfc3339_iov (env_utc 0 [] [])
        (manager_for SYSLOG_TRANSMISSION_PROTOCOL_UDP SYSLOG_TRANSMISSION_LOG_FORMAT_RFC_5424)
        ((6 : Nat) : Int) ((1 : Nat) : Int) (some "app") (some "hello") none (some "42")
        (some tv_S1) =
        some (("<" ++ toString (1 * 8 + 6) ++ ">") :: rest))) ∧
    "<" ++ toString (1 * 8 + 6) ++ ">" = "<14>" :=
  ⟨priority_rendering (env_utc 0 [] [])
      (manager_for SYSLOG_TRANSMISSION_PROTOCOL_UDP SYSLOG_TRANSMISSION_LOG_FORMAT_RFC_5424)
      6 1 (some "app") none (some "42") "hello" (some tv_S1) none none
      "2023-11-14T22:13:20.123456+00:00 " (by decide) (by decide) (by decide),
    by decide⟩

/-- C3: the structured-data segment of the gather list of `format_rfc5424` (the eleventh, before
the space and the message) is the structured data configured in the manager whenever that is
set, even if the record carries its own; otherwise that of the record when present; otherwise
the NIL token. -/
theorem structured_data_precedence (env : Env) (m : Manager) (severity facility : Int)
    (identifier hostname pid : Option String) (message : String) (tv : Option timeval)
    (sd msgid : Option String) (header_time : String)
    (hts : format_rfc3339_timestamp env tv env.FORMAT_TIMESTAMP_MAX = some header_time) :
    ∃ (head tail : List String) (SD : String),
      format_rfc5424_iov env m severity facility identifier (some message) hostname pid tv
        sd msgid = some (head ++ [SD, " ", message] ++ tail) ∧
      head.length = 10 ∧
      (∀ s, m.structured_data = some s → SD = s) ∧
      (∀ s, m.structured_data = none → sd = some s → SD = s) ∧
      (m.structured_data = none → sd = none → SD = "-") := by
  refine ⟨["<" ++ printf_i (makepri severity facility) ++ ">" ++ "1" ++ " ", header_time,
      hostname.getD "-", " ", identifier.getD "-", " ", pid.getD "-", " ", msgid.getD "-", " "],
    if m.protocol = SYSLOG_TRANSMISSION_PROTOCOL_TCP then ["\n"] else [],
    (match m.structured_data with
      | some s => s
      | none => sd.getD "-"), ?_, rfl, ?_, ?_, ?_⟩
  · rw [format_rfc5424_iov_eq env m severity facility identifier hostname pid message tv sd
      msgid header_time hts]
    rfl
  · intro s hs
    simp [hs]
  · intro s hm hs
    simp [hm, hs]
  · intro hm hs
    simp [hm, hs]

/-- C3, on the record of scenario S1 given structured data of its own, with a manager whose
configured structured data differs: the configured one is sent. -/
theorem structured_data_precedence_witness :
    (∃ (head tail : List String) (SD : String),
      format_rfc5424_iov (env_utc 0 [] [])
        { manager_for SYSLOG_TRANSMISSION_PROTOCOL_UDP SYSLOG_TRANSMISSION_LOG_FORMAT_RFC_5424
          with structured_data := some "[cfg@1 k=v]" }
        6 1 (some "app") (some "hello") none (some "42") (some tv_S1) (some "[rec@2]") none =
        some (head ++ [SD, " ", "hello"] ++ tail) ∧
      head.length = 10 ∧
      (∀ s, ({ manager_for SYSLOG_TRANSMISSION_PROTOCOL_UDP
          SYSLOG_TRANSMISSION_LOG_FORMAT_RFC_5424
          with structured_data := some "[cfg@1 k=v]" } : Manager).structured_data = some s →
        SD = s) ∧
      (∀ s, ({ manager_for SYSLOG_TRANSMISSION_PROTOCOL_UDP
          SYSLOG_TRANSMISSION_LOG_FORMAT_RFC_5424
          with structured_data := some "[cfg@1 k=v]" } : Manager).structured_data = none →
        some "[rec@2]" = some s → SD = s) ∧
      (({ manager_for SYSLOG_TRANSMISSION_PROTOCOL_UDP
          SYSLOG_TRANSMISSION_LOG_FORMAT_RFC_5424
          with structured_data := some "[cfg@1 k=v]" } : Manager).structured_data = none →
        some "[rec@2]" = none → SD = "-")) ∧
    (format_rfc5424_iov (env_utc 0 [] [])
        { manager_for SYSLOG_TRANSMISSION_PROTOCOL_UDP SYSLOG_TRANSMISSION_LOG_FORMAT_RFC_5424
          with structured_data := some "[cfg@1 k=v]" }
        6 1 (some "app") (some "hello") none (some "42") (some tv_S1) (some "[rec@2]")
        none).map String.join =
      some "<14>1 2023-11-14T22:13:20.123456+00:00 - app 42 - [cfg@1 k=v] hello" :=
  ⟨structured_data_precedence (env_utc 0 [] [])
      { manager_for SYSLOG_TRANSMISSION_PROTOCOL_UDP SYSLOG_TRANSMISSION_LOG_FORMAT_RFC_5424
        with structured_data := some "[cfg@1 k=v]" }
      6 1 (some "app") none (some "42") "hello" (some tv_S1) (some "[rec@2]") none
      "2023-11-14T22:13:20.123456+00:00 " (by decide),
    by decide⟩

/-- C4, evaluated on the record of scenario S1: over TCP both formatters end the output with
the frame separator, over UDP and DTLS they end it with the message, and over TLS too the output
ends with the message, no separator being appended. -/
theorem tls_frame_separator_missing :
    (format_rfc5424_iov (env_utc 0 [] [])
        (manager_for SYSLOG_TRANSMISSION_PROTOCOL_TLS SYSLOG_TRANSMISSION_LOG_FORMAT_RFC_5424)
        6 1 (some "app") (some "hello") none (some "42") (some tv_S1) none none).map String.join =
      some "<14>1 2023-11-14T22:13:20.123456+00:00 - app 42 - - hello" ∧
    (format_rfc3339_iov (env_utc 0 [] [])
        (manager_for SYSLOG_TRANSMISSION_PROTOCOL_TLS SYSLOG_TRANSMISSION_LOG_FORMAT_RFC_3339)
        6 1 (some "app") (some "hello") none (some "42") (some tv_S1)).map String.join =
      some "<14>2023-11-14T22:13:20.123456+00:00 - app[42]: hello" ∧
    (format_rfc5424_iov (env_utc 0 [] [])
        (manager_for SYSLOG_TRANSMISSION_PROTOCOL_TCP SYSLOG_TRANSMISSION_LOG_FORMAT_RFC_5424)
        6 1 (some "app") (some "hello") none (some "42") (some tv_S1) none none).map String.join =
      some "<14>1 2023-11-14T22:13:20.123456+00:00 - app 42 - - hello\n" ∧
    (format_rfc5424_iov (env_utc 0 [] [])
        (manager_for SYSLOG_TRANSMISSION_PROTOCOL_UDP SYSLOG_TRANSMISSION_LOG_FORMAT_RFC_5424)
        6 1 (some "app") (some "hello") none (some "42") (some tv_S1) none none).map String.join =
      some "<14>1 2023-11-14T22:13:20.123456+00:00 - app 42 - - hello" ∧
    (format_rfc5424_iov (env_utc 0 [] [])
        (manager_for SYSLOG_TRANSMISSION_PROTOCOL_DTLS SYSLOG_TRANSMISSION_LOG_FORMAT_RFC_5424)
        6 1 (some "app") (some "hello") none (some "42") (some tv_S1) none none).map String.join =
      some "<14>1 2023-11-14T22:13:20.123456+00:00 - app 42 - - hello" := by
  decide

/-- C5: for every manager (whatever its log format) and every record with a non-null message
whose timestamp `header_time` was written, the gather list that `format_rfc3339` hands to
`protocol_send` concatenates to `<PRI>TIMESTAMP HOST APP[PID]: MSG`, followed only by the
optional frame separator; HOST, APP and PID are the values of the record, or `-` when absent;
PRI is the 8-bit priority in decimal. -/
theorem format_rfc3339_layout (env : Env) (w : World) (severity facility : Int)
    (identifier hostname pid : Option String) (message : String) (tv : Option timeval)
    (header_time : String)
    (hts : format_rfc3339_timestamp env tv env.FORMAT_TIMESTAMP_MAX = some header_time) :
    ∃ (iov : List String) (TIMESTAMP sep : String),
      format_rfc3339_iov env w.m severity facility identifier (some message) hostname pid tv =
        some iov ∧
      format_rfc3339 env w severity facility identifier (some message) hostname pid tv =
        protocol_send env w iov ∧
      header_time = TIMESTAMP ++ " " ∧
      (sep = "" ∨ sep = "\n") ∧
      String.join iov = "<" ++ toString (makepri severity facility) ++ ">" ++ TIMESTAMP ++ " " ++
        hostname.getD "-" ++ " " ++ identifier.getD "-" ++ "[" ++ pid.getD "-" ++ "]: " ++
        message ++ sep := by
  obtain ⟨TIMESTAMP, hT⟩ := format_rfc3339_timestamp_space env tv _ header_time hts
  have hiov := format_rfc3339_iov_eq env w.m severity facility identifier hostname pid message
    tv header_time hts
  refine ⟨_, TIMESTAMP, if w.m.protocol = SYSLOG_TRANSMISSION_PROTOCOL_TCP then "\n" else "",
    hiov, ?_, hT, ?_, ?_⟩
  · simp only [format_rfc3339, hiov]
  · by_cases hp : w.m.protocol = SYSLOG_TRANSMISSION_PROTOCOL_TCP <;> simp [hp]
  · subst hT
    have hrepr : toString (makepri severity facility) = Nat.repr (makepri severity facility) :=
      rfl
    apply String.ext
    by_cases hp : w.m.protocol = SYSLOG_TRANSMISSION_PROTOCOL_TCP <;>
      simp [hp, hrepr, String.join, printf_i, String.data_append]

/-- C5, on the record of scenario S1 with the legacy log format over UDP. -/
theorem format_rfc3339_layout_witness :
    (∃ (iov : List String) (TIMESTAMP sep : String),
      format_rfc3339_iov (env_utc 0 [SendmsgResult.sent 53] [])
        (World.mk (manager_for SYSLOG_TRANSMISSION_PROTOCOL_UDP
          SYSLOG_TRANSMISSION_LOG_FORMAT_RFC_3339) []).m 6 1 (some "app") (some "hello") none
        (some "42") (some tv_S1) = some iov ∧
      format_rfc3339 (env_utc 0 [SendmsgResult.sent 53] [])
        (World.mk (manager_for SYSLOG_TRANSMISSION_PROTOCOL_UDP
          SYSLOG_TRANSMISSION_LOG_FORMAT_RFC_3339) []) 6 1 (some "app") (some "hello") none
        (some "42") (some tv_S1) =
        protocol_send (env_utc 0 [SendmsgResult.sent 53] [])
          (World.mk (manager_for SYSLOG_TRANSMISSION_PROTOCOL_UDP
            SYSLOG_TRANSMISSION_LOG_FORMAT_RFC_3339) []) iov ∧
      "2023-11-14T22:13:20.123456+00:00 " = TIMESTAMP ++ " " ∧
      (sep = "" ∨ sep = "\n") ∧
      String.join iov = "<" ++ toString (makepri 6 1) ++ ">" ++ TIMESTAMP ++ " " ++
        (none : Option String).getD "-" ++ " " ++ (some "app").getD "-" ++ "[" ++
        (some "42").getD "-" ++ "]: " ++ "hello" ++ sep) ∧
    (format_rfc3339_iov (env_utc 0 [SendmsgResult.sent 53] [])
        (manager_for SYSLOG_TRANSMISSION_PROTOCOL_UDP SYSLOG_TRANSMISSION_LOG_FORMAT_RFC_3339)
        6 1 (some "app") (some "hello") none (some "42") (some tv_S1)).map String.join =
      some "<14>2023-11-14T22:13:20.123456+00:00 - app[42]: hello" :=
  ⟨format_rfc3339_layout (env_utc 0 [SendmsgResult.sent 53] [])
      (World.mk (manager_for SYSLOG_TRANSMISSION_PROTOCOL_UDP
        SYSLOG_TRANSMISSION_LOG_FORMAT_RFC_3339) []) 6 1 (some "app") none (some "42") "hello"
      (some tv_S1) "2023-11-14T22:13:20.123456+00:00 " (by decide),
    by decide⟩

theorem join_append_two (l : List String) (a b : String) :
    String.join (l ++ [a, b]) = String.join l ++ a ++ b := by
  simp [String.join, List.foldl_append]

/-- C7: for every record formatted with protocol TCP, in either log format, the gather list
handed to `protocol_send` ends with the message followed by one newline segment, so the bytes
handed to the transport end with the newline and nothing else follows the message. -/
theorem tcp_frame_separator (env : Env) (w : World) (severity facility : Int)
    (identifier hostname pid : Option String) (message : String) (tv : Option timeval)
    (sd msgid : Option String) (header_time : String)
    (hp : w.m.protocol = SYSLOG_TRANSMISSION_PROTOCOL_TCP)
    (hts : format_rfc3339_timestamp env tv env.FORMAT_TIMESTAMP_MAX = some header_time) :
    (∃ head : List String,
      format_rfc5424_iov env w.m severity facility identifier (some message) hostname pid tv
        sd msgid = some (head ++ [message, "\n"]) ∧
      format_rfc5424 env w severity facility identifier (some message) hostname pid tv
        sd msgid = protocol_send env w (head ++ [message, "\n"]) ∧
      String.join (head ++ [message, "\n"]) = String.join head ++ message ++ "\n") ∧
    (∃ head : List String,
      format_rfc3339_iov env w.m severity facility identifier (some message) hostname pid tv =
        some (head ++ [message, "\n"]) ∧
      format_rfc3339 env w severity facility identifier (some message) hostname pid tv =
        protocol_send env w (head ++ [message, "\n"]) ∧
      String.join (head ++ [message, "\n"]) = String.join head ++ message ++ "\n") := by
  have h5 := format_rfc5424_iov_eq env w.m severity facility identifier hostname pid message
    tv sd msgid header_time hts
  have h3 := format_rfc3339_iov_eq env w.m severity facility identifier hostname pid message
    tv header_time hts
  simp only [hp, if_true] at h5 h3
  constructor
  · refine ⟨["<" ++ printf_i (makepri severity facility) ++ ">" ++ "1" ++ " ", header_time,
      hostname.getD "-", " ", identifier.getD "-", " ", pid.getD "-", " ", msgid.getD "-", " ",
      (match w.m.structured_data with
        | some s => s
        | none => sd.getD "-"), " "], ?_, ?_, join_append_two _ _ _⟩
    · rw [h5]; rfl
    · simp only [format_rfc5424, h5]; rfl
  · refine ⟨["<" ++ printf_i (makepri severity facility) ++ ">", header_time,
      hostname.getD "-", " ", identifier.getD "-", "[", pid.getD "-", "]: "], ?_, ?_,
      join_append_two _ _ _⟩
    · rw [h3]; rfl
    · simp only [format_rfc3339, h3]; rfl

/-- C7, on the record of scenario S1 sent over TCP: the one `sendmsg` gets the gather list
that ends with the message and the newline. -/
theorem tcp_frame_separator_witness :
    ((∃ head : List String,
      format_rfc5424_iov (env_utc 0 [SendmsgResult.sent 58] [])
        (World.mk (manager_for SYSLOG_TRANSMISSION_PROTOCOL_TCP
          SYSLOG_TRANSMISSION_LOG_FORMAT_RFC_5424) []).m 6 1 (some "app") (some "hello") none
        (some "42") (some tv_S1) none none = some (head ++ ["hello", "\n"]) ∧
      format_rfc5424 (env_utc 0 [SendmsgResult.sent 58] [])
        (World.mk (manager_for SYSLOG_TRANSMISSION_PROTOCOL_TCP
          SYSLOG_TRANSMISSION_LOG_FORMAT_RFC_5424) []) 6 1 (some "app") (some "hello") none
        (some "42") (some tv_S1) none none =
        protocol_send (env_utc 0 [SendmsgResult.sent 58] [])
          (World.mk (manager_for SYSLOG_TRANSMISSION_PROTOCOL_TCP
            SYSLOG_TRANSMISSION_LOG_FORMAT_RFC_5424) []) (head ++ ["hello", "\n"]) ∧
      String.join (head ++ ["hello", "\n"]) = String.join head ++ "hello" ++ "\n") ∧
    (∃ head : List String,
      format_rfc3339_iov (env_utc 0 [SendmsgResult.sent 58] [])
        (World.mk (manager_for SYSLOG_TRANSMISSION_PROTOCOL_TCP
          SYSLOG_TRANSMISSION_LOG_FORMAT_RFC_5424) []).m 6 1 (some "app") (some "hello") none
        (some "42") (some tv_S1) = some (head ++ ["hello", "\n"]) ∧
      format_rfc3339 (env_utc 0 [SendmsgResult.sent 58] [])
        (World.mk (manager_for SYSLOG_TRANSMISSION_PROTOCOL_TCP
          SYSLOG_TRANSMISSION_LOG_FORMAT_RFC_5424) []) 6 1 (some "app") (some "hello") none
        (some "42") (some tv_S1) =
        protocol_send (env_utc 0 [SendmsgResult.sent 58] [])
          (World.mk (manager_for SYSLOG_TRANSMISSION_PROTOCOL_TCP
            SYSLOG_TRANSMISSION_LOG_FORMAT_RFC_5424) []) (head ++ ["hello", "\n"]) ∧
      String.join (head ++ ["hello", "\n"]) = String.join head ++ "hello" ++ "\n")) ∧
    (format_rfc5424 (env_utc 0 [SendmsgResult.sent 58] [])
        (World.mk (manager_for SYSLOG_TRANSMISSION_PROTOCOL_TCP
          SYSLOG_TRANSMISSION_LOG_FORMAT_RFC_5424) []) 6 1 (some "app") (some "hello") none
        (some "42") (some tv_S1) none none).map (fun p => (p.1, p.2.calls)) =
      some (0, [Call.sendmsg ["<14>1 ", "2023-11-14T22:13:20.123456+00:00 ", "-", " ", "app",
        " ", "42", " ", "-", " ", "-", " ", "hello", "\n"]]) :=
  ⟨tcp_frame_separator (env_utc 0 [SendmsgResult.sent 58] [])
      (World.mk (manager_for SYSLOG_TRANSMISSION_PROTOCOL_TCP
        SYSLOG_TRANSMISSION_LOG_FORMAT_RFC_5424) []) 6 1 (some "app") none (some "42") "hello"
      (some tv_S1) none none "2023-11-14T22:13:20.123456+00:00 " rfl (by decide),
    by decide⟩

/-! ## The send path -/

theorem sendmsg_loop_from_calls (mh : List String) (script : List SendmsgResult) :
    ∀ (waits : List Int) (r : Int) (cs : List Call),
      sendmsg_loop_from mh script waits = some (r, cs) → Call.manager_connect ∉ cs := by
  induction script with
  | nil => intro waits r cs h; simp [sendmsg_loop_from] at h
  | cons x rest ih =>
    intro waits r cs h
    cases x with
    | sent n =>
      simp only [sendmsg_loop_from, Option.some.injEq, Prod.mk.injEq] at h
      obtain ⟨_, rfl⟩ := h
      simp
    | error errno =>
      simp only [sendmsg_loop_from] at h
      split_ifs at h with h1 h2
      · simp only [Option.map_eq_some'] at h
        obtain ⟨p, hp, hpe⟩ := h
        cases hpe
        have := ih waits p.1 p.2 hp
        simpa using this
      · cases h; simp
      · cases waits with
        | nil => simp at h
        | cons r0 ws =>
          simp only at h
          split_ifs at h
          · cases h; simp
          · cases h; simp
          · simp only [Option.map_eq_some'] at h
            obtain ⟨p, hp, hpe⟩ := h
            cases hpe
            have := ih ws p.1 p.2 hp
            simpa using this

theorem network_send_calls (env : Env) (m : Manager) (iovec : List String) (r : Int)
    (cs : List Call) (h : network_send env m iovec = some (r, cs)) :
    Call.manager_connect ∉ cs := by
  unfold network_send sendmsg_loop at h
  split_ifs at h
  all_goals first
    | exact sendmsg_loop_from_calls _ _ _ _ _ h
    | (cases h; simp)

/-- C8: when the transport write of the protocol of the manager (UDP, TCP, DTLS, TLS or any
other value) returns a negative `r` other than `-EAGAIN`, `protocol_send` returns that same `r`
and calls `manager_connect` exactly once, as its last call after the write. -/
theorem protocol_send_error_reconnects (env : Env) (w : World) (iovec : List String) (r : Int)
    (hw : transport_write env w.m iovec = some r) (hneg : r < 0) (hne : r ≠ -EAGAIN) :
    ∃ (w1 : World) (cs : List Call),
      protocol_send env w iovec = some (r, w1) ∧
      w1.calls = w.calls ++ cs ++ [Call.manager_connect] ∧
      Call.manager_connect ∉ cs ∧
      List.count Call.manager_connect (cs ++ [Call.manager_connect]) = 1 := by
  have hcount : ∀ cs : List Call, Call.manager_connect ∉ cs →
      List.count Call.manager_connect (cs ++ [Call.manager_connect]) = 1 := by
    intro cs hcs
    simp [List.count_eq_zero_of_not_mem hcs]
  unfold transport_write at hw
  unfold protocol_send
  split at hw
  · rename_i hp
    simp only [Option.some.injEq] at hw
    simp only [hp, hw, hneg, hne, ne_eq, not_false_eq_true, and_self, if_true]
    exact ⟨_, [Call.dtls_datagram_writev iovec], rfl, by simp [call_manager_connect],
      by simp, hcount _ (by simp)⟩
  · rename_i hp
    simp only [Option.some.injEq] at hw
    simp only [hp, hw, hneg, hne, ne_eq, not_false_eq_true, and_self, if_true]
    exact ⟨_, [Call.tls_stream_writev iovec], rfl, by simp [call_manager_connect],
      by simp, hcount _ (by simp)⟩
  · rename_i hp1 hp2
    simp only [Option.map_eq_some'] at hw
    obtain ⟨p, hp, hpe⟩ := hw
    obtain ⟨r0, cs⟩ := p
    simp only at hpe
    subst hpe
    have hcs := network_send_calls env w.m iovec r0 cs hp
    cases hproto : w.m.protocol with
    | SYSLOG_TRANSMISSION_PROTOCOL_DTLS => exact absurd hproto hp1
    | SYSLOG_TRANSMISSION_PROTOCOL_TLS => exact absurd hproto hp2
    | _ =>
      simp only [hp, hneg, hne, ne_eq, not_false_eq_true, and_self, if_true]
      exact ⟨_, cs, rfl, by simp [call_manager_connect], hcs, hcount _ hcs⟩

/-- C8, for UDP when `sendmsg` fails with EPIPE, and for TLS when the writer returns
`-EPIPE`. -/
theorem protocol_send_error_reconnects_witness :
    (∃ (w1 : World) (cs : List Call),
      protocol_send (env_utc 0 [SendmsgResult.error EPIPE] [])
        (World.mk (manager_for SYSLOG_TRANSMISSION_PROTOCOL_UDP
          SYSLOG_TRANSMISSION_LOG_FORMAT_RFC_5424) []) ["<14>1 ", "hello"] = some (-EPIPE, w1) ∧
      w1.calls = (World.mk (manager_for SYSLOG_TRANSMISSION_PROTOCOL_UDP
          SYSLOG_TRANSMISSION_LOG_FORMAT_RFC_5424) []).calls ++ cs ++ [Call.manager_connect] ∧
      Call.manager_connect ∉ cs ∧
      List.count Call.manager_connect (cs ++ [Call.manager_connect]) = 1) ∧
    (protocol_send (env_utc 0 [SendmsgResult.error EPIPE] [])
        (World.mk (manager_for SYSLOG_TRANSMISSION_PROTOCOL_UDP
          SYSLOG_TRANSMISSION_LOG_FORMAT_RFC_5424) []) ["<14>1 ", "hello"]).map
        (fun p => (p.1, p.2.calls)) =
      some (-32, [Call.sendmsg ["<14>1 ", "hello"], Call.manager_connect]) ∧
    (protocol_send (env_utc (-EPIPE) [] [])
        (World.mk (manager_for SYSLOG_TRANSMISSION_PROTOCOL_TLS
          SYSLOG_TRANSMISSION_LOG_FORMAT_RFC_5424) []) ["<14>1 ", "hello"]).map
        (fun p => (p.1, p.2.calls)) =
      some (-32, [Call.tls_stream_writev ["<14>1 ", "hello"], Call.manager_connect]) :=
  ⟨protocol_send_error_reconnects (env_utc 0 [SendmsgResult.error EPIPE] [])
      (World.mk (manager_for SYSLOG_TRANSMISSION_PROTOCOL_UDP
        SYSLOG_TRANSMISSION_LOG_FORMAT_RFC_5424) []) ["<14>1 ", "hello"] (-EPIPE)
      (by decide) (by decide) (by decide),
    by decide, by decide⟩

theorem protocol_send_no_error (env : Env) (w : World) (iovec : List String) (r : Int)
    (hw : transport_write env w.m iovec = some r) (hr : ¬ (r < 0 ∧ r ≠ -EAGAIN)) :
    ∃ (w1 : World) (cs : List Call),
      protocol_send env w iovec = some (0, w1) ∧
      w1.calls = w.calls ++ cs ∧
      Call.manager_connect ∉ cs := by
  unfold transport_write at hw
  unfold protocol_send
  split at hw
  · rename_i hp
    simp only [Option.some.injEq] at hw
    simp only [hp, hw, hr, if_false]
    exact ⟨_, [Call.dtls_datagram_writev iovec], rfl, rfl, by simp⟩
  · rename_i hp
    simp only [Option.some.injEq] at hw
    simp only [hp, hw, hr, if_false]
    exact ⟨_, [Call.tls_stream_writev iovec], rfl, rfl, by simp⟩
  · rename_i hp1 hp2
    simp only [Option.map_eq_some'] at hw
    obtain ⟨p, hp, hpe⟩ := hw
    obtain ⟨r0, cs⟩ := p
    simp only at hpe
    subst hpe
    have hcs := network_send_calls env w.m iovec r0 cs hp
    cases hproto : w.m.protocol with
    | SYSLOG_TRANSMISSION_PROTOCOL_DTLS => exact absurd hproto hp1
    | SYSLOG_TRANSMISSION_PROTOCOL_TLS => exact absurd hproto hp2
    | _ =>
      simp only [hp, hr, if_false]
      exact ⟨_, cs, rfl, rfl, hcs⟩

/-- C9, refuted on the record of scenario S1: the TLS writer, the DTLS writer, and for UDP the
wait after a `sendmsg` that failed with EAGAIN, each return `-EAGAIN`, and
`manager_push_to_network` returns 0, the value of a completed send. -/
theorem would_block_reported_as_sent :
    ((formatted_iov (env_utc (-EAGAIN) [] [])
        (manager_for SYSLOG_TRANSMISSION_PROTOCOL_TLS SYSLOG_TRANSMISSION_LOG_FORMAT_RFC_5424)
        6 1 (some "app") (some "hello") none (some "42") (some tv_S1) none none).bind
        (transport_write (env_utc (-EAGAIN) [] [])
          (manager_for SYSLOG_TRANSMISSION_PROTOCOL_TLS SYSLOG_TRANSMISSION_LOG_FORMAT_RFC_5424)) =
      some (-EAGAIN) ∧
    (manager_push_to_network (env_utc (-EAGAIN) [] [])
        (World.mk (manager_for SYSLOG_TRANSMISSION_PROTOCOL_TLS
          SYSLOG_TRANSMISSION_LOG_FORMAT_RFC_5424) [])
        6 1 (some "app") (some "hello") none (some "42") (some tv_S1) none none).map Prod.fst =
      some 0) ∧
    ((formatted_iov (env_utc (-EAGAIN) [] [])
        (manager_for SYSLOG_TRANSMISSION_PROTOCOL_DTLS SYSLOG_TRANSMISSION_LOG_FORMAT_RFC_5424)
        6 1 (some "app") (some "hello") none (some "42") (some tv_S1) none none).bind
        (transport_write (env_utc (-EAGAIN) [] [])
          (manager_for SYSLOG_TRANSMISSION_PROTOCOL_DTLS SYSLOG_TRANSMISSION_LOG_FORMAT_RFC_5424)) =
      some (-EAGAIN) ∧
    (manager_push_to_network (env_utc (-EAGAIN) [] [])
        (World.mk (manager_for SYSLOG_TRANSMISSION_PROTOCOL_DTLS
          SYSLOG_TRANSMISSION_LOG_FORMAT_RFC_5424) [])
        6 1 (some "app") (some "hello") none (some "42") (some tv_S1) none none).map Prod.fst =
      some 0) ∧
    ((formatted_iov (env_utc 0 [SendmsgResult.error EAGAIN] [-EAGAIN])
        (manager_for SYSLOG_TRANSMISSION_PROTOCOL_UDP SYSLOG_TRANSMISSION_LOG_FORMAT_RFC_5424)
        6 1 (some "app") (some "hello") none (some "42") (some tv_S1) none none).bind
        (transport_write (env_utc 0 [SendmsgResult.error EAGAIN] [-EAGAIN])
          (manager_for SYSLOG_TRANSMISSION_PROTOCOL_UDP SYSLOG_TRANSMISSION_LOG_FORMAT_RFC_5424)) =
      some (-EAGAIN) ∧
    (manager_push_to_network (env_utc 0 [SendmsgResult.error EAGAIN] [-EAGAIN])
        (World.mk (manager_for SYSLOG_TRANSMISSION_PROTOCOL_UDP
          SYSLOG_TRANSMISSION_LOG_FORMAT_RFC_5424) [])
        6 1 (some "app") (some "hello") none (some "42") (some tv_S1) none none).map Prod.fst =
      some 0) := by
  decide

/-- C9 as amended: whenever `manager_push_to_network` gets past its connect step and the
transport write of the formatted record returns `-EAGAIN`, for every protocol, `protocol_send`
makes no call of `manager_connect` and returns 0, and `manager_push_to_network` returns 0, as
for a completed send. -/
theorem would_block_returns_zero (env : Env) (w : World) (severity facility : Int)
    (identifier message hostname pid : Option String) (tv : Option timeval)
    (sd msgid : Option String) (iov : List String)
    (hc : 0 ≤ (connect_if_needed env w).1)
    (hiov : formatted_iov env (connect_if_needed env w).2.m severity facility identifier message
      hostname pid tv sd msgid = some iov)
    (hw : transport_write env (connect_if_needed env w).2.m iov = some (-EAGAIN)) :
    ∃ (w1 : World) (cs : List Call),
      protocol_send env (connect_if_needed env w).2 iov = some (0, w1) ∧
      manager_push_to_network env w severity facility identifier message hostname pid tv
        sd msgid = some (0, w1) ∧
      w1.calls = (connect_if_needed env w).2.calls ++ cs ∧
      Call.manager_connect ∉ cs := by
  obtain ⟨w1, cs, hps, hcalls, hcs⟩ :=
    protocol_send_no_error env (connect_if_needed env w).2 iov (-EAGAIN) hw (by simp)
  refine ⟨w1, cs, hps, ?_, hcalls, hcs⟩
  have hc1 : ¬ (connect_if_needed env w).1 < 0 := by omega
  unfold formatted_iov at hiov
  unfold manager_push_to_network
  simp only [hc1, if_false]
  by_cases hf : (connect_if_needed env w).2.m.log_format = SYSLOG_TRANSMISSION_LOG_FORMAT_RFC_5424
  · simp only [hf, if_true] at hiov ⊢
    simp [format_rfc5424, hiov, hps]
  · simp only [hf, if_false] at hiov ⊢
    simp [format_rfc3339, hiov, hps]

/-- C9 as amended, on the record of scenario S1 over TLS with a writer that would block. -/
theorem would_block_returns_zero_witness :
    ∃ (w1 : World) (cs : List Call),
      protocol_send (env_utc (-EAGAIN) [] [])
        (connect_if_needed (env_utc (-EAGAIN) [] [])
          (World.mk (manager_for SYSLOG_TRANSMISSION_PROTOCOL_TLS
            SYSLOG_TRANSMISSION_LOG_FORMAT_RFC_5424) [])).2
        ["<14>1 ", "2023-11-14T22:13:20.123456+00:00 ", "-", " ", "app", " ", "42", " ", "-",
          " ", "-", " ", "hello"] = some (0, w1) ∧
      manager_push_to_network (env_utc (-EAGAIN) [] [])
        (World.mk (manager_for SYSLOG_TRANSMISSION_PROTOCOL_TLS
          SYSLOG_TRANSMISSION_LOG_FORMAT_RFC_5424) [])
        6 1 (some "app") (some "hello") none (some "42") (some tv_S1) none none = some (0, w1) ∧
      w1.calls = (connect_if_needed (env_utc (-EAGAIN) [] [])
          (World.mk (manager_for SYSLOG_TRANSMISSION_PROTOCOL_TLS
            SYSLOG_TRANSMISSION_LOG_FORMAT_RFC_5424) [])).2.calls ++ cs ∧
      Call.manager_connect ∉ cs :=
  would_block_returns_zero (env_utc (-EAGAIN) [] [])
    (World.mk (manager_for SYSLOG_TRANSMISSION_PROTOCOL_TLS
      SYSLOG_TRANSMISSION_LOG_FORMAT_RFC_5424) [])
    6 1 (some "app") (some "hello") none (some "42") (some tv_S1) none none
    ["<14>1 ", "2023-11-14T22:13:20.123456+00:00 ", "-", " ", "app", " ", "42", " ", "-",
      " ", "-", " ", "hello"] (by decide) (by decide) (by decide)

/-- C10, refuted: `dtls_write` returns 0 when the session reports a clean shutdown, and with
that write `protocol_send` over DTLS returns 0 having called the writer only, not
`manager_connect`; the same for a TLS writer that returns 0. -/
theorem secure_write_closed_no_reconnect :
    (dtls_write (manager_for SYSLOG_TRANSMISSION_PROTOCOL_DTLS
        SYSLOG_TRANSMISSION_LOG_FORMAT_RFC_5424).dtls 0 SSLError.SSL_ERROR_ZERO_RETURN).1 = 0 ∧
    (protocol_send (env_dtls_write 0 SSLError.SSL_ERROR_ZERO_RETURN)
        (World.mk (manager_for SYSLOG_TRANSMISSION_PROTOCOL_DTLS
          SYSLOG_TRANSMISSION_LOG_FORMAT_RFC_5424) []) ["<14>1 ", "hello"]).map
        (fun p => (p.1, p.2.calls)) =
      some (0, [Call.dtls_datagram_writev ["<14>1 ", "hello"]]) ∧
    (protocol_send (env_utc 0 [] [])
        (World.mk (manager_for SYSLOG_TRANSMISSION_PROTOCOL_TLS
          SYSLOG_TRANSMISSION_LOG_FORMAT_RFC_5424) []) ["<14>1 ", "hello"]).map
        (fun p => (p.1, p.2.calls)) =
      some (0, [Call.tls_stream_writev ["<14>1 ", "hello"]]) := by
  decide

/-- C10 as amended: when the secure (DTLS or TLS) write returns 0 bytes, as `dtls_write` does
on a clean shutdown by the peer, `protocol_send` returns 0 after that one write and does not
call `manager_connect`. -/
theorem secure_write_zero_returns_zero (env : Env) (w : World) (iovec : List String)
    (hp : w.m.protocol = SYSLOG_TRANSMISSION_PROTOCOL_DTLS ∨
      w.m.protocol = SYSLOG_TRANSMISSION_PROTOCOL_TLS)
    (hw : transport_write env w.m iovec = some 0) :
    ∃ (w1 : World) (c : Call),
      protocol_send env w iovec = some (0, w1) ∧
      w1.calls = w.calls ++ [c] ∧
      (c = Call.dtls_datagram_writev iovec ∨ c = Call.tls_stream_writev iovec) ∧
      Call.manager_connect ∉ w1.calls.drop w.calls.length := by
  unfold transport_write at hw
  rcases hp with hp | hp
  · simp only [hp, Option.some.injEq] at hw
    have h : protocol_send env w iovec = some (0,
        { m := { w.m with dtls := (env.dtls_datagram_writev w.m.dtls iovec).2 },
          calls := w.calls ++ [Call.dtls_datagram_writev iovec] }) := by
      simp [protocol_send, hp, hw]
    exact ⟨_, Call.dtls_datagram_writev iovec, h, rfl, Or.inl rfl, by simp⟩
  · simp only [hp, Option.some.injEq] at hw
    have h : protocol_send env w iovec = some (0,
        { m := { w.m with tls := (env.tls_stream_writev w.m.tls iovec).2 },
          calls := w.calls ++ [Call.tls_stream_writev iovec] }) := by
      simp [protocol_send, hp, hw]
    exact ⟨_, Call.tls_stream_writev iovec, h, rfl, Or.inr rfl, by simp⟩

/-- C10 as amended, with `dtls_write` on a session that the peer has shut down. -/
theorem secure_write_zero_returns_zero_witness :
    ∃ (w1 : World) (c : Call),
      protocol_send (env_dtls_write 0 SSLError.SSL_ERROR_ZERO_RETURN)
        (World.mk (manager_for SYSLOG_TRANSMISSION_PROTOCOL_DTLS
          SYSLOG_TRANSMISSION_LOG_FORMAT_RFC_5424) []) ["<14>1 ", "hello"] = some (0, w1) ∧
      w1.calls = (World.mk (manager_for SYSLOG_TRANSMISSION_PROTOCOL_DTLS
          SYSLOG_TRANSMISSION_LOG_FORMAT_RFC_5424) []).calls ++ [c] ∧
      (c = Call.dtls_datagram_writev ["<14>1 ", "hello"] ∨
        c = Call.tls_stream_writev ["<14>1 ", "hello"]) ∧
      Call.manager_connect ∉ w1.calls.drop (World.mk (manager_for
        SYSLOG_TRANSMISSION_PROTOCOL_DTLS SYSLOG_TRANSMISSION_LOG_FORMAT_RFC_5424) []).calls.length :=
  secure_write_zero_returns_zero (env_dtls_write 0 SSLError.SSL_ERROR_ZERO_RETURN)
    (World.mk (manager_for SYSLOG_TRANSMISSION_PROTOCOL_DTLS
      SYSLOG_TRANSMISSION_LOG_FORMAT_RFC_5424) []) ["<14>1 ", "hello"] (Or.inl rfl) (by decide)

/-! ## The connect step of `manager_push_to_network` -/

/-- C11, refuted on the record of scenario S1: the transport (TLS, and plain UDP) is not
connected when `manager_push_to_network` is called, `manager_connect` returns 0 and leaves it
not connected, and still the formatted record is handed to the transport write. -/
theorem push_sends_while_not_connected :
    (transport_connected { manager_for SYSLOG_TRANSMISSION_PROTOCOL_TLS
        SYSLOG_TRANSMISSION_LOG_FORMAT_RFC_5424 with tls := { connected := false } } = false ∧
      transport_connected ((env_utc 57 [] []).manager_connect
        { manager_for SYSLOG_TRANSMISSION_PROTOCOL_TLS
          SYSLOG_TRANSMISSION_LOG_FORMAT_RFC_5424 with tls := { connected := false } }).2 = false ∧
      (manager_push_to_network (env_utc 57 [] [])
        (World.mk { manager_for SYSLOG_TRANSMISSION_PROTOCOL_TLS
          SYSLOG_TRANSMISSION_LOG_FORMAT_RFC_5424 with tls := { connected := false } } [])
        6 1 (some "app") (some "hello") none (some "42") (some tv_S1) none none).map
        (fun p => (p.1, p.2.calls)) =
      some (0, [Call.manager_connect, Call.tls_stream_writev ["<14>1 ",
        "2023-11-14T22:13:20.123456+00:00 ", "-", " ", "app", " ", "42", " ", "-", " ", "-", " ",
        "hello"]])) ∧
    (transport_connected { manager_for SYSLOG_TRANSMISSION_PROTOCOL_UDP
        SYSLOG_TRANSMISSION_LOG_FORMAT_RFC_5424 with connected := false } = false ∧
      transport_connected ((env_utc 0 [SendmsgResult.sent 57] []).manager_connect
        { manager_for SYSLOG_TRANSMISSION_PROTOCOL_UDP
          SYSLOG_TRANSMISSION_LOG_FORMAT_RFC_5424 with connected := false }).2 = false ∧
      (manager_push_to_network (env_utc 0 [SendmsgResult.sent 57] [])
        (World.mk { manager_for SYSLOG_TRANSMISSION_PROTOCOL_UDP
          SYSLOG_TRANSMISSION_LOG_FORMAT_RFC_5424 with connected := false } [])
        6 1 (some "app") (some "hello") none (some "42") (some tv_S1) none none).map
        (fun p => (p.1, p.2.calls)) =
      some (0, [Call.manager_connect, Call.sendmsg ["<14>1 ",
        "2023-11-14T22:13:20.123456+00:00 ", "-", " ", "app", " ", "42", " ", "-", " ", "-", " ",
        "hello"]])) := by
  decide

theorem connect_if_needed_not_connected (env : Env) (w : World)
    (hnc : transport_connected w.m = false) :
    connect_if_needed env w = call_manager_connect env w := by
  unfold transport_connected at hnc
  unfold connect_if_needed
  cases hp : w.m.protocol <;> simp only [hp] at hnc ⊢ <;> simp [hnc]

/-- C11 as amended: if the transport is not connected when `manager_push_to_network` is called
and `manager_connect` returns `r < 0`, then `manager_push_to_network` returns `r` without
formatting or sending: its only call is `manager_connect`, and no bytes are handed to any
transport write. -/
theorem push_connect_failure (env : Env) (w : World) (severity facility : Int)
    (identifier message hostname pid : Option String) (tv : Option timeval)
    (sd msgid : Option String)
    (hnc : transport_connected w.m = false)
    (hr : (env.manager_connect w.m).1 < 0) :
    ∃ w1 : World,
      manager_push_to_network env w severity facility identifier message hostname pid tv
        sd msgid = some ((env.manager_connect w.m).1, w1) ∧
      w1.calls = w.calls ++ [Call.manager_connect] ∧
      w1.m = (env.manager_connect w.m).2 ∧
      ∀ c ∈ w1.calls.drop w.calls.length, is_transport_write c = false := by
  refine ⟨(call_manager_connect env w).2, ?_, rfl, rfl, ?_⟩
  · unfold manager_push_to_network
    rw [connect_if_needed_not_connected env w hnc]
    have h : (call_manager_connect env w).1 < 0 := hr
    simp only [h, if_true]
    rfl
  · intro c hc
    simp [call_manager_connect] at hc
    subst hc
    rfl

/-- C11 as amended, on the record of scenario S1 over TLS with a `manager_connect` that fails
with `-ECONNREFUSED`. -/
theorem push_connect_failure_witness :
    ∃ w1 : World,
      manager_push_to_network
        { env_utc 57 [] [] with manager_connect := fun m => (-ECONNREFUSED, m) }
        (World.mk { manager_for SYSLOG_TRANSMISSION_PROTOCOL_TLS
          SYSLOG_TRANSMISSION_LOG_FORMAT_RFC_5424 with tls := { connected := false } } [])
        6 1 (some "app") (some "hello") none (some "42") (some tv_S1) none none =
        some ((({ env_utc 57 [] [] with manager_connect := fun m => (-ECONNREFUSED, m) } :
          Env).manager_connect (World.mk { manager_for SYSLOG_TRANSMISSION_PROTOCOL_TLS
            SYSLOG_TRANSMISSION_LOG_FORMAT_RFC_5424 with tls := { connected := false } } []).m).1,
          w1) ∧
      w1.calls = (World.mk { manager_for SYSLOG_TRANSMISSION_PROTOCOL_TLS
          SYSLOG_TRANSMISSION_LOG_FORMAT_RFC_5424 with tls := { connected := false } } []).calls ++
        [Call.manager_connect] ∧
      w1.m = (({ env_utc 57 [] [] with manager_connect := fun m => (-ECONNREFUSED, m) } :
          Env).manager_connect (World.mk { manager_for SYSLOG_TRANSMISSION_PROTOCOL_TLS
            SYSLOG_TRANSMISSION_LOG_FORMAT_RFC_5424 with tls := { connected := false } } []).m).2 ∧
      ∀ c ∈ w1.calls.drop (World.mk { manager_for SYSLOG_TRANSMISSION_PROTOCOL_TLS
          SYSLOG_TRANSMISSION_LOG_FORMAT_RFC_5424 with tls := { connected := false } }
          []).calls.length, is_transport_write c = false :=
  push_connect_failure
    { env_utc 57 [] [] with manager_connect := fun m => (-ECONNREFUSED, m) }
    (World.mk { manager_for SYSLOG_TRANSMISSION_PROTOCOL_TLS
      SYSLOG_TRANSMISSION_LOG_FORMAT_RFC_5424 with tls := { connected := false } } [])
    6 1 (some "app") (some "hello") none (some "42") (some tv_S1) none none
    (by decide) (by decide)

/-! ## The DTLS write -/

/-- C12: in `dtls_write`, when `SSL_write` returns `r <= 0` and the session error is WantRead
or WantWrite, the result is `-EAGAIN` and `events` becomes `EPOLLIN` for WantRead and
`EPOLLOUT` for WantWrite; in every other outcome `events` becomes 0. No other field of the
manager changes. -/
theorem dtls_write_would_block (m : DTLSManager) (r : Int) :
    (r ≤ 0 → dtls_write m r SSLError.SSL_ERROR_WANT_READ =
      (-EAGAIN, { m with events := EPOLLIN })) ∧
    (r ≤ 0 → dtls_write m r SSLError.SSL_ERROR_WANT_WRITE =
      (-EAGAIN, { m with events := EPOLLOUT })) ∧
    (∀ error : SSLError,
      ¬ (r ≤ 0 ∧ (error = SSLError.SSL_ERROR_WANT_READ ∨
        error = SSLError.SSL_ERROR_WANT_WRITE)) →
      (dtls_write m r error).2 = { m with events := 0 }) := by
  refine ⟨?_, ?_, ?_⟩
  · intro h
    simp [dtls_write, h]
  · intro h
    simp [dtls_write, h]
  · intro error h
    unfold dtls_write
    by_cases hr : r ≤ 0
    · cases error <;> simp_all
    · simp [hr]

/-- C13: the result of `dtls_write` is the positive byte count when `SSL_write` returns
`r > 0`, 0 when the session reports a clean shutdown, and `-EPIPE` for every other error that
is not WantRead or WantWrite; a negative result is `-EAGAIN` or `-EPIPE`, never another
value. -/
theorem dtls_write_result (m : DTLSManager) (r : Int) :
    (0 < r → ∀ error : SSLError, (dtls_write m r error).1 = r) ∧
    (r ≤ 0 → (dtls_write m r SSLError.SSL_ERROR_ZERO_RETURN).1 = 0) ∧
    (r ≤ 0 → ∀ error : SSLError, error ≠ SSLError.SSL_ERROR_WANT_READ →
      error ≠ SSLError.SSL_ERROR_WANT_WRITE → error ≠ SSLError.SSL_ERROR_ZERO_RETURN →
      (dtls_write m r error).1 = -EPIPE) ∧
    (∀ error : SSLError, (dtls_write m r error).1 < 0 →
      (dtls_write m r error).1 = -EAGAIN ∨ (dtls_write m r error).1 = -EPIPE) := by
  refine ⟨?_, ?_, ?_, ?_⟩
  · intro h error
    have hr : ¬ r ≤ 0 := by omega
    simp [dtls_write, hr]
  · intro h
    simp [dtls_write, h]
  · intro h error h1 h2 h3
    cases error <;> simp_all [dtls_write]
  · intro error hneg
    unfold dtls_write at hneg ⊢
    by_cases hr : r ≤ 0
    · cases error <;> simp_all
    · simp only [hr, if_false] at hneg ⊢
      omega

theorem join_data_acc (l : List String) : ∀ acc : String,
    (List.foldl (fun r s => r ++ s) acc l).data = acc.data ++ (l.map String.data).flatten := by
  induction l with
  | nil => intro acc; simp
  | cons a rest ih =>
    intro acc
    simp only [List.foldl_cons, ih, String.data_append, List.map_cons, List.flatten_cons,
      List.append_assoc]

theorem join_data (l : List String) : (String.join l).data = (l.map String.data).flatten := by
  unfold String.join
  rw [join_data_acc l ""]
  rfl

theorem dtls_stream_writev_loop_eq (iov : List String) : ∀ (pos : Nat) (buf : List Char),
    pos + iovec_total_size iov ≤ buf.length →
    dtls_stream_writev_loop iov pos buf =
      buf.take pos ++ (iov.map String.data).flatten ++ buf.drop (pos + iovec_total_size iov) := by
  induction iov with
  | nil =>
    intro pos buf _
    simp [dtls_stream_writev_loop, iovec_total_size]
  | cons seg rest ih =>
    intro pos buf h
    have hlen : seg.length = seg.data.length := rfl
    have htot : iovec_total_size (seg :: rest) = seg.data.length + iovec_total_size rest := by
      unfold iovec_total_size
      rw [List.map_cons, List.sum_cons, hlen]
    rw [htot] at h
    have hpre : (buf.take pos ++ seg.data).length = pos + seg.data.length := by
      rw [List.length_append, List.length_take, Nat.min_eq_left (by omega)]
    have hbuf : (memcpy_at buf pos seg.data).length = buf.length := by
      unfold memcpy_at
      rw [List.length_append, hpre, List.length_drop]
      omega
    have htake : (memcpy_at buf pos seg.data).take (pos + seg.data.length) =
        buf.take pos ++ seg.data := by
      unfold memcpy_at
      exact List.take_left' hpre
    have hdrop : (memcpy_at buf pos seg.data).drop (pos + seg.data.length) =
        buf.drop (pos + seg.data.length) := by
      unfold memcpy_at
      exact List.drop_left' hpre
    simp only [dtls_stream_writev_loop, hlen]
    rw [ih (pos + seg.data.length) (memcpy_at buf pos seg.data) (by rw [hbuf]; omega), htake,
      ← List.drop_drop, hdrop, List.drop_drop, htot]
    simp [Nat.add_assoc]

/-- C14: for every gather list of total size above 0 (and a manager with a session),
`dtls_stream_writev` submits exactly one secure write; its buffer is the concatenation of the
segments in list order and its length the sum of the segment lengths, and the result is that of
`dtls_write` for the outcome of that write. -/
theorem dtls_stream_writev_one_write (SSL_write : List Char → Nat → Int × SSLError)
    (fresh : Nat → Char) (m : DTLSManager) (iov : List String)
    (hssl : m.ssl = true) (hsize : 0 < iovec_total_size iov) :
    dtls_stream_writev SSL_write fresh m iov =
      some (dtls_write m
          (SSL_write (String.join iov).data (iov.map String.length).sum).1
          (SSL_write (String.join iov).data (iov.map String.length).sum).2,
        [((String.join iov).data, (iov.map String.length).sum)]) := by
  have hloop := dtls_stream_writev_loop_eq iov 0
    ((List.range (iovec_total_size iov)).map fresh) (by simp)
  have hdrop : ((List.range (iovec_total_size iov)).map fresh).drop (iovec_total_size iov) =
      [] := by
    apply List.drop_eq_nil_of_le
    simp
  simp only [Nat.zero_add, List.take_zero, List.nil_append, hdrop, List.append_nil] at hloop
  unfold dtls_stream_writev
  simp only [hssl, hsize, not_true_eq_false, if_false, hloop, dtls_write_call, join_data]
  rfl

/-- C14, on the first segments of the record of scenario S1 with an empty segment among them,
for a write that accepts all nine bytes. -/
theorem dtls_stream_writev_one_write_witness :
    dtls_stream_writev (fun _ n => ((n : Int), SSLError.SSL_ERROR_OTHER)) (fun _ => 'x')
      (manager_for SYSLOG_TRANSMISSION_PROTOCOL_DTLS
        SYSLOG_TRANSMISSION_LOG_FORMAT_RFC_5424).dtls ["<14>1 ", "", "-", " ", "h"] =
      some ((9, (manager_for SYSLOG_TRANSMISSION_PROTOCOL_DTLS
        SYSLOG_TRANSMISSION_LOG_FORMAT_RFC_5424).dtls), [("<14>1 - h".data, 9)]) :=
  (dtls_stream_writev_one_write (fun _ n => ((n : Int), SSLError.SSL_ERROR_OTHER))
    (fun _ => 'x') (manager_for SYSLOG_TRANSMISSION_PROTOCOL_DTLS
      SYSLOG_TRANSMISSION_LOG_FORMAT_RFC_5424).dtls ["<14>1 ", "", "-", " ", "h"]
    (by decide) (by decide)).trans (by decide)

/-! ## The send loop -/

theorem sendmsg_loop_from_eintr (mh : List String) (k : Nat) (rest : List SendmsgResult)
    (waits : List Int) :
    sendmsg_loop_from mh (List.replicate k (SendmsgResult.error EINTR) ++ rest) waits =
      (sendmsg_loop_from mh rest waits).map
        fun p => (p.1, List.replicate k (Call.sendmsg mh) ++ p.2) := by
  induction k with
  | zero => simp
  | succ k ih =>
    rw [List.replicate_succ, List.cons_append]
    simp only [sendmsg_loop_from, if_true, ih, Option.map_map, List.replicate_succ,
      List.cons_append]
    rfl

/-- C15: over any finite sequence of `sendmsg` and wait outcomes, `sendmsg_loop` returns 0 at
the first `sendmsg` that succeeds; after any run of EINTR failures it sends again without a
wait; it returns `-errno` at the first failure whose errno is neither EINTR nor EAGAIN; after
EAGAIN it waits for POLLOUT with a timeout of 200 ms (200000 microseconds) and returns
`-ETIMEDOUT` when the wait returns 0, the value of the wait when that is negative, and sends
again otherwise. The loop is entered whenever `m->socket >= 0`. -/
theorem sendmsg_loop_outcomes (mh : List String) :
    (∀ (env : Env) (m : Manager), 0 ≤ m.socket →
      sendmsg_loop env m mh = sendmsg_loop_from mh env.sendmsg env.fd_wait_for_event) ∧
    (∀ (n : Nat) (rest : List SendmsgResult) (waits : List Int),
      sendmsg_loop_from mh (SendmsgResult.sent n :: rest) waits =
        some (0, [Call.sendmsg mh])) ∧
    (∀ (k : Nat) (rest : List SendmsgResult) (waits : List Int),
      sendmsg_loop_from mh (List.replicate k (SendmsgResult.error EINTR) ++ rest) waits =
        (sendmsg_loop_from mh rest waits).map
          fun p => (p.1, List.replicate k (Call.sendmsg mh) ++ p.2)) ∧
    (∀ (errno : Int) (rest : List SendmsgResult) (waits : List Int),
      errno ≠ EINTR → errno ≠ EAGAIN →
      sendmsg_loop_from mh (SendmsgResult.error errno :: rest) waits =
        some (-errno, [Call.sendmsg mh])) ∧
    (∀ (r : Int) (rest : List SendmsgResult) (waits : List Int), r < 0 →
      sendmsg_loop_from mh (SendmsgResult.error EAGAIN :: rest) (r :: waits) =
        some (r, [Call.sendmsg mh, Call.fd_wait_for_event POLLOUT 200000])) ∧
    (∀ (rest : List SendmsgResult) (waits : List Int),
      sendmsg_loop_from mh (SendmsgResult.error EAGAIN :: rest) (0 :: waits) =
        some (-ETIMEDOUT, [Call.sendmsg mh, Call.fd_wait_for_event POLLOUT 200000])) ∧
    (∀ (r : Int) (rest : List SendmsgResult) (waits : List Int), 0 < r →
      sendmsg_loop_from mh (SendmsgResult.error EAGAIN :: rest) (r :: waits) =
        (sendmsg_loop_from mh rest waits).map
          fun p => (p.1, Call.sendmsg mh :: Call.fd_wait_for_event POLLOUT 200000 :: p.2)) := by
  have hne : EAGAIN ≠ EINTR := by decide
  have ht : SEND_TIMEOUT_USEC = 200000 := by decide
  refine ⟨?_, ?_, ?_, ?_, ?_, ?_, ?_⟩
  · intro env m h
    have h1 : ¬ m.socket < 0 := by omega
    simp [sendmsg_loop, h1]
  · intro n rest waits
    simp [sendmsg_loop_from]
  · intro k rest waits
    exact sendmsg_loop_from_eintr mh k rest waits
  · intro errno rest waits h1 h2
    simp [sendmsg_loop_from, h1, h2]
  · intro r rest waits h
    simp [sendmsg_loop_from, hne, h, ht]
  · intro rest waits
    simp [sendmsg_loop_from, hne, ht]
  · intro r rest waits h
    have h1 : ¬ r < 0 := by omega
    have h2 : ¬ r = 0 := by omega
    simp [sendmsg_loop_from, hne, h1, h2, ht]

/-- C15, run on a socket where `sendmsg` is interrupted twice, then would block, the wait
reports the socket writable, and the next `sendmsg` sends 57 bytes; and on one where the wait
times out. -/
theorem sendmsg_loop_outcomes_run :
    sendmsg_loop (env_utc 0 [SendmsgResult.error EINTR, SendmsgResult.error EINTR,
        SendmsgResult.error EAGAIN, SendmsgResult.sent 57] [1])
      (manager_for SYSLOG_TRANSMISSION_PROTOCOL_UDP SYSLOG_TRANSMISSION_LOG_FORMAT_RFC_5424)
      ["<14>1 ", "hello"] =
      some (0, [Call.sendmsg ["<14>1 ", "hello"], Call.sendmsg ["<14>1 ", "hello"],
        Call.sendmsg ["<14>1 ", "hello"], Call.fd_wait_for_event POLLOUT 200000,
        Call.sendmsg ["<14>1 ", "hello"]]) ∧
    sendmsg_loop (env_utc 0 [SendmsgResult.error EAGAIN, SendmsgResult.sent 57] [0])
      (manager_for SYSLOG_TRANSMISSION_PROTOCOL_UDP SYSLOG_TRANSMISSION_LOG_FORMAT_RFC_5424)
      ["<14>1 ", "hello"] =
      some (-ETIMEDOUT, [Call.sendmsg ["<14>1 ", "hello"],
        Call.fd_wait_for_event POLLOUT 200000]) := by
  decide

/-! ## Descriptor ownership in `dtls_connect` -/

theorem dtls_connect_failure (o : DtlsConnectOutcomes) (m : DTLSManager) (sa_family : Int)
    (open_fds : List Int) (hfam : sa_family = AF_INET ∨ sa_family = AF_INET6)
    (hfd : 0 ≤ o.socket) (hret : (dtls_connect o m sa_family open_fds).1 ≠ 0) :
    (dtls_connect o m sa_family open_fds).2 = (m, o.socket :: open_fds) := by
  have h1 : ¬ o.socket < 0 := by omega
  unfold dtls_connect at hret ⊢
  simp only [hfam, not_true_eq_false, if_false, h1] at hret ⊢
  split_ifs at hret ⊢ <;> first | rfl | exact absurd rfl hret

/-- C16, evaluated on a freshly initialised manager for an IPv4 address when `socket` returns
descriptor 5: if `connect` fails with ECONNREFUSED, or `SSL_CTX_new`, `SSL_new` or
`BIO_new_dgram` returns NULL, or `SSL_connect` fails, `dtls_connect` returns an error, the
manager is unchanged, its `fd` is not 5, and descriptor 5 is still open; only on success is 5
recorded in the manager. -/
theorem dtls_connect_leaks_fd :
    dtls_connect ⟨5, 0, -1, ECONNREFUSED, true, true, true, 1⟩ dtls_manager_init AF_INET [] =
      (-ECONNREFUSED, dtls_manager_init, [5]) ∧
    dtls_connect ⟨5, 0, 0, 0, false, true, true, 1⟩ dtls_manager_init AF_INET [] =
      (-ENOMEM, dtls_manager_init, [5]) ∧
    dtls_connect ⟨5, 0, 0, 0, true, false, true, 1⟩ dtls_manager_init AF_INET [] =
      (-ENOMEM, dtls_manager_init, [5]) ∧
    dtls_connect ⟨5, 0, 0, 0, true, true, false, 1⟩ dtls_manager_init AF_INET [] =
      (-ENOMEM, dtls_manager_init, [5]) ∧
    dtls_connect ⟨5, 0, 0, 0, true, true, true, 0⟩ dtls_manager_init AF_INET [] =
      (-ENOMEM, dtls_manager_init, [5]) ∧
    dtls_manager_init.fd ≠ 5 ∧
    (dtls_connect ⟨5, 0, 0, 0, true, true, true, 1⟩ dtls_manager_init AF_INET []).2.1.fd = 5 := by
  decide

/-! ## The plain socket: set-up and teardown -/

/-- C17, refuted: a connected UDP manager with socket 3 satisfies the predicate; when
`manager_open_network_socket` is called on it and `socket` fails with EMFILE, or `connect`
fails with ECONNREFUSED, the manager after has `connected` still true and socket -1. -/
theorem open_socket_breaks_predicate :
    connected_has_socket (manager_for SYSLOG_TRANSMISSION_PROTOCOL_UDP
      SYSLOG_TRANSMISSION_LOG_FORMAT_RFC_5424) ∧
    (manager_open_network_socket ⟨-1, EMFILE, 0, 0, 0⟩ options_ok
        (manager_for SYSLOG_TRANSMISSION_PROTOCOL_UDP
          SYSLOG_TRANSMISSION_LOG_FORMAT_RFC_5424)).map
        (fun p => (p.1, p.2.1.connected, p.2.1.socket)) = some (-EMFILE, true, -1) ∧
    (manager_open_network_socket ⟨7, 0, 0, -1, ECONNREFUSED⟩ options_ok
        (manager_for SYSLOG_TRANSMISSION_PROTOCOL_UDP
          SYSLOG_TRANSMISSION_LOG_FORMAT_RFC_5424)).map
        (fun p => (p.1, p.2.1.connected, p.2.1.socket)) = some (-ECONNREFUSED, true, -1) ∧
    ¬ ∀ p ∈ manager_open_network_socket ⟨-1, EMFILE, 0, 0, 0⟩ options_ok
        (manager_for SYSLOG_TRANSMISSION_PROTOCOL_UDP SYSLOG_TRANSMISSION_LOG_FORMAT_RFC_5424),
      connected_has_socket p.2.1 := by
  decide

theorem manager_network_connect_socket_isSome (o : SocketOutcomes) (m : Manager)
    (h : 0 ≤ m.socket) : ∃ r, manager_network_connect_socket o m = some r := by
  have h1 : ¬ m.socket < 0 := by omega
  unfold manager_network_connect_socket
  simp only [h1, if_false]
  split_ifs <;> exact ⟨_, rfl⟩

/-- C17 as amended: for every manager that is not connected when `manager_open_network_socket`
is called, and every outcome of the system calls, the call returns and the manager after
satisfies `m->connected implies m->socket >= 0`; and for every manager the state after
`manager_close_network_socket` satisfies it. -/
theorem plain_transport_predicate (o : SocketOutcomes) (opt : SockOpt → Int) (shutdown_r : Int)
    (m m0 : Manager) (hdis : m.connected = false) :
    (manager_open_network_socket o opt m).isSome = true ∧
    (∀ (r : Int) (m1 : Manager) (log : List String),
      manager_open_network_socket o opt m = some (r, m1, log) → connected_has_socket m1) ∧
    connected_has_socket (manager_close_network_socket shutdown_r m0).1 := by
  refine ⟨?_, ?_, ?_⟩
  · unfold manager_open_network_socket
    by_cases h1 : m.sa_family = AF_INET ∨ m.sa_family = AF_INET6
    · by_cases h2 : m.protocol = SYSLOG_TRANSMISSION_PROTOCOL_UDP ∨
          m.protocol = SYSLOG_TRANSMISSION_PROTOCOL_TCP
      · by_cases h3 : o.socket < 0
        · simp [h1, h2, h3]
        · obtain ⟨r0, hr0⟩ := manager_network_connect_socket_isSome o
            { m with socket := o.socket } (by simp; omega)
          simp only [h1, h2, h3, hr0, not_true_eq_false, if_false]
          split_ifs <;> rfl
      · simp [h1, h2]
    · simp [h1]
  · intro r m1 log h
    unfold connected_has_socket
    unfold manager_open_network_socket at h
    by_cases h1 : m.sa_family = AF_INET ∨ m.sa_family = AF_INET6
    · by_cases h2 : m.protocol = SYSLOG_TRANSMISSION_PROTOCOL_UDP ∨
          m.protocol = SYSLOG_TRANSMISSION_PROTOCOL_TCP
      · by_cases h3 : o.socket < 0
        · simp only [h1, h2, h3, not_true_eq_false, if_false, if_true, Option.some.injEq,
            Prod.mk.injEq] at h
          obtain ⟨_, rfl, _⟩ := h
          intro hc
          simp [hdis] at hc
        · obtain ⟨r0, hr0⟩ := manager_network_connect_socket_isSome o
            { m with socket := o.socket } (by simp; omega)
          simp only [h1, h2, h3, hr0, not_true_eq_false, if_false] at h
          by_cases h4 : r0 < 0
          · simp only [h4, if_true, Option.some.injEq, Prod.mk.injEq] at h
            obtain ⟨_, rfl, _⟩ := h
            intro hc
            simp [hdis] at hc
          · simp only [h4, if_false, Option.some.injEq, Prod.mk.injEq] at h
            obtain ⟨_, rfl, _⟩ := h
            intro _
            simp only
            omega
      · simp only [h1, h2, not_true_eq_false, not_false_eq_true, if_false, if_true,
          Option.some.injEq, Prod.mk.injEq] at h
        obtain ⟨_, rfl, _⟩ := h
        intro hc
        simp [hdis] at hc
    · simp only [h1, not_false_eq_true, if_true, Option.some.injEq, Prod.mk.injEq] at h
      obtain ⟨_, rfl, _⟩ := h
      intro hc
      simp [hdis] at hc
  · intro h
    simp [manager_close_network_socket] at h

/-- C17 as amended, on a disconnected UDP manager whose `socket` call fails with EMFILE, and on
the teardown of a connected TCP manager whose `shutdown` fails. -/
theorem plain_transport_predicate_witness :
    (manager_open_network_socket ⟨-1, EMFILE, 0, 0, 0⟩ options_fail
      { manager_for SYSLOG_TRANSMISSION_PROTOCOL_UDP SYSLOG_TRANSMISSION_LOG_FORMAT_RFC_5424
        with connected := false, socket := -1 }).isSome = true ∧
    (∀ (r : Int) (m1 : Manager) (log : List String),
      manager_open_network_socket ⟨-1, EMFILE, 0, 0, 0⟩ options_fail
        { manager_for SYSLOG_TRANSMISSION_PROTOCOL_UDP SYSLOG_TRANSMISSION_LOG_FORMAT_RFC_5424
          with connected := false, socket := -1 } = some (r, m1, log) →
      connected_has_socket m1) ∧
    connected_has_socket (manager_close_network_socket (-1)
      (manager_for SYSLOG_TRANSMISSION_PROTOCOL_TCP
        SYSLOG_TRANSMISSION_LOG_FORMAT_RFC_5424)).1 :=
  plain_transport_predicate ⟨-1, EMFILE, 0, 0, 0⟩ options_fail (-1)
    { manager_for SYSLOG_TRANSMISSION_PROTOCOL_UDP SYSLOG_TRANSMISSION_LOG_FORMAT_RFC_5424
      with connected := false, socket := -1 }
    (manager_for SYSLOG_TRANSMISSION_PROTOCOL_TCP SYSLOG_TRANSMISSION_LOG_FORMAT_RFC_5424)
    (by decide)

/-- C18: `dtls_disconnect` on a manager with a live session (and its descriptor) issues one
`SSL_shutdown`, then `SSL_free`, then the close of the descriptor, in that order, and leaves
`ssl` NULL, `fd` -1 and `connected` false; a second `dtls_disconnect` on the resulting manager
issues no shutdown, free or close (only `ERR_clear_error`) and leaves the manager unchanged. -/
theorem dtls_disconnect_once (m : DTLSManager) (hssl : m.ssl = true) (hfd : 0 ≤ m.fd) :
    dtls_disconnect (some m) =
      (some { m with ssl := false, fd := -1, connected := false },
        [SysCall.ERR_clear_error, SysCall.SSL_shutdown, SysCall.SSL_free,
          SysCall.close m.fd]) ∧
    dtls_disconnect (dtls_disconnect (some m)).1 =
      ((dtls_disconnect (some m)).1, [SysCall.ERR_clear_error]) := by
  have h1 : dtls_disconnect (some m) =
      (some { m with ssl := false, fd := -1, connected := false },
        [SysCall.ERR_clear_error, SysCall.SSL_shutdown, SysCall.SSL_free,
          SysCall.close m.fd]) := by
    simp [dtls_disconnect, hssl, safe_close, hfd]
  refine ⟨h1, ?_⟩
  rw [h1]
  simp [dtls_disconnect, safe_close]

/-- C18, on the manager that a successful `dtls_connect` on descriptor 5 leaves. -/
theorem dtls_disconnect_once_witness :
    dtls_disconnect (some (dtls_connect ⟨5, 0, 0, 0, true, true, true, 1⟩ dtls_manager_init
        AF_INET []).2.1) =
      (some { (dtls_connect ⟨5, 0, 0, 0, true, true, true, 1⟩ dtls_manager_init
          AF_INET []).2.1 with ssl := false, fd := -1, connected := false },
        [SysCall.ERR_clear_error, SysCall.SSL_shutdown, SysCall.SSL_free,
          SysCall.close (dtls_connect ⟨5, 0, 0, 0, true, true, true, 1⟩ dtls_manager_init
            AF_INET []).2.1.fd]) ∧
    dtls_disconnect (dtls_disconnect (some (dtls_connect ⟨5, 0, 0, 0, true, true, true, 1⟩
        dtls_manager_init AF_INET []).2.1)).1 =
      ((dtls_disconnect (some (dtls_connect ⟨5, 0, 0, 0, true, true, true, 1⟩
        dtls_manager_init AF_INET []).2.1)).1, [SysCall.ERR_clear_error]) :=
  dtls_disconnect_once (dtls_connect ⟨5, 0, 0, 0, true, true, true, 1⟩ dtls_manager_init
    AF_INET []).2.1 (by decide) (by decide)

/-- C19: `manager_close_network_socket` on a manager with `socket >= 0` issues
`shutdown(socket, SHUT_RDWR)` followed by the close when the protocol is TCP, whatever
`shutdown` returns, and issues the close alone when the protocol is UDP; then `connected` is
false and `socket` is -1. -/
theorem manager_close_network_socket_calls (shutdown_r : Int) (m : Manager)
    (hsock : 0 ≤ m.socket) :
    (m.protocol = SYSLOG_TRANSMISSION_PROTOCOL_TCP →
      (manager_close_network_socket shutdown_r m).2.1 =
        [SysCall.shutdown m.socket SHUT_RDWR, SysCall.close m.socket]) ∧
    (m.protocol = SYSLOG_TRANSMISSION_PROTOCOL_UDP →
      (manager_close_network_socket shutdown_r m).2.1 = [SysCall.close m.socket]) ∧
    (manager_close_network_socket shutdown_r m).1 =
      { m with connected := false, socket := -1 } := by
  refine ⟨?_, ?_, ?_⟩
  · intro hp
    simp [manager_close_network_socket, safe_close, hp, hsock]
  · intro hp
    simp [manager_close_network_socket, safe_close, hp, hsock]
  · simp [manager_close_network_socket, safe_close, hsock]

/-- C19, on a TCP manager with socket 3 whose `shutdown` fails: the close follows all the
same, and the failure is logged. -/
theorem manager_close_network_socket_calls_witness :
    ((manager_for SYSLOG_TRANSMISSION_PROTOCOL_TCP
        SYSLOG_TRANSMISSION_LOG_FORMAT_RFC_5424).protocol = SYSLOG_TRANSMISSION_PROTOCOL_TCP →
      (manager_close_network_socket (-1) (manager_for SYSLOG_TRANSMISSION_PROTOCOL_TCP
        SYSLOG_TRANSMISSION_LOG_FORMAT_RFC_5424)).2.1 =
        [SysCall.shutdown (manager_for SYSLOG_TRANSMISSION_PROTOCOL_TCP
            SYSLOG_TRANSMISSION_LOG_FORMAT_RFC_5424).socket SHUT_RDWR,
          SysCall.close (manager_for SYSLOG_TRANSMISSION_PROTOCOL_TCP
            SYSLOG_TRANSMISSION_LOG_FORMAT_RFC_5424).socket]) ∧
    ((manager_for SYSLOG_TRANSMISSION_PROTOCOL_TCP
        SYSLOG_TRANSMISSION_LOG_FORMAT_RFC_5424).protocol = SYSLOG_TRANSMISSION_PROTOCOL_UDP →
      (manager_close_network_socket (-1) (manager_for SYSLOG_TRANSMISSION_PROTOCOL_TCP
        SYSLOG_TRANSMISSION_LOG_FORMAT_RFC_5424)).2.1 =
        [SysCall.close (manager_for SYSLOG_TRANSMISSION_PROTOCOL_TCP
          SYSLOG_TRANSMISSION_LOG_FORMAT_RFC_5424).socket]) ∧
    (manager_close_network_socket (-1) (manager_for SYSLOG_TRANSMISSION_PROTOCOL_TCP
        SYSLOG_TRANSMISSION_LOG_FORMAT_RFC_5424)).1 =
      { manager_for SYSLOG_TRANSMISSION_PROTOCOL_TCP SYSLOG_TRANSMISSION_LOG_FORMAT_RFC_5424
        with connected := false, socket := -1 } :=
  manager_close_network_socket_calls (-1)
    (manager_for SYSLOG_TRANSMISSION_PROTOCOL_TCP SYSLOG_TRANSMISSION_LOG_FORMAT_RFC_5424)
    (by decide)

/-- C20: socket-option failures are not fatal. Two runs of `manager_open_network_socket` on the
same manager that differ only in the outcomes `opt1`, `opt2` of the option calls (the
setsockopt calls, the send buffer, the non-blocking flag) return the same value and leave the
same manager, its `socket` and `connected` fields among the rest; only the log differs. -/
theorem socket_options_not_fatal (o : SocketOutcomes) (opt1 opt2 : SockOpt → Int)
    (m : Manager) :
    (manager_open_network_socket o opt1 m).map (fun p => (p.1, p.2.1)) =
      (manager_open_network_socket o opt2 m).map (fun p => (p.1, p.2.1)) ∧
    (manager_open_network_socket o opt1 m).map
        (fun p => (p.1, p.2.1.socket, p.2.1.connected)) =
      (manager_open_network_socket o opt2 m).map
        (fun p => (p.1, p.2.1.socket, p.2.1.connected)) := by
  have h : (manager_open_network_socket o opt1 m).map (fun p => (p.1, p.2.1)) =
      (manager_open_network_socket o opt2 m).map (fun p => (p.1, p.2.1)) := by
    unfold manager_open_network_socket
    by_cases h1 : m.sa_family = AF_INET ∨ m.sa_family = AF_INET6
    · by_cases h2 : m.protocol = SYSLOG_TRANSMISSION_PROTOCOL_UDP ∨
          m.protocol = SYSLOG_TRANSMISSION_PROTOCOL_TCP
      · by_cases h3 : o.socket < 0
        · simp [h1, h2, h3]
        · simp only [h1, h2, h3, not_true_eq_false, if_false]
          cases manager_network_connect_socket o { m with socket := o.socket } with
          | none => rfl
          | some r =>
            by_cases h4 : r < 0
            · simp [h4]
            · simp [h4]
      · simp [h1, h2]
    · simp [h1]
  refine ⟨h, ?_⟩
  have h2 := congrArg (Option.map fun q : Int × Manager => (q.1, q.2.socket, q.2.connected)) h
  simpa [Option.map_map, Function.comp] using h2

/-- C20, run on a TCP manager with every option configured: with all option calls failing and
with all succeeding the call returns 0 with socket 7 connected; the failing run logs one
message for each option. -/
theorem socket_options_not_fatal_run :
    (manager_open_network_socket ⟨7, 0, 0, -1, EINPROGRESS⟩ options_fail
      { manager_for SYSLOG_TRANSMISSION_PROTOCOL_TCP SYSLOG_TRANSMISSION_LOG_FORMAT_RFC_5424
        with connected := false, socket := -1, no_delay := true, keep_alive := true,
             send_buffer := 65536, keep_alive_time := 7200000000,
             keep_alive_interval := 75000000, keep_alive_cnt := 9 }).map
      (fun p => (p.1, p.2.1.socket, p.2.1.connected, p.2.2.length)) = some (0, 7, true, 7) ∧
    (manager_open_network_socket ⟨7, 0, 0, -1, EINPROGRESS⟩ options_ok
      { manager_for SYSLOG_TRANSMISSION_PROTOCOL_TCP SYSLOG_TRANSMISSION_LOG_FORMAT_RFC_5424
        with connected := false, socket := -1, no_delay := true, keep_alive := true,
             send_buffer := 65536, keep_alive_time := 7200000000,
             keep_alive_interval := 75000000, keep_alive_cnt := 9 }).map
      (fun p => (p.1, p.2.1.socket, p.2.1.connected, p.2.2.length)) = some (0, 7, true, 0) := by
  decide

/-! ## The network monitor -/

/-- C21: `monitor_add_inotify_watch` first watches `/run/systemd/netif/links/` and returns 0 if
that succeeds; it goes on to `/run/systemd/netif/` only when that watch failed with ENOENT, and
to `/run/systemd/` only when the second failed with ENOENT too; a failure with another errno at
any step is returned as `-errno` with no further directory tried. The oracle gives the value
and the errno of a watch; the second component of the result lists the watches attempted. -/
theorem monitor_add_inotify_watch_fallback (inotify_add_watch : String → Nat → Int × Int) :
    (0 ≤ (inotify_add_watch "/run/systemd/netif/links/" (IN_MOVED_TO ||| IN_DELETE)).1 →
      monitor_add_inotify_watch inotify_add_watch = (0, [("/run/systemd/netif/links/", IN_MOVED_TO ||| IN_DELETE)])) ∧
    ((inotify_add_watch "/run/systemd/netif/links/" (IN_MOVED_TO ||| IN_DELETE)).1 < 0 →
      (inotify_add_watch "/run/systemd/netif/links/" (IN_MOVED_TO ||| IN_DELETE)).2 ≠ ENOENT →
      monitor_add_inotify_watch inotify_add_watch =
        (-(inotify_add_watch "/run/systemd/netif/links/" (IN_MOVED_TO ||| IN_DELETE)).2,
          [("/run/systemd/netif/links/", IN_MOVED_TO ||| IN_DELETE)])) ∧
    ((inotify_add_watch "/run/systemd/netif/links/" (IN_MOVED_TO ||| IN_DELETE)).1 < 0 →
      (inotify_add_watch "/run/systemd/netif/links/" (IN_MOVED_TO ||| IN_DELETE)).2 = ENOENT →
      0 ≤ (inotify_add_watch "/run/systemd/netif/" (IN_CREATE ||| IN_ISDIR)).1 →
      monitor_add_inotify_watch inotify_add_watch =
        (0, [("/run/systemd/netif/links/", IN_MOVED_TO ||| IN_DELETE),
          ("/run/systemd/netif/", IN_CREATE ||| IN_ISDIR)])) ∧
    ((inotify_add_watch "/run/systemd/netif/links/" (IN_MOVED_TO ||| IN_DELETE)).1 < 0 →
      (inotify_add_watch "/run/systemd/netif/links/" (IN_MOVED_TO ||| IN_DELETE)).2 = ENOENT →
      (inotify_add_watch "/run/systemd/netif/" (IN_CREATE ||| IN_ISDIR)).1 < 0 →
      (inotify_add_watch "/run/systemd/netif/" (IN_CREATE ||| IN_ISDIR)).2 ≠ ENOENT →
      monitor_add_inotify_watch inotify_add_watch =
        (-(inotify_add_watch "/run/systemd/netif/" (IN_CREATE ||| IN_ISDIR)).2,
          [("/run/systemd/netif/links/", IN_MOVED_TO ||| IN_DELETE),
            ("/run/systemd/netif/", IN_CREATE ||| IN_ISDIR)])) ∧
    ((inotify_add_watch "/run/systemd/netif/links/" (IN_MOVED_TO ||| IN_DELETE)).1 < 0 →
      (inotify_add_watch "/run/systemd/netif/links/" (IN_MOVED_TO ||| IN_DELETE)).2 = ENOENT →
      (inotify_add_watch "/run/systemd/netif/" (IN_CREATE ||| IN_ISDIR)).1 < 0 →
      (inotify_add_watch "/run/systemd/netif/" (IN_CREATE ||| IN_ISDIR)).2 = ENOENT →
      0 ≤ (inotify_add_watch "/run/systemd/" (IN_CREATE ||| IN_ISDIR)).1 →
      monitor_add_inotify_watch inotify_add_watch =
        (0, [("/run/systemd/netif/links/", IN_MOVED_TO ||| IN_DELETE),
          ("/run/systemd/netif/", IN_CREATE ||| IN_ISDIR),
          ("/run/systemd/", IN_CREATE ||| IN_ISDIR)])) ∧
    ((inotify_add_watch "/run/systemd/netif/links/" (IN_MOVED_TO ||| IN_DELETE)).1 < 0 →
      (inotify_add_watch "/run/systemd/netif/links/" (IN_MOVED_TO ||| IN_DELETE)).2 = ENOENT →
      (inotify_add_watch "/run/systemd/netif/" (IN_CREATE ||| IN_ISDIR)).1 < 0 →
      (inotify_add_watch "/run/systemd/netif/" (IN_CREATE ||| IN_ISDIR)).2 = ENOENT →
      (inotify_add_watch "/run/systemd/" (IN_CREATE ||| IN_ISDIR)).1 < 0 →
      monitor_add_inotify_watch inotify_add_watch =
        (-(inotify_add_watch "/run/systemd/" (IN_CREATE ||| IN_ISDIR)).2,
          [("/run/systemd/netif/links/", IN_MOVED_TO ||| IN_DELETE),
            ("/run/systemd/netif/", IN_CREATE ||| IN_ISDIR),
            ("/run/systemd/", IN_CREATE ||| IN_ISDIR)])) := by
  unfold monitor_add_inotify_watch
  generalize inotify_add_watch "/run/systemd/netif/links/" (IN_MOVED_TO ||| IN_DELETE) = o1
  generalize inotify_add_watch "/run/systemd/netif/" (IN_CREATE ||| IN_ISDIR) = o2
  generalize inotify_add_watch "/run/systemd/" (IN_CREATE ||| IN_ISDIR) = o3
  refine ⟨?_, ?_, ?_, ?_, ?_, ?_⟩
  · intro h1
    simp [h1]
  · intro h1 e1
    have h1n : ¬ 0 ≤ o1.1 := by omega
    simp [h1n, e1]
  · intro h1 e1 h2
    have h1n : ¬ 0 ≤ o1.1 := by omega
    simp [h1n, e1, h2]
  · intro h1 e1 h2 e2
    have h1n : ¬ 0 ≤ o1.1 := by omega
    have h2n : ¬ 0 ≤ o2.1 := by omega
    simp [h1n, e1, h2n, e2]
  · intro h1 e1 h2 e2 h3
    have h1n : ¬ 0 ≤ o1.1 := by omega
    have h2n : ¬ 0 ≤ o2.1 := by omega
    have h3n : ¬ o3.1 < 0 := by omega
    simp [h1n, e1, h2n, e2, h3n]
  · intro h1 e1 h2 e2 h3
    have h1n : ¬ 0 ≤ o1.1 := by omega
    have h2n : ¬ 0 ≤ o2.1 := by omega
    simp [h1n, e1, h2n, e2, h3]

/-- C21, run where only `/run/systemd/` exists, and where the first watch fails with EMFILE. -/
theorem monitor_add_inotify_watch_run :
    monitor_add_inotify_watch
        (fun path _ => if path = "/run/systemd/" then (1, 0) else (-1, ENOENT)) =
      (0, [("/run/systemd/netif/links/", 0x280), ("/run/systemd/netif/", 0x40000100),
        ("/run/systemd/", 0x40000100)]) ∧
    monitor_add_inotify_watch (fun _ _ => (-1, EMFILE)) =
      (-EMFILE, [("/run/systemd/netif/links/", 0x280)]) := by
  decide

/-! ## Randomness -/

/-- The condition under which `dev_urandom` calls `getrandom`: `have_syscall` is not 0, or the
size is changed by the conversion to `int` and back. -/
theorem dev_urandom_getrandom_iff (o : UrandomOutcomes) (have_syscall : Int) (n : Nat) :
    RandomCall.getrandom n ∈ (dev_urandom o have_syscall n).2.2 ↔
      (have_syscall ≠ 0 ∨ int_to_size_t (size_t_to_int n) ≠ n) := by
  unfold dev_urandom dev_urandom_read
  by_cases hc : have_syscall ≠ 0 ∨ int_to_size_t (size_t_to_int n) ≠ n
  · simp only [hc, if_true, iff_true]
    split_ifs <;> simp
  · simp only [hc, if_false, iff_false]
    split_ifs <;> simp

/-- C26, evaluated for a size of `2 ^ 31`, which does not fit an `int`: with `have_syscall` 0
(the syscall known to be missing) and with `have_syscall` -1, `dev_urandom` calls `getrandom`
first; it goes directly to `/dev/urandom` only when `have_syscall` is 0 and the size fits. -/
theorem dev_urandom_large_size_uses_getrandom :
    int_to_size_t (size_t_to_int (2 ^ 31)) ≠ 2 ^ 31 ∧
    (dev_urandom ⟨-1, ENOSYS, 3, 0, 0⟩ 0 (2 ^ 31)).2.2 =
      [RandomCall.getrandom (2 ^ 31), RandomCall.open_dev_urandom,
        RandomCall.loop_read_exact 3 (2 ^ 31)] ∧
    (dev_urandom ⟨-1, ENOSYS, 3, 0, 0⟩ (-1) (2 ^ 31)).2.2 =
      [RandomCall.getrandom (2 ^ 31), RandomCall.open_dev_urandom,
        RandomCall.loop_read_exact 3 (2 ^ 31)] ∧
    (dev_urandom ⟨-1, ENOSYS, 3, 0, 0⟩ 0 16).2.2 =
      [RandomCall.open_dev_urandom, RandomCall.loop_read_exact 3 16] ∧
    (dev_urandom ⟨16, 0, 3, 0, 0⟩ (-1) 16).2.2 = [RandomCall.getrandom 16] := by
  decide

/-! ## Netmasks and address classes -/

/-- C25: `in_addr_default_prefixlen` returns 0 and writes the prefix length 8 when the most
significant octet of the address is below 128, 16 when it is in 128..191, 24 when it is in
192..223; for an octet of 224 or more it returns `-ERANGE` and writes no prefix length. -/
theorem in_addr_default_prefixlen_classes (addr : Nat) :
    (addr / 2 ^ 24 % 256 < 128 → in_addr_default_prefixlen addr = (0, some 8)) ∧
    (128 ≤ addr / 2 ^ 24 % 256 → addr / 2 ^ 24 % 256 < 192 →
      in_addr_default_prefixlen addr = (0, some 16)) ∧
    (192 ≤ addr / 2 ^ 24 % 256 → addr / 2 ^ 24 % 256 < 224 →
      in_addr_default_prefixlen addr = (0, some 24)) ∧
    (224 ≤ addr / 2 ^ 24 % 256 → in_addr_default_prefixlen addr = (-ERANGE, none)) := by
  unfold in_addr_default_prefixlen
  refine ⟨?_, ?_, ?_, ?_⟩
  · intro h
    simp only [h, if_true]
  · intro h1 h2
    have h0 : ¬ addr / 2 ^ 24 % 256 < 128 := by omega
    simp only [h0, h2, if_true, if_false]
  · intro h1 h2
    have h0 : ¬ addr / 2 ^ 24 % 256 < 128 := by omega
    have h3 : ¬ addr / 2 ^ 24 % 256 < 192 := by omega
    simp only [h0, h3, h2, if_true, if_false]
  · intro h1
    have h0 : ¬ addr / 2 ^ 24 % 256 < 128 := by omega
    have h3 : ¬ addr / 2 ^ 24 % 256 < 192 := by omega
    have h4 : ¬ addr / 2 ^ 24 % 256 < 224 := by omega
    simp only [h0, h3, h4, if_false]

/-- C25, run on 10.0.0.1, 172.16.0.1, 192.168.1.1 and 224.0.0.1. -/
theorem in_addr_default_prefixlen_run :
    in_addr_default_prefixlen 0x0A000001 = (0, some 8) ∧
    in_addr_default_prefixlen 0xAC100001 = (0, some 16) ∧
    in_addr_default_prefixlen 0xC0A80101 = (0, some 24) ∧
    in_addr_default_prefixlen 0xE0000001 = (-ERANGE, none) := by
  decide

/-- C28: for every prefix length `p` with `1 <= p <= 32`, `in_addr_prefixlen_to_netmask`
yields the mask whose top `p` bits are 1 and whose other `32 - p` bits are 0, that is
`2 ^ 32 - 2 ^ (32 - p)`, and `in_addr_netmask_to_prefixlen` of that mask is `p` again; the
prefix length 0 gives the all-zero mask. -/
theorem netmask_roundtrip (p : Nat) (h1 : 1 ≤ p) (h32 : p ≤ 32) :
    (∃ mask : Nat, in_addr_prefixlen_to_netmask p = some mask ∧
      in_addr_netmask_to_prefixlen mask = p ∧
      mask = 2 ^ 32 - 2 ^ (32 - p) ∧
      ∀ i, i < 32 → mask.testBit i = decide (32 - p ≤ i)) ∧
    in_addr_prefixlen_to_netmask 0 = some 0 := by
  refine ⟨?_, by decide⟩
  interval_cases p <;> exact ⟨_, rfl, by decide, by decide, by decide⟩

/-- C28, for the prefix length 24 and the mask 255.255.255.0. -/
theorem netmask_roundtrip_witness :
    (∃ mask : Nat, in_addr_prefixlen_to_netmask 24 = some mask ∧
      in_addr_netmask_to_prefixlen mask = 24 ∧
      mask = 2 ^ 32 - 2 ^ (32 - 24) ∧
      ∀ i, i < 32 → mask.testBit i = decide (32 - 24 ≤ i)) ∧
    in_addr_prefixlen_to_netmask 0 = some 0 :=
  netmask_roundtrip 24 (by decide) (by decide)

/-! ## The size of the gather list and of the priority header -/

/-- C29, refuted on the record of scenario S1: over TCP `format_rfc3339` fills 10 entries of
its gather array, and over UDP 9; it never fills 8. -/
theorem format_rfc3339_fills_ten :
    (format_rfc3339_iov (env_utc 0 [] [])
        (manager_for SYSLOG_TRANSMISSION_PROTOCOL_TCP SYSLOG_TRANSMISSION_LOG_FORMAT_RFC_3339)
        6 1 (some "app") (some "hello") none (some "42") (some tv_S1)).map List.length =
      some 10 ∧
    (format_rfc3339_iov (env_utc 0 [] [])
        (manager_for SYSLOG_TRANSMISSION_PROTOCOL_UDP SYSLOG_TRANSMISSION_LOG_FORMAT_RFC_3339)
        6 1 (some "app") (some "hello") none (some "42") (some tv_S1)).map List.length =
      some 9 ∧
    ¬ ((format_rfc3339_iov (env_utc 0 [] [])
        (manager_for SYSLOG_TRANSMISSION_PROTOCOL_TCP SYSLOG_TRANSMISSION_LOG_FORMAT_RFC_3339)
        6 1 (some "app") (some "hello") none (some "42") (some tv_S1)).map List.length =
        some 8 ∨
      (format_rfc3339_iov (env_utc 0 [] [])
        (manager_for SYSLOG_TRANSMISSION_PROTOCOL_TCP SYSLOG_TRANSMISSION_LOG_FORMAT_RFC_3339)
        6 1 (some "app") (some "hello") none (some "42") (some tv_S1)).map List.length =
        some 9) := by
  decide

/-- C29 as amended: the formatter never writes past its 14-entry gather array. For every
combination of present and absent optional fields and every protocol, `format_rfc5424` fills
13 entries, or 14 with the frame separator of TCP, and `format_rfc3339` fills 9, or 10 with the
separator, so every index used is below 14. -/
theorem gather_list_sizes (env : Env) (m : Manager) (severity facility : Int)
    (identifier hostname pid : Option String) (message : String) (tv : Option timeval)
    (sd msgid : Option String) (header_time : String)
    (hts : format_rfc3339_timestamp env tv env.FORMAT_TIMESTAMP_MAX = some header_time) :
    (∃ iov : List String,
      format_rfc5424_iov env m severity facility identifier (some message) hostname pid tv
        sd msgid = some iov ∧
      iov.length = (if m.protocol = SYSLOG_TRANSMISSION_PROTOCOL_TCP then 14 else 13) ∧
      (iov.length = 13 ∨ iov.length = 14) ∧ iov.length ≤ 14) ∧
    (∃ iov : List String,
      format_rfc3339_iov env m severity facility identifier (some message) hostname pid tv =
        some iov ∧
      iov.length = (if m.protocol = SYSLOG_TRANSMISSION_PROTOCOL_TCP then 10 else 9) ∧
      (iov.length = 9 ∨ iov.length = 10) ∧ iov.length ≤ 14) := by
  constructor
  · refine ⟨_, format_rfc5424_iov_eq env m severity facility identifier hostname pid message
      tv sd msgid header_time hts, ?_, ?_, ?_⟩ <;>
      by_cases hp : m.protocol = SYSLOG_TRANSMISSION_PROTOCOL_TCP <;> simp [hp]
  · refine ⟨_, format_rfc3339_iov_eq env m severity facility identifier hostname pid message
      tv header_time hts, ?_, ?_, ?_⟩ <;>
      by_cases hp : m.protocol = SYSLOG_TRANSMISSION_PROTOCOL_TCP <;> simp [hp]

/-- C29 as amended, on the record of scenario S1 over TCP. -/
theorem gather_list_sizes_witness :
    (∃ iov : List String,
      format_rfc5424_iov (env_utc 0 [] [])
        (manager_for SYSLOG_TRANSMISSION_PROTOCOL_TCP SYSLOG_TRANSMISSION_LOG_FORMAT_RFC_5424)
        6 1 (some "app") (some "hello") none (some "42") (some tv_S1) none none = some iov ∧
      iov.length = (if (manager_for SYSLOG_TRANSMISSION_PROTOCOL_TCP
        SYSLOG_TRANSMISSION_LOG_FORMAT_RFC_5424).protocol = SYSLOG_TRANSMISSION_PROTOCOL_TCP
        then 14 else 13) ∧
      (iov.length = 13 ∨ iov.length = 14) ∧ iov.length ≤ 14) ∧
    (∃ iov : List String,
      format_rfc3339_iov (env_utc 0 [] [])
        (manager_for SYSLOG_TRANSMISSION_PROTOCOL_TCP SYSLOG_TRANSMISSION_LOG_FORMAT_RFC_5424)
        6 1 (some "app") (some "hello") none (some "42") (some tv_S1) = some iov ∧
      iov.length = (if (manager_for SYSLOG_TRANSMISSION_PROTOCOL_TCP
        SYSLOG_TRANSMISSION_LOG_FORMAT_RFC_5424).protocol = SYSLOG_TRANSMISSION_PROTOCOL_TCP
        then 10 else 9) ∧
      (iov.length = 9 ∨ iov.length = 10) ∧ iov.length ≤ 14) :=
  gather_list_sizes (env_utc 0 [] [])
    (manager_for SYSLOG_TRANSMISSION_PROTOCOL_TCP SYSLOG_TRANSMISSION_LOG_FORMAT_RFC_5424)
    6 1 (some "app") none (some "42") "hello" (some tv_S1) none none
    "2023-11-14T22:13:20.123456+00:00 " (by decide)

/-- C30: for all `int` values of facility and severity, also out of range, the priority
rendered is `(facility * 8 + severity) mod 256`; the header of `format_rfc5424` (with the
version and the space) has between 5 and 7 characters and that of `format_rfc3339` between 3
and 5, so the assertion that it fits the 8 bytes of `header_priority` does not fail: each
formatter fails an assertion only for a NULL message or in the timestamp. -/
theorem header_priority_fits (severity facility : Int) :
    ((makepri severity facility : Nat) : Int) = (facility * 8 + severity) % 256 ∧
    (0 < ("<" ++ printf_i (makepri severity facility) ++ ">" ++ printf_i RFC_5424_PROTOCOL ++
      " ").length ∧
      ("<" ++ printf_i (makepri severity facility) ++ ">" ++ printf_i RFC_5424_PROTOCOL ++
        " ").length ≤ 7) ∧
    (0 < ("<" ++ printf_i (makepri severity facility) ++ ">").length ∧
      ("<" ++ printf_i (makepri severity facility) ++ ">").length ≤ 5) ∧
    (∀ (env : Env) (m : Manager) (identifier message hostname pid : Option String)
      (tv : Option timeval) (sd msgid : Option String),
      (format_rfc5424_iov env m severity facility identifier message hostname pid tv sd
        msgid = none ↔
        (message = none ∨ format_rfc3339_timestamp env tv env.FORMAT_TIMESTAMP_MAX = none)) ∧
      (format_rfc3339_iov env m severity facility identifier message hostname pid tv = none ↔
        (message = none ∨
          format_rfc3339_timestamp env tv env.FORMAT_TIMESTAMP_MAX = none))) := by
  have hlen := printf_i_length _ (makepri_lt severity facility)
  have h1 : ("<" : String).length = 1 := rfl
  have h2 : (">" : String).length = 1 := rfl
  have h3 : (" " : String).length = 1 := rfl
  have h4 : (printf_i RFC_5424_PROTOCOL).length = 1 := rfl
  refine ⟨?_, ?_, ?_, ?_⟩
  · unfold makepri
    omega
  · simp only [String.length_append, h1, h2, h3, h4]
    omega
  · simp only [String.length_append, h1, h2]
    omega
  · intro env m identifier message hostname pid tv sd msgid
    cases message with
    | none => simp [format_rfc5424_iov, format_rfc3339_iov]
    | some msg =>
      cases hts : format_rfc3339_timestamp env tv env.FORMAT_TIMESTAMP_MAX with
      | none =>
        constructor
        · simp only [format_rfc5424_iov, hts]
          split_ifs <;> simp
        · simp only [format_rfc3339_iov, hts]
          split_ifs <;> simp
      | some header_time =>
        rw [format_rfc5424_iov_eq env m severity facility identifier hostname pid msg tv sd
          msgid header_time hts,
          format_rfc3339_iov_eq env m severity facility identifier hostname pid msg tv
           header_time hts]
        simp

/-- C30, run on out-of-range values: facility 40 and severity 9 render as 73, facility -1 and
severity 0 as 248. -/
theorem header_priority_fits_run :
    "<" ++ printf_i (makepri 9 40) ++ ">" ++ printf_i RFC_5424_PROTOCOL ++ " " = "<73>1 " ∧
    "<" ++ printf_i (makepri 0 (-1)) ++ ">" ++ printf_i RFC_5424_PROTOCOL ++ " " = "<248>1 " ∧
    "<" ++ printf_i (makepri 7 31) ++ ">" = "<255>" := by
  decide

/-! ## Bit masks and prefixes -/

/-- A value below `2 ^ w` has no bit set from position `w` on. -/
theorem testBit_of_lt_two_pow (z w j : Nat) (hz : z < 2 ^ w) (hj : w ≤ j) : z.testBit j = false :=
  Nat.testBit_lt_two_pow (lt_of_lt_of_le hz (Nat.pow_le_pow_right (by decide) hj))

/-- Masking a `w`-bit value with `w` ones shifted left by `k` clears its low `k` bits. -/
theorem and_shiftLeft_ones (w k z : Nat) (hz : z < 2 ^ w) :
    z &&& ((2 ^ w - 1) <<< k) = z / 2 ^ k * 2 ^ k := by
  rw [← Nat.shiftRight_eq_div_pow, ← Nat.shiftLeft_eq]
  apply Nat.eq_of_testBit_eq
  intro j
  rw [Nat.testBit_and, Nat.testBit_shiftLeft, Nat.testBit_shiftLeft, Nat.testBit_shiftRight,
    Nat.testBit_two_pow_sub_one]
  by_cases hjk : k ≤ j
  · have e : k + (j - k) = j := by omega
    rw [e]
    by_cases hjw : j < w
    · have : j - k < w := by omega
      simp [hjk, this]
    · rw [testBit_of_lt_two_pow z w j hz (by omega)]
      simp
  · simp [hjk]

/-- The same with the mask truncated to `w` bits. -/
theorem and_shiftLeft_ones_mod (w k z : Nat) (hz : z < 2 ^ w) :
    z &&& (((2 ^ w - 1) <<< k) % 2 ^ w) = z / 2 ^ k * 2 ^ k := by
  rw [← and_shiftLeft_ones w k z hz]
  apply Nat.eq_of_testBit_eq
  intro j
  rw [Nat.testBit_and, Nat.testBit_and, Nat.testBit_mod_two_pow]
  by_cases hjw : j < w
  · simp [hjw]
  · rw [testBit_of_lt_two_pow z w j hz (by omega)]
    simp

theorem xor_div_two_pow (a b k : Nat) : (a ^^^ b) / 2 ^ k = a / 2 ^ k ^^^ b / 2 ^ k := by
  rw [← Nat.shiftRight_eq_div_pow, ← Nat.shiftRight_eq_div_pow, ← Nat.shiftRight_eq_div_pow]
  apply Nat.eq_of_testBit_eq
  intro j
  simp [Nat.testBit_xor, Nat.testBit_shiftRight]

/-- A masked exclusive-or is zero exactly when the two values agree above the low `k` bits. -/
theorem xor_and_mask_eq_zero (w k a b : Nat) (ha : a < 2 ^ w) (hb : b < 2 ^ w) :
    (a ^^^ b) &&& (((2 ^ w - 1) <<< k) % 2 ^ w) = 0 ↔ a / 2 ^ k = b / 2 ^ k := by
  rw [and_shiftLeft_ones_mod w k (a ^^^ b) (Nat.xor_lt_two_pow ha hb), xor_div_two_pow]
  have h2 : (2 : Nat) ^ k ≠ 0 := by positivity
  rw [Nat.mul_eq_zero]
  simp [h2, Nat.xor_eq_zero]

theorem div_two_pow_mul_div (z k : Nat) : z / 2 ^ k * 2 ^ k / 2 ^ k = z / 2 ^ k :=
  Nat.mul_div_cancel _ (by positivity)

/-- Agreement on the first `min ap bp` bits of two `w`-bit values is the same as the existence
of a `w`-bit value that agrees with `a` on the first `ap` bits and with `b` on the first `bp`. -/
theorem agree_iff_common (w a b ap bp : Nat) (ha : a < 2 ^ w) (hb : b < 2 ^ w)
    (hap : ap ≤ w) (hbp : bp ≤ w) :
    a / 2 ^ (w - min ap bp) = b / 2 ^ (w - min ap bp) ↔
      ∃ c, c < 2 ^ w ∧ c / 2 ^ (w - ap) = a / 2 ^ (w - ap) ∧
        c / 2 ^ (w - bp) = b / 2 ^ (w - bp) := by
  have key : ∀ x p q : Nat, p ≤ q → q ≤ w →
      x / 2 ^ (w - p) = x / 2 ^ (w - q) / 2 ^ (q - p) := by
    intro x p q hpq hq
    rw [Nat.div_div_eq_div_mul, ← pow_add]
    congr 2
    omega
  constructor
  · intro h
    by_cases hle : ap ≤ bp
    · rw [min_eq_left hle] at h
      exact ⟨b, hb, h.symm, rfl⟩
    · rw [min_eq_right (by omega)] at h
      exact ⟨a, ha, rfl, h⟩
  · rintro ⟨c, _, h1, h2⟩
    by_cases hle : ap ≤ bp
    · rw [min_eq_left hle, ← h1, key c ap bp hle hbp, h2, ← key b ap bp hle hbp]
    · rw [min_eq_right (by omega), ← h2, key c bp ap (by omega) hap, h1,
        ← key a bp ap (by omega) hap]

/-! ## The next network -/

/-- The 32-bit all-ones mask. -/
theorem mask_32 : (0xFFFFFFFF : Nat) = 2 ^ 32 - 1 := by decide

/-- The AF_INET branch of `in_addr_prefix_next`, for any prefix length of at least 1. -/
theorem in_addr_prefix_next_inet (u : in_addr_union) (prefixlen : Nat) (hc : u.in_ < 2 ^ 32)
    (hp : 1 ≤ prefixlen) :
    in_addr_prefix_next AF_INET u prefixlen =
      if u.in_ + 2 ^ (32 - min prefixlen 32) < 2 ^ 32 then
        (1, { u with in_ := (u.in_ + 2 ^ (32 - min prefixlen 32)) / 2 ^ (32 - min prefixlen 32) *
          2 ^ (32 - min prefixlen 32) })
      else (0, u) := by
  have hmin : (if 32 < prefixlen then 32 else prefixlen) = min prefixlen 32 := by
    split_ifs with h
    · exact (min_eq_right (by omega)).symm
    · exact (min_eq_left (by omega)).symm
  have hk : 2 ^ (32 - min prefixlen 32) < 2 ^ 32 :=
    Nat.pow_lt_pow_right (by decide) (by omega)
  have hk1 : 2 ^ (32 - min prefixlen 32) ≤ 2 ^ 31 :=
    Nat.pow_le_pow_right (by decide) (by omega)
  have hpos : 0 < 2 ^ (32 - min prefixlen 32) := by positivity
  unfold in_addr_prefix_next
  rw [if_neg (by omega), if_pos rfl]
  simp only [hmin, Nat.one_shiftLeft]
  by_cases hlt : u.in_ + 2 ^ (32 - min prefixlen 32) < 2 ^ 32
  · have hmod : (u.in_ + 2 ^ (32 - min prefixlen 32)) % 2 ^ 32 =
        u.in_ + 2 ^ (32 - min prefixlen 32) := Nat.mod_eq_of_lt hlt
    have hle : (u.in_ + 2 ^ (32 - min prefixlen 32)) / 2 ^ (32 - min prefixlen 32) *
        2 ^ (32 - min prefixlen 32) ≤ u.in_ + 2 ^ (32 - min prefixlen 32) :=
      Nat.div_mul_le_self _ _
    rw [if_pos hlt, hmod, if_neg (by omega), mask_32, and_shiftLeft_ones 32 _ _ hlt,
      Nat.mod_eq_of_lt (by omega)]
  · have hmod : (u.in_ + 2 ^ (32 - min prefixlen 32)) % 2 ^ 32 =
        u.in_ + 2 ^ (32 - min prefixlen 32) - 2 ^ 32 := by
      rw [Nat.mod_eq_sub_mod (by omega), Nat.mod_eq_of_lt (by omega)]
    rw [if_neg hlt, hmod, if_pos (by omega)]

/-- C23: for AF_INET and a prefix length `p` of at least 1 (above 32 taken as 32), with `c`
the address as a host-order 32-bit number: if `c + 2 ^ (32 - p) < 2 ^ 32`,
`in_addr_prefix_next` returns 1 and the address becomes `c + 2 ^ (32 - p)` with its low
`32 - p` bits cleared, which is the network part `c / 2 ^ (32 - p)` increased by one;
otherwise it returns 0 and leaves the address unchanged. For a prefix length of 0 it returns 0
and leaves the address unchanged. -/
theorem in_addr_prefix_next_ipv4 (u : in_addr_union) (prefixlen : Nat) (hc : u.in_ < 2 ^ 32) :
    (prefixlen = 0 → in_addr_prefix_next AF_INET u prefixlen = (0, u)) ∧
    (1 ≤ prefixlen → u.in_ + 2 ^ (32 - min prefixlen 32) < 2 ^ 32 →
      ∃ n : Nat, in_addr_prefix_next AF_INET u prefixlen = (1, { u with in_ := n }) ∧
        n = u.in_ + 2 ^ (32 - min prefixlen 32) -
          (u.in_ + 2 ^ (32 - min prefixlen 32)) % 2 ^ (32 - min prefixlen 32) ∧
        n % 2 ^ (32 - min prefixlen 32) = 0 ∧
        n / 2 ^ (32 - min prefixlen 32) = u.in_ / 2 ^ (32 - min prefixlen 32) + 1 ∧
        n < 2 ^ 32) ∧
    (1 ≤ prefixlen → ¬ u.in_ + 2 ^ (32 - min prefixlen 32) < 2 ^ 32 →
      in_addr_prefix_next AF_INET u prefixlen = (0, u)) := by
  refine ⟨?_, ?_, ?_⟩
  · intro h0
    unfold in_addr_prefix_next
    rw [if_pos (by omega)]
  · intro hp hlt
    have hpos : 0 < 2 ^ (32 - min prefixlen 32) := by positivity
    refine ⟨(u.in_ + 2 ^ (32 - min prefixlen 32)) / 2 ^ (32 - min prefixlen 32) *
      2 ^ (32 - min prefixlen 32), ?_, ?_, ?_, ?_, ?_⟩
    · rw [in_addr_prefix_next_inet u prefixlen hc hp, if_pos hlt]
    · have := Nat.div_add_mod' (u.in_ + 2 ^ (32 - min prefixlen 32))
        (2 ^ (32 - min prefixlen 32))
      omega
    · exact Nat.mul_mod_left _ _
    · rw [Nat.mul_div_cancel _ hpos, Nat.add_div_right _ hpos]
    · exact lt_of_le_of_lt (Nat.div_mul_le_self _ _) hlt
  · intro hp hlt
    rw [in_addr_prefix_next_inet u prefixlen hc hp, if_neg hlt]

/-- C23 on 192.168.1.255/24, whose next network is 192.168.2.0. -/
theorem in_addr_prefix_next_ipv4_witness :
    (24 = 0 → in_addr_prefix_next AF_INET ⟨0xC0A801FF, []⟩ 24 = (0, ⟨0xC0A801FF, []⟩)) ∧
    (1 ≤ 24 → 0xC0A801FF + 2 ^ (32 - min 24 32) < 2 ^ 32 →
      ∃ n : Nat, in_addr_prefix_next AF_INET ⟨0xC0A801FF, []⟩ 24 =
          (1, { (⟨0xC0A801FF, []⟩ : in_addr_union) with in_ := n }) ∧
        n = 0xC0A801FF + 2 ^ (32 - min 24 32) -
          (0xC0A801FF + 2 ^ (32 - min 24 32)) % 2 ^ (32 - min 24 32) ∧
        n % 2 ^ (32 - min 24 32) = 0 ∧
        n / 2 ^ (32 - min 24 32) = 0xC0A801FF / 2 ^ (32 - min 24 32) + 1 ∧
        n < 2 ^ 32) ∧
    (1 ≤ 24 → ¬ 0xC0A801FF + 2 ^ (32 - min 24 32) < 2 ^ 32 →
      in_addr_prefix_next AF_INET ⟨0xC0A801FF, []⟩ 24 = (0, ⟨0xC0A801FF, []⟩)) :=
  in_addr_prefix_next_ipv4 ⟨0xC0A801FF, []⟩ 24 (by decide)

/-- C23, evaluated: 192.168.1.255/24 goes to 192.168.2.0, 10.1.2.3/8 to 11.0.0.0, the last
network 255.255.255.0/24 overflows and is left alone, as is any address with prefix length 0;
a prefix length of 40 acts as 32. -/
theorem in_addr_prefix_next_ipv4_run :
    in_addr_prefix_next AF_INET ⟨0xC0A801FF, []⟩ 24 = (1, ⟨0xC0A80200, []⟩) ∧
    in_addr_prefix_next AF_INET ⟨0x0A010203, []⟩ 8 = (1, ⟨0x0B000000, []⟩) ∧
    in_addr_prefix_next AF_INET ⟨0xFFFFFF07, []⟩ 24 = (0, ⟨0xFFFFFF07, []⟩) ∧
    in_addr_prefix_next AF_INET ⟨0x0A010203, []⟩ 0 = (0, ⟨0x0A010203, []⟩) ∧
    in_addr_prefix_next AF_INET ⟨0x0A010203, []⟩ 40 = (1, ⟨0x0A010204, []⟩) := by
  decide

/-! ## Byte lists as numbers -/

/-- The value of a byte list, with the weight of the first byte as a power of two. -/
theorem be_value_cons (x : Nat) (l : List Nat) :
    be_value (x :: l) = x * 2 ^ (8 * l.length) + be_value l := by
  have h : (256 : Nat) = 2 ^ 8 := by decide
  rw [be_value, h, ← pow_mul]

/-- A list of `n` bytes has a value below `2 ^ (8 * n)`. -/
theorem be_value_lt : ∀ l : List Nat, (∀ x ∈ l, x < 256) → be_value l < 2 ^ (8 * l.length)
  | [], _ => by simp [be_value]
  | x :: l, h => by
    have hx : x < 256 := h x (List.mem_cons_self x l)
    have hl := be_value_lt l (fun y hy => h y (List.mem_cons_of_mem x hy))
    have e : 2 ^ (8 * (x :: l).length) = 256 * 2 ^ (8 * l.length) := by
      rw [List.length_cons, Nat.mul_succ, pow_add, Nat.mul_comm]
      rfl
    rw [be_value_cons, e]
    nlinarith

/-- Dropping `k` low bits below the weight of the leading part. -/
theorem shift_split (x v j k : Nat) (hk : k ≤ j) :
    (x * 2 ^ j + v) / 2 ^ k = x * 2 ^ (j - k) + v / 2 ^ k := by
  have e : x * 2 ^ j = x * 2 ^ (j - k) * 2 ^ k := by
    rw [Nat.mul_assoc, ← pow_add]
    congr 2
    omega
  rw [e, Nat.add_comm, Nat.add_mul_div_right _ _ (by positivity), Nat.add_comm]

/-- Dropping all the bits of the trailing part and `i` more. -/
theorem shift_top (x v j i : Nat) (hv : v < 2 ^ j) : (x * 2 ^ j + v) / 2 ^ (j + i) = x / 2 ^ i := by
  rw [pow_add, ← Nat.div_div_eq_div_mul, Nat.add_comm, Nat.add_mul_div_right _ _ (by positivity),
    Nat.div_eq_of_lt hv, Nat.zero_add]

/-- The leading part is determined by the value with `k` low bits dropped. -/
theorem shift_split_inj (x y v w j k : Nat) (hk : k ≤ j) (hv : v < 2 ^ j) (hw : w < 2 ^ j)
    (h : (x * 2 ^ j + v) / 2 ^ k = (y * 2 ^ j + w) / 2 ^ k) : x = y := by
  have h1 := shift_top x v j 0 hv
  have h2 := shift_top y w j 0 hw
  have e : ∀ z : Nat, z / 2 ^ (j + 0) = z / 2 ^ k / 2 ^ (j - k) := by
    intro z
    rw [Nat.div_div_eq_div_mul, ← pow_add]
    congr 2
    omega
  rw [e] at h1 h2
  rw [h] at h1
  simpa using h1.symm.trans h2

/-- The 8-bit all-ones mask. -/
theorem mask_8 : (0xFF : Nat) = 2 ^ 8 - 1 := by decide

/-- Masking a byte with `0xFF` leaves it as it is. -/
theorem and_0xFF (x : Nat) (hx : x < 256) : x &&& 0xFF = x := by
  rw [mask_8, Nat.and_pow_two_sub_one_eq_mod]
  exact Nat.mod_eq_of_lt hx

/-! ## Intersecting networks -/

/-- The AF_INET6 loop of `in_addr_prefix_intersect` compares the first `m` bits of the two byte
lists read as big-endian numbers. -/
theorem in_addr_prefix_intersect_loop_eq : ∀ (a b : List Nat) (m : Nat),
    a.length = b.length → (∀ x ∈ a, x < 256) → (∀ x ∈ b, x < 256) → m ≤ 8 * a.length →
    in_addr_prefix_intersect_loop a b m =
      if be_value a / 2 ^ (8 * a.length - m) = be_value b / 2 ^ (8 * a.length - m) then 1 else 0
  | [], [], m, _, _, _, _ => by simp [in_addr_prefix_intersect_loop]
  | [], _ :: _, _, hl, _, _, _ => by simp at hl
  | _ :: _, [], _, hl, _, _, _ => by simp at hl
  | xa :: a, xb :: b, m, hl, ha, hb, hm => by
    have hl1 : a.length = b.length := by simpa using hl
    have hxa : xa < 256 := ha xa (List.mem_cons_self xa a)
    have hxb : xb < 256 := hb xb (List.mem_cons_self xb b)
    have ha1 : ∀ x ∈ a, x < 256 := fun y hy => ha y (List.mem_cons_of_mem xa hy)
    have hb1 : ∀ x ∈ b, x < 256 := fun y hy => hb y (List.mem_cons_of_mem xb hy)
    have hva := be_value_lt a ha1
    have hvb := be_value_lt b hb1
    rw [← hl1] at hvb
    have hlen : (xa :: a).length = a.length + 1 := rfl
    rw [in_addr_prefix_intersect_loop, be_value_cons, be_value_cons, ← hl1, hlen]
    rw [hlen] at hm
    by_cases hm8 : m < 8
    · have ek : 8 * (a.length + 1) - m = 8 * a.length + (8 - m) := by omega
      have hrec := in_addr_prefix_intersect_loop_eq a b 0 hl1 ha1 hb1 (by omega)
      rw [Nat.sub_zero, Nat.div_eq_of_lt hva, Nat.div_eq_of_lt hvb, if_pos rfl] at hrec
      have hmask : (xa ^^^ xb) &&& ((0xFF <<< (8 - m)) % 256) = 0 ↔
          xa / 2 ^ (8 - m) = xb / 2 ^ (8 - m) :=
        xor_and_mask_eq_zero 8 (8 - m) xa xb (by omega) (by omega)
      rw [ek, shift_top xa _ _ _ hva, shift_top xb _ _ _ hvb]
      simp only [hm8, if_true, if_neg (show ¬ 8 < m by omega), hrec]
      by_cases hq : xa / 2 ^ (8 - m) = xb / 2 ^ (8 - m)
      · rw [if_pos hq, if_neg (not_not.mpr (hmask.mpr hq))]
      · rw [if_neg hq, if_pos (fun h => hq (hmask.mp h))]
    · have ek : 8 * (a.length + 1) - m = 8 * a.length - (m - 8) := by omega
      have hm' : (if 8 < m then m - 8 else 0) = m - 8 := by
        split_ifs <;> omega
      have hrec := in_addr_prefix_intersect_loop_eq a b (m - 8) hl1 ha1 hb1 (by omega)
      have hx : xa ^^^ xb < 256 := Nat.xor_lt_two_pow (n := 8) hxa hxb
      simp only [hm8, if_false, hm', hrec, and_0xFF _ hx, ek]
      by_cases hq : xa = xb
      · subst hq
        have h0 : xa ^^^ xa = 0 := Nat.xor_self xa
        rw [shift_split xa _ _ _ (Nat.sub_le _ _), shift_split xa _ _ _ (Nat.sub_le _ _)]
        simp [h0]
      · have h0 : xa ^^^ xb ≠ 0 := by
          intro h
          exact hq (Nat.xor_eq_zero.mp h)
        have hne : ¬ (xa * 2 ^ (8 * a.length) + be_value a) / 2 ^ (8 * a.length - (m - 8)) =
            (xb * 2 ^ (8 * a.length) + be_value b) / 2 ^ (8 * a.length - (m - 8)) := by
          intro h
          exact hq (shift_split_inj xa xb _ _ _ _ (Nat.sub_le _ _) hva hvb h)
        simp [h0, hne]

/-- The AF_INET branch of `in_addr_prefix_intersect` compares the first `min` bits. -/
theorem in_addr_prefix_intersect_inet (a b : in_addr_union) (aprefixlen bprefixlen : Nat)
    (ha : a.in_ < 2 ^ 32) (hb : b.in_ < 2 ^ 32) (hm : min aprefixlen bprefixlen ≤ 32) :
    in_addr_prefix_intersect AF_INET a aprefixlen b bprefixlen =
      some (if a.in_ / 2 ^ (32 - min aprefixlen bprefixlen) =
        b.in_ / 2 ^ (32 - min aprefixlen bprefixlen) then 1 else 0) := by
  unfold in_addr_prefix_intersect
  simp only [if_true, if_neg (show ¬ 32 < min aprefixlen bprefixlen by omega)]
  by_cases h0 : min aprefixlen bprefixlen = 0
  · rw [h0, if_pos rfl, Nat.and_zero, if_pos rfl, Nat.sub_zero, Nat.div_eq_of_lt ha,
      Nat.div_eq_of_lt hb, if_pos rfl]
  · have hmask : (a.in_ ^^^ b.in_) &&&
          ((0xFFFFFFFF <<< (32 - min aprefixlen bprefixlen)) % 2 ^ 32) = 0 ↔
        a.in_ / 2 ^ (32 - min aprefixlen bprefixlen) =
          b.in_ / 2 ^ (32 - min aprefixlen bprefixlen) :=
      xor_and_mask_eq_zero 32 _ a.in_ b.in_ ha hb
    rw [if_neg h0]
    by_cases hq : a.in_ / 2 ^ (32 - min aprefixlen bprefixlen) =
        b.in_ / 2 ^ (32 - min aprefixlen bprefixlen)
    · rw [if_pos hq, if_pos (hmask.mpr hq)]
    · rw [if_neg hq, if_neg (fun h => hq (hmask.mp h))]

/-- The AF_INET6 branch of `in_addr_prefix_intersect` compares the first `min` bits, at most
128 of them. -/
theorem in_addr_prefix_intersect_inet6 (a b : in_addr_union) (aprefixlen bprefixlen : Nat)
    (ha : is_in6_addr a.in6) (hb : is_in6_addr b.in6) :
    in_addr_prefix_intersect AF_INET6 a aprefixlen b bprefixlen =
      some (if be_value a.in6 / 2 ^ (128 - min (min aprefixlen bprefixlen) 128) =
        be_value b.in6 / 2 ^ (128 - min (min aprefixlen bprefixlen) 128) then 1 else 0) := by
  have hmin : (if 128 < min aprefixlen bprefixlen then 128 else min aprefixlen bprefixlen) =
      min (min aprefixlen bprefixlen) 128 := by
    split_ifs with h
    · exact (min_eq_right (by omega)).symm
    · exact (min_eq_left (by omega)).symm
  unfold in_addr_prefix_intersect
  simp only [if_neg (show ¬ AF_INET6 = AF_INET by decide), if_true, hmin]
  rw [in_addr_prefix_intersect_loop_eq a.in6 b.in6 _ (ha.1.trans hb.1.symm) ha.2 hb.2
    (by rw [ha.1]; omega), ha.1]

/-- C22: `in_addr_prefix_intersect` returns 1 exactly when `a` and `b` agree on their first
`min aprefixlen bprefixlen` bits, which is exactly when some address lies in both networks,
and 0 otherwise: for AF_INET with both prefix lengths at most 32, and for AF_INET6 with any
prefix lengths, lengths above 128 counting as 128; for every other family it returns
`-EAFNOSUPPORT`. An IPv4 address is its host-order number and an IPv6 address the big-endian
value of its 16 bytes; the first `p` bits of a `w`-bit value `v` are `v / 2 ^ (w - p)`. -/
theorem in_addr_prefix_intersect_agree (family : Int) (a b : in_addr_union)
    (aprefixlen bprefixlen : Nat) (ha4 : a.in_ < 2 ^ 32) (hb4 : b.in_ < 2 ^ 32)
    (ha6 : is_in6_addr a.in6) (hb6 : is_in6_addr b.in6) :
    (aprefixlen ≤ 32 → bprefixlen ≤ 32 →
      in_addr_prefix_intersect AF_INET a aprefixlen b bprefixlen =
        some (if a.in_ / 2 ^ (32 - min aprefixlen bprefixlen) =
          b.in_ / 2 ^ (32 - min aprefixlen bprefixlen) then 1 else 0) ∧
      (a.in_ / 2 ^ (32 - min aprefixlen bprefixlen) =
          b.in_ / 2 ^ (32 - min aprefixlen bprefixlen) ↔
        ∃ c, c < 2 ^ 32 ∧ c / 2 ^ (32 - aprefixlen) = a.in_ / 2 ^ (32 - aprefixlen) ∧
          c / 2 ^ (32 - bprefixlen) = b.in_ / 2 ^ (32 - bprefixlen))) ∧
    (in_addr_prefix_intersect AF_INET6 a aprefixlen b bprefixlen =
        some (if be_value a.in6 / 2 ^ (128 - min (min aprefixlen bprefixlen) 128) =
          be_value b.in6 / 2 ^ (128 - min (min aprefixlen bprefixlen) 128) then 1 else 0) ∧
      (be_value a.in6 / 2 ^ (128 - min (min aprefixlen bprefixlen) 128) =
          be_value b.in6 / 2 ^ (128 - min (min aprefixlen bprefixlen) 128) ↔
        ∃ c, c < 2 ^ 128 ∧
          c / 2 ^ (128 - min aprefixlen 128) = be_value a.in6 / 2 ^ (128 - min aprefixlen 128) ∧
          c / 2 ^ (128 - min bprefixlen 128) =
            be_value b.in6 / 2 ^ (128 - min bprefixlen 128))) ∧
    (family ≠ AF_INET → family ≠ AF_INET6 →
      in_addr_prefix_intersect family a aprefixlen b bprefixlen = some (-EAFNOSUPPORT)) := by
  refine ⟨?_, ⟨?_, ?_⟩, ?_⟩
  · intro hap hbp
    exact ⟨in_addr_prefix_intersect_inet a b aprefixlen bprefixlen ha4 hb4
      (le_trans (min_le_left _ _) hap), agree_iff_common 32 _ _ _ _ ha4 hb4 hap hbp⟩
  · exact in_addr_prefix_intersect_inet6 a b aprefixlen bprefixlen ha6 hb6
  · have hva := be_value_lt a.in6 ha6.2
    have hvb := be_value_lt b.in6 hb6.2
    rw [ha6.1] at hva
    rw [hb6.1] at hvb
    have hmm : min (min aprefixlen bprefixlen) 128 =
        min (min aprefixlen 128) (min bprefixlen 128) := by
      omega
    rw [hmm]
    exact agree_iff_common 128 _ _ _ _ hva hvb (min_le_right _ _) (min_le_right _ _)
  · intro h4 h6
    unfold in_addr_prefix_intersect
    simp only [if_neg h4, if_neg h6]

/-- C22 on 192.168.1.5/24 and 192.168.7.9/16 (and 2001:db8::105/24, 2001:db8:7::9/16),
with family 0 for the unsupported case. -/
theorem in_addr_prefix_intersect_agree_witness :
    (24 ≤ 32 → 16 ≤ 32 →
      in_addr_prefix_intersect AF_INET sample_a 24 sample_b 16 =
        some (if sample_a.in_ / 2 ^ (32 - min 24 16) =
          sample_b.in_ / 2 ^ (32 - min 24 16) then 1 else 0) ∧
      (sample_a.in_ / 2 ^ (32 - min 24 16) =
          sample_b.in_ / 2 ^ (32 - min 24 16) ↔
        ∃ c, c < 2 ^ 32 ∧ c / 2 ^ (32 - 24) = sample_a.in_ / 2 ^ (32 - 24) ∧
          c / 2 ^ (32 - 16) = sample_b.in_ / 2 ^ (32 - 16))) ∧
    (in_addr_prefix_intersect AF_INET6 sample_a 24 sample_b 16 =
        some (if be_value sample_a.in6 / 2 ^ (128 - min (min 24 16) 128) =
          be_value sample_b.in6 / 2 ^ (128 - min (min 24 16) 128) then 1 else 0) ∧
      (be_value sample_a.in6 / 2 ^ (128 - min (min 24 16) 128) =
          be_value sample_b.in6 / 2 ^ (128 - min (min 24 16) 128) ↔
        ∃ c, c < 2 ^ 128 ∧
          c / 2 ^ (128 - min 24 128) = be_value sample_a.in6 / 2 ^ (128 - min 24 128) ∧
          c / 2 ^ (128 - min 16 128) =
            be_value sample_b.in6 / 2 ^ (128 - min 16 128))) ∧
    (AF_UNSPEC ≠ AF_INET → AF_UNSPEC ≠ AF_INET6 →
      in_addr_prefix_intersect AF_UNSPEC sample_a 24 sample_b 16 = some (-EAFNOSUPPORT)) :=
  in_addr_prefix_intersect_agree AF_UNSPEC sample_a sample_b 24 16 (by decide) (by decide)
    (by decide) (by decide)

/-- C22, evaluated: 192.168.1.5/24 and 192.168.7.9/16 intersect, as /24 networks they do not;
with a prefix length of 0 any two addresses intersect; the same for the IPv6 members, where a
prefix length of 200 compares all 128 bits. -/
theorem in_addr_prefix_intersect_run :
    in_addr_prefix_intersect AF_INET sample_a 24 sample_b 16 = some 1 ∧
    in_addr_prefix_intersect AF_INET sample_a 24 sample_b 24 = some 0 ∧
    in_addr_prefix_intersect AF_INET sample_a 0 sample_b 32 = some 1 ∧
    in_addr_prefix_intersect AF_INET sample_a 33 sample_b 40 = none ∧
    in_addr_prefix_intersect AF_INET6 sample_a 32 sample_b 64 = some 1 ∧
    in_addr_prefix_intersect AF_INET6 sample_a 48 sample_b 64 = some 0 ∧
    in_addr_prefix_intersect AF_INET6 sample_a 200 sample_a 255 = some 1 ∧
    in_addr_prefix_intersect AF_INET6 sample_a 200 sample_b 255 = some 0 ∧
    in_addr_prefix_intersect AF_UNSPEC sample_a 24 sample_b 16 = some (-97) := by
  decide

/-! ## Masking an address -/

/-- Bit `j` of a value with its low `k` bits cleared. -/
theorem testBit_div_mul (z k j : Nat) :
    (z / 2 ^ k * 2 ^ k).testBit j = (decide (k ≤ j) && z.testBit j) := by
  rw [← Nat.shiftRight_eq_div_pow, ← Nat.shiftLeft_eq, Nat.testBit_shiftLeft,
    Nat.testBit_shiftRight]
  by_cases hjk : k ≤ j
  · have e : k + (j - k) = j := by omega
    simp [hjk, e]
  · simp [hjk]

/-- The AF_INET6 loop of `in_addr_mask` keeps the number of bytes. -/
theorem in_addr_mask_loop_length : ∀ (l : List Nat) (p : Nat),
    (in_addr_mask_loop l p).length = l.length
  | [], _ => rfl
  | x :: l, p => by
    rw [in_addr_mask_loop]
    split_ifs
    · rw [List.length_cons, List.length_cons, in_addr_mask_loop_length l (p - 8)]
    · rw [List.length_cons, List.length_cons, in_addr_mask_loop_length l 0]

/-- The AF_INET6 loop of `in_addr_mask` produces bytes. -/
theorem in_addr_mask_loop_lt : ∀ (l : List Nat) (p : Nat), (∀ x ∈ l, x < 256) →
    ∀ x ∈ in_addr_mask_loop l p, x < 256
  | [], _, _ => by simp [in_addr_mask_loop]
  | x :: l, p, h => by
    have hx : x < 256 := h x (List.mem_cons_self x l)
    have hl : ∀ y ∈ l, y < 256 := fun y hy => h y (List.mem_cons_of_mem x hy)
    rw [in_addr_mask_loop]
    split_ifs
    · intro y hy
      rcases List.mem_cons.mp hy with e | hy'
      · rw [e]
        exact lt_of_le_of_lt Nat.and_le_left hx
      · exact in_addr_mask_loop_lt l (p - 8) hl y hy'
    · intro y hy
      rcases List.mem_cons.mp hy with e | hy'
      · rw [e]
        exact lt_of_le_of_lt Nat.and_le_left hx
      · exact in_addr_mask_loop_lt l 0 hl y hy'

/-- The AF_INET6 loop of `in_addr_mask` clears all but the first `p` bits of the big-endian
value. -/
theorem in_addr_mask_loop_value : ∀ (l : List Nat) (p : Nat), (∀ x ∈ l, x < 256) →
    be_value (in_addr_mask_loop l p) =
      be_value l / 2 ^ (8 * l.length - min p (8 * l.length)) *
        2 ^ (8 * l.length - min p (8 * l.length))
  | [], _, _ => by simp [in_addr_mask_loop, be_value]
  | x :: l, p, h => by
    have hx : x < 256 := h x (List.mem_cons_self x l)
    have hl : ∀ y ∈ l, y < 256 := fun y hy => h y (List.mem_cons_of_mem x hy)
    have hv := be_value_lt l hl
    have hlen : (x :: l).length = l.length + 1 := rfl
    rw [in_addr_mask_loop, hlen, be_value_cons]
    by_cases hp : 8 ≤ p
    · have ek : 8 * (l.length + 1) - min p (8 * (l.length + 1)) =
          8 * l.length - min (p - 8) (8 * l.length) := by
        omega
      have e2 : 2 ^ (8 * l.length) =
          2 ^ (8 * l.length - (8 * l.length - min (p - 8) (8 * l.length))) *
            2 ^ (8 * l.length - min (p - 8) (8 * l.length)) := by
        rw [← pow_add]
        congr 1
        omega
      rw [if_pos hp, be_value_cons, in_addr_mask_loop_length, in_addr_mask_loop_value l (p - 8) hl,
        and_0xFF x hx, ek, shift_split x _ _ _ (Nat.sub_le _ _), Nat.add_mul, Nat.mul_assoc, ← e2]
    · have ek : 8 * (l.length + 1) - min p (8 * (l.length + 1)) = 8 * l.length + (8 - p) := by
        omega
      have hmask : x &&& ((0xFF <<< (8 - p)) % 256) = x / 2 ^ (8 - p) * 2 ^ (8 - p) :=
        and_shiftLeft_ones_mod 8 (8 - p) x hx
      rw [if_neg hp, be_value_cons, in_addr_mask_loop_length, in_addr_mask_loop_value l 0 hl,
        hmask, ek, shift_top x _ _ _ hv, Nat.zero_min, Nat.sub_zero, Nat.div_eq_of_lt hv,
        Nat.zero_mul, Nat.add_zero, pow_add, Nat.mul_assoc, Nat.mul_comm (2 ^ (8 - p))]

/-- Masking twice in the AF_INET6 loop is masking once. -/
theorem in_addr_mask_loop_idem : ∀ (l : List Nat) (p : Nat),
    in_addr_mask_loop (in_addr_mask_loop l p) p = in_addr_mask_loop l p
  | [], _ => rfl
  | x :: l, p => by
    by_cases hp : 8 ≤ p
    · rw [in_addr_mask_loop, if_pos hp, in_addr_mask_loop, if_pos hp,
        in_addr_mask_loop_idem l (p - 8), Nat.and_assoc, Nat.and_self]
    · rw [in_addr_mask_loop, if_neg hp, in_addr_mask_loop, if_neg hp,
        in_addr_mask_loop_idem l 0, Nat.and_assoc, Nat.and_self]

/-- The AF_INET branch of `in_addr_mask` clears the low `32 - prefixlen` bits. -/
theorem in_addr_mask_inet (addr : in_addr_union) (prefixlen : Nat) (h4 : addr.in_ < 2 ^ 32)
    (hp : prefixlen ≤ 32) :
    in_addr_mask AF_INET addr prefixlen =
      some (0, { addr with in_ := addr.in_ / 2 ^ (32 - prefixlen) * 2 ^ (32 - prefixlen) }) := by
  unfold in_addr_mask in_addr_prefixlen_to_netmask
  rw [if_pos rfl, if_neg (by omega)]
  by_cases h0 : prefixlen = 0
  · rw [if_pos h0, h0]
    simp only [Nat.and_zero, Nat.sub_zero, Nat.div_eq_of_lt h4, Nat.zero_mul]
  · have hmask : addr.in_ &&& ((0xffffffff <<< (32 - prefixlen)) % 2 ^ 32) =
        addr.in_ / 2 ^ (32 - prefixlen) * 2 ^ (32 - prefixlen) :=
      and_shiftLeft_ones_mod 32 (32 - prefixlen) addr.in_ h4
    have hm : ((0xffffffff <<< (32 - prefixlen)) % 2 ^ 32) &&& 0xffffffff =
        (0xffffffff <<< (32 - prefixlen)) % 2 ^ 32 :=
      (Nat.and_pow_two_sub_one_eq_mod _ 32).trans (Nat.mod_mod _ _)
    rw [if_neg h0]
    simp only [hm, hmask]

/-- C27: `in_addr_mask` returns 0 and replaces the address by its network part, in which the
first `min prefixlen width` bits are kept and every later bit is cleared: for AF_INET (width
32, the address as its host-order number) with a prefix length of at most 32, and for AF_INET6
(width 128, the address as the big-endian value of its bytes) with any prefix length. Masking
the result again with the same prefix length changes nothing, and the result intersects the
original address under `in_addr_prefix_intersect` with that prefix length. -/
theorem in_addr_mask_network_part (addr : in_addr_union) (prefixlen : Nat)
    (h4 : addr.in_ < 2 ^ 32) (h6 : is_in6_addr addr.in6) :
    (prefixlen ≤ 32 →
      ∃ r : Nat, in_addr_mask AF_INET addr prefixlen = some (0, { addr with in_ := r }) ∧
        r = addr.in_ / 2 ^ (32 - prefixlen) * 2 ^ (32 - prefixlen) ∧
        (∀ j, r.testBit j = (decide (32 - prefixlen ≤ j) && addr.in_.testBit j)) ∧
        in_addr_mask AF_INET { addr with in_ := r } prefixlen =
          some (0, { addr with in_ := r }) ∧
        in_addr_prefix_intersect AF_INET { addr with in_ := r } prefixlen addr prefixlen =
          some 1) ∧
    (∃ r : List Nat, in_addr_mask AF_INET6 addr prefixlen = some (0, { addr with in6 := r }) ∧
      is_in6_addr r ∧
      be_value r = be_value addr.in6 / 2 ^ (128 - min prefixlen 128) *
        2 ^ (128 - min prefixlen 128) ∧
      (∀ j, (be_value r).testBit j =
        (decide (128 - min prefixlen 128 ≤ j) && (be_value addr.in6).testBit j)) ∧
      in_addr_mask AF_INET6 { addr with in6 := r } prefixlen =
        some (0, { addr with in6 := r }) ∧
      in_addr_prefix_intersect AF_INET6 { addr with in6 := r } prefixlen addr prefixlen =
        some 1) := by
  constructor
  · intro hp
    have hr : addr.in_ / 2 ^ (32 - prefixlen) * 2 ^ (32 - prefixlen) < 2 ^ 32 :=
      lt_of_le_of_lt (Nat.div_mul_le_self _ _) h4
    refine ⟨addr.in_ / 2 ^ (32 - prefixlen) * 2 ^ (32 - prefixlen),
      in_addr_mask_inet addr prefixlen h4 hp, rfl, testBit_div_mul _ _, ?_, ?_⟩
    · rw [in_addr_mask_inet _ prefixlen hr hp]
      simp only [div_two_pow_mul_div]
    · rw [in_addr_prefix_intersect_inet _ addr prefixlen prefixlen hr h4 (by rw [min_self]; exact hp)]
      simp only [min_self, div_two_pow_mul_div, if_true]
  · have hv : be_value (in_addr_mask_loop addr.in6 prefixlen) =
        be_value addr.in6 / 2 ^ (128 - min prefixlen 128) * 2 ^ (128 - min prefixlen 128) := by
      rw [in_addr_mask_loop_value addr.in6 prefixlen h6.2, h6.1]
    have hr : is_in6_addr (in_addr_mask_loop addr.in6 prefixlen) :=
      ⟨(in_addr_mask_loop_length _ _).trans h6.1, in_addr_mask_loop_lt _ _ h6.2⟩
    have hm : ∀ a : in_addr_union, in_addr_mask AF_INET6 a prefixlen =
        some (0, { a with in6 := in_addr_mask_loop a.in6 prefixlen }) := by
      intro a
      unfold in_addr_mask
      rw [if_neg (by decide), if_pos rfl]
    refine ⟨in_addr_mask_loop addr.in6 prefixlen, hm addr, hr, hv, ?_, ?_, ?_⟩
    · intro j
      rw [hv, testBit_div_mul]
    · rw [hm]
      simp only [in_addr_mask_loop_idem]
    · rw [in_addr_prefix_intersect_inet6 _ addr prefixlen prefixlen hr h6]
      simp only [min_self, hv, div_two_pow_mul_div, if_true]

/-- C27 on 192.168.1.5 and 2001:db8::105 with a prefix length of 20. -/
theorem in_addr_mask_network_part_witness :
    (20 ≤ 32 →
      ∃ r : Nat, in_addr_mask AF_INET sample_a 20 = some (0, { sample_a with in_ := r }) ∧
        r = sample_a.in_ / 2 ^ (32 - 20) * 2 ^ (32 - 20) ∧
        (∀ j, r.testBit j = (decide (32 - 20 ≤ j) && sample_a.in_.testBit j)) ∧
        in_addr_mask AF_INET { sample_a with in_ := r } 20 =
          some (0, { sample_a with in_ := r }) ∧
        in_addr_prefix_intersect AF_INET { sample_a with in_ := r } 20 sample_a 20 =
          some 1) ∧
    (∃ r : List Nat, in_addr_mask AF_INET6 sample_a 20 = some (0, { sample_a with in6 := r }) ∧
      is_in6_addr r ∧
      be_value r = be_value sample_a.in6 / 2 ^ (128 - min 20 128) *
        2 ^ (128 - min 20 128) ∧
      (∀ j, (be_value r).testBit j =
        (decide (128 - min 20 128 ≤ j) && (be_value sample_a.in6).testBit j)) ∧
      in_addr_mask AF_INET6 { sample_a with in6 := r } 20 =
        some (0, { sample_a with in6 := r }) ∧
      in_addr_prefix_intersect AF_INET6 { sample_a with in6 := r } 20 sample_a 20 =
        some 1) :=
  in_addr_mask_network_part sample_a 20 (by decide) (by decide)

/-- C27, evaluated: 192.168.1.5 masked with 20 bits is 192.168.0.0 and with 32 bits itself;
2001:db8::105 masked with 20 bits is 2001::, with 200 bits itself; 33 bits for AF_INET fail
the assertion of `in_addr_prefixlen_to_netmask`. -/
theorem in_addr_mask_run :
    in_addr_mask AF_INET sample_a 20 = some (0, { sample_a with in_ := 0xC0A80000 }) ∧
    in_addr_mask AF_INET sample_a 32 = some (0, sample_a) ∧
    in_addr_mask AF_INET sample_a 0 = some (0, { sample_a with in_ := 0 }) ∧
    in_addr_mask AF_INET sample_a 33 = none ∧
    in_addr_mask AF_INET6 sample_a 20 =
      some (0, { sample_a with in6 := [0x20, 0x01, 0, 0, 0, 0, 0, 0, 0, 0, 0, 0, 0, 0, 0, 0] }) ∧
    in_addr_mask AF_INET6 sample_a 200 = some (0, sample_a) ∧
    in_addr_mask AF_UNSPEC sample_a 20 = some (-97, sample_a) := by
  decide

/-! ## The next IPv6 network -/

/-- The value of a byte list with one more byte at its low end. -/
theorem be_value_append_singleton : ∀ (l : List Nat) (x : Nat),
    be_value (l ++ [x]) = be_value l * 256 + x
  | [], x => by simp [be_value]
  | y :: l, x => by
    rw [List.cons_append, be_value, be_value, be_value_append_singleton l x,
      List.length_append, List.length_singleton, pow_succ]
    ring

/-- What `in_addr_prefix_next` adds for the prefix lengths 1 to 128: 16 bytes, each at most
128, of big-endian value `2 ^ (128 - prefixlen)`. -/
theorem prefix_add_value (prefixlen : Nat) (h1 : 1 ≤ prefixlen) (h128 : prefixlen ≤ 128) :
    ((List.replicate 16 0).set ((prefixlen - 1) / 8)
        (1 <<< (7 - (prefixlen - 1) % 8))).length = 16 ∧
    (∀ d ∈ (List.replicate 16 0).set ((prefixlen - 1) / 8) (1 <<< (7 - (prefixlen - 1) % 8)),
      d ≤ 128) ∧
    be_value ((List.replicate 16 0).set ((prefixlen - 1) / 8)
        (1 <<< (7 - (prefixlen - 1) % 8))) = 2 ^ (128 - prefixlen) := by
  interval_cases prefixlen <;> exact ⟨rfl, by decide, by decide⟩

/-- The byte-wise addition loop of `in_addr_prefix_next`, run from the last byte with a carry
in of at most 1 and addend bytes of at most 128, adds the two numbers exactly: the bytes
produced and the carry out together hold the sum. -/
theorem in_addr_prefix_next_loop_sum : ∀ (u add : List Nat) (overflow : Nat),
    u.length = add.length → (∀ x ∈ u, x < 256) → (∀ d ∈ add, d ≤ 128) → overflow ≤ 1 →
    (in_addr_prefix_next_loop u add overflow).1.length = u.length ∧
    (∀ y ∈ (in_addr_prefix_next_loop u add overflow).1, y < 256) ∧
    (in_addr_prefix_next_loop u add overflow).2 ≤ 1 ∧
    be_value (in_addr_prefix_next_loop u add overflow).1.reverse +
        (in_addr_prefix_next_loop u add overflow).2 * 256 ^ u.length =
      be_value u.reverse + be_value add.reverse + overflow
  | [], [], overflow, _, _, _, ho => by
    simp [in_addr_prefix_next_loop, be_value, ho]
  | [], _ :: _, _, hl, _, _, _ => by simp at hl
  | _ :: _, [], _, hl, _, _, _ => by simp at hl
  | x :: u, d :: add, overflow, hl, hu, hadd, ho => by
    have hl1 : u.length = add.length := by simpa using hl
    have hx : x < 256 := hu x (List.mem_cons_self x u)
    have hd : d ≤ 128 := hadd d (List.mem_cons_self d add)
    have hu1 : ∀ y ∈ u, y < 256 := fun y hy => hu y (List.mem_cons_of_mem x hy)
    have hadd1 : ∀ y ∈ add, y ≤ 128 := fun y hy => hadd y (List.mem_cons_of_mem d hy)
    have hc : (if (x + d + overflow) % 256 < x then 1 else 0) ≤ 1 := by
      split_ifs <;> omega
    have hsum : 256 * (if (x + d + overflow) % 256 < x then 1 else 0) +
        (x + d + overflow) % 256 = x + d + overflow := by
      split_ifs <;> omega
    obtain ⟨h1, h2, h3, h4⟩ := in_addr_prefix_next_loop_sum u add
      (if (x + d + overflow) % 256 < x then 1 else 0) hl1 hu1 hadd1 hc
    rw [in_addr_prefix_next_loop]
    refine ⟨?_, ?_, h3, ?_⟩
    · simp only [List.length_cons, h1]
    · intro y hy
      rcases List.mem_cons.mp hy with e | hy'
      · rw [e]
        exact Nat.mod_lt _ (by decide)
      · exact h2 y hy'
    · simp only [List.reverse_cons, be_value_append_singleton, List.length_cons, pow_succ]
      nlinarith [h4, hsum]

/-- The AF_INET6 branch of `in_addr_prefix_next`, for any prefix length of at least 1. -/
theorem in_addr_prefix_next_inet6 (u : in_addr_union) (prefixlen : Nat)
    (h6 : is_in6_addr u.in6) (hp : 1 ≤ prefixlen) :
    ∃ r : List Nat, ∃ overflow : Nat,
      in_addr_prefix_next AF_INET6 u prefixlen =
        (if overflow ≠ 0 then (0, u) else (1, { u with in6 := r })) ∧
      is_in6_addr r ∧ overflow ≤ 1 ∧
      be_value r + overflow * 2 ^ 128 = be_value u.in6 + 2 ^ (128 - min prefixlen 128) := by
  have hmin : (if 128 < prefixlen then 128 else prefixlen) = min prefixlen 128 := by
    split_ifs with h
    · exact (min_eq_right (by omega)).symm
    · exact (min_eq_left (by omega)).symm
  obtain ⟨a1, a2, a3⟩ := prefix_add_value (min prefixlen 128) (by omega) (min_le_right _ _)
  have hlen : u.in6.reverse.length = ((List.replicate 16 0).set ((min prefixlen 128 - 1) / 8)
      (1 <<< (7 - (min prefixlen 128 - 1) % 8))).reverse.length := by
    rw [List.length_reverse, List.length_reverse, a1, h6.1]
  obtain ⟨h1, h2, h3, h4⟩ := in_addr_prefix_next_loop_sum u.in6.reverse
    ((List.replicate 16 0).set ((min prefixlen 128 - 1) / 8)
      (1 <<< (7 - (min prefixlen 128 - 1) % 8))).reverse 0 hlen
    (fun x hx => h6.2 x (List.mem_reverse.mp hx))
    (fun d hd => a2 d (List.mem_reverse.mp hd)) (by decide)
  rw [List.reverse_reverse, List.reverse_reverse, a3, List.length_reverse, h6.1,
    Nat.add_zero] at h4
  rw [List.length_reverse, h6.1] at h1
  have hnext : in_addr_prefix_next AF_INET6 u prefixlen =
      if (in_addr_prefix_next_loop u.in6.reverse
          ((List.replicate 16 0).set ((min prefixlen 128 - 1) / 8)
            (1 <<< (7 - (min prefixlen 128 - 1) % 8))).reverse 0).2 ≠ 0 then (0, u)
      else (1, { u with in6 := (in_addr_prefix_next_loop u.in6.reverse
          ((List.replicate 16 0).set ((min prefixlen 128 - 1) / 8)
            (1 <<< (7 - (min prefixlen 128 - 1) % 8))).reverse 0).1.reverse }) := by
    unfold in_addr_prefix_next
    rw [if_neg (by omega), if_neg (by decide), if_pos rfl]
    simp only [hmin]
  generalize in_addr_prefix_next_loop u.in6.reverse
    ((List.replicate 16 0).set ((min prefixlen 128 - 1) / 8)
      (1 <<< (7 - (min prefixlen 128 - 1) % 8))).reverse 0 = q at h1 h2 h3 h4 hnext
  have e : (256 : Nat) ^ 16 = 2 ^ 128 := by decide
  rw [e] at h4
  exact ⟨q.1.reverse, q.2, hnext, ⟨by rw [List.length_reverse, h1],
    fun y hy => h2 y (List.mem_reverse.mp hy)⟩, h3, h4⟩

/-- C24: for AF_INET6 and a prefix length `p` of at least 1 (above 128 taken as 128), with `A`
the address read as a big-endian 128-bit number: if `A + 2 ^ (128 - p) < 2 ^ 128`,
`in_addr_prefix_next` returns 1 and the address becomes exactly `A + 2 ^ (128 - p)`, the
carry being propagated through the bytes; otherwise it returns 0 and leaves the address
unchanged. -/
theorem in_addr_prefix_next_ipv6 (u : in_addr_union) (prefixlen : Nat)
    (h6 : is_in6_addr u.in6) (hp : 1 ≤ prefixlen) :
    (be_value u.in6 + 2 ^ (128 - min prefixlen 128) < 2 ^ 128 →
      ∃ r : List Nat, in_addr_prefix_next AF_INET6 u prefixlen = (1, { u with in6 := r }) ∧
        is_in6_addr r ∧ be_value r = be_value u.in6 + 2 ^ (128 - min prefixlen 128)) ∧
    (¬ be_value u.in6 + 2 ^ (128 - min prefixlen 128) < 2 ^ 128 →
      in_addr_prefix_next AF_INET6 u prefixlen = (0, u)) := by
  obtain ⟨r, overflow, hnext, hr, ho, hsum⟩ := in_addr_prefix_next_inet6 u prefixlen h6 hp
  have hv := be_value_lt r hr.2
  rw [hr.1] at hv
  constructor
  · intro hlt
    have h0 : overflow = 0 := by
      by_contra hne
      have h1 : overflow = 1 := by omega
      rw [h1] at hsum
      omega
    rw [h0] at hsum hnext
    exact ⟨r, by simpa using hnext, hr, by omega⟩
  · intro hge
    have h1 : overflow ≠ 0 := by
      intro h0
      rw [h0] at hsum
      omega
    rw [hnext, if_pos h1]

/-- C24 on 2001:db8::105 with a prefix length of 64. -/
theorem in_addr_prefix_next_ipv6_witness :
    (be_value sample_a.in6 + 2 ^ (128 - min 64 128) < 2 ^ 128 →
      ∃ r : List Nat, in_addr_prefix_next AF_INET6 sample_a 64 =
          (1, { sample_a with in6 := r }) ∧
        is_in6_addr r ∧ be_value r = be_value sample_a.in6 + 2 ^ (128 - min 64 128)) ∧
    (¬ be_value sample_a.in6 + 2 ^ (128 - min 64 128) < 2 ^ 128 →
      in_addr_prefix_next AF_INET6 sample_a 64 = (0, sample_a)) :=
  in_addr_prefix_next_ipv6 sample_a 64 (by decide) (by decide)

/-- C24, evaluated: 2001:db8::105/64 goes to 2001:db8:0:1::105; in 2001:db8:0:ffff::/64 the
carry runs through two bytes to 2001:db8:1::; ffff:ffff:ffff:ffff::/64 overflows and is left
alone; a prefix length of 200 acts as 128 and adds one to the last byte. -/
theorem in_addr_prefix_next_ipv6_run :
    in_addr_prefix_next AF_INET6 sample_a 64 =
      (1, { sample_a with
        in6 := [0x20, 0x01, 0x0d, 0xb8, 0, 0, 0, 0x01, 0, 0, 0, 0, 0, 0, 0x01, 0x05] }) ∧
    in_addr_prefix_next AF_INET6
        ⟨0, [0x20, 0x01, 0x0d, 0xb8, 0, 0, 0xff, 0xff, 0, 0, 0, 0, 0, 0, 0, 0]⟩ 64 =
      (1, ⟨0, [0x20, 0x01, 0x0d, 0xb8, 0, 0x01, 0, 0, 0, 0, 0, 0, 0, 0, 0, 0]⟩) ∧
    in_addr_prefix_next AF_INET6
        ⟨0, [0xff, 0xff, 0xff, 0xff, 0xff, 0xff, 0xff, 0xff, 0, 0, 0, 0, 0, 0, 0, 0]⟩ 64 =
      (0, ⟨0, [0xff, 0xff, 0xff, 0xff, 0xff, 0xff, 0xff, 0xff, 0, 0, 0, 0, 0, 0, 0, 0]⟩) ∧
    in_addr_prefix_next AF_INET6 sample_a 200 =
      (1, { sample_a with
        in6 := [0x20, 0x01, 0x0d, 0xb8, 0, 0, 0, 0, 0, 0, 0, 0, 0, 0, 0x01, 0x06] }) ∧
    in_addr_prefix_next AF_INET6 sample_a 0 = (0, sample_a) ∧
    in_addr_prefix_next AF_UNSPEC sample_a 64 = (-97, sample_a) := by
  decide

end Netlogd
